import Mathlib

/-!
# IMX547 sensor driver: register and timing control model

A shallow embedding of `imx547.c` and `imx547_mode_tbls.h`.

* Machine integers are `Nat` / `Int` with explicit reduction modulo `2^w`
  at every place where the C code converts or can wrap.
* The register map (`regmap`), the reset GPIO and the sleeps are external
  collaborators.  Every call to one of them is recorded, in program order,
  in a trace of `Event`s; the bus answers each access through a `Bus`
  oracle that sees the whole history, so that a theorem quantified over
  `Bus` covers every pattern of transport failures and read-back data.
* A C function `int f(struct stimx547 *priv, ...)` becomes a Lean function
  from the device state and the trace to an `Outcome`, the new device state
  and the new trace.
-/

namespace IMX547

/-! ## Scale factors and limits (imx547.c, lines 38-72) -/

def IMX547_K_FACTOR : Nat := 1000
def IMX547_M_FACTOR : Nat := 1000000
def IMX547_G_FACTOR : Nat := 1000000000
def IMX547_T_FACTOR : Nat := 1000000000000

def IMX547_MIN_GAIN : Int := 0
def IMX547_MAX_GAIN : Int := 480
def IMX547_DEF_GAIN : Int := 0

def IMX547_MIN_BLACK_LEVEL : Int := 0
def IMX547_MAX_BLACK_LEVEL_10BIT : Int := 1023
def IMX547_MAX_BLACK_LEVEL_12BIT : Int := 4095
def IMX547_DEF_BLACK_LEVEL_10BIT : Int := 60
def IMX547_DEF_BLACK_LEVEL_12BIT : Int := 240

def IMX547_MIN_EXPOSURE_TIME : Int := 14
def IMX547_MAX_EXPOSURE_TIME : Int := 660000
def IMX547_DEF_EXPOSURE_TIME : Int := 1000

def IMX547_MAX_FRAME_INTERVAL_10BIT_NUMERATOR : Nat := 5
def IMX547_MAX_FRAME_INTERVAL_10BIT_DENOMINATOR : Nat := 611
def IMX547_MAX_FRAME_INTERVAL_12BIT_NUMERATOR : Nat := 5
def IMX547_MAX_FRAME_INTERVAL_12BIT_DENOMINATOR : Nat := 412
def IMX547_MIN_FRAME_RATE : Nat := 2
def IMX547_DEF_FRAME_RATE : Nat := 60

def IMX547_MIN_SHS_LENGTH_10BIT : Nat := 54
def IMX547_MIN_SHS_LENGTH_12BIT : Nat := 40

def IMX547_DEFAULT_LINE_TIME_10BIT : Nat := 3700
def IMX547_DEFAULT_LINE_TIME_12BIT : Nat := 5500

def IMX547_INCK : Nat := 74250000

/-! ## Constants of the kernel headers the driver uses -/

/-- Media bus code of 10-bit Bayer RGGB (linux/media-bus-format.h). -/
def MEDIA_BUS_FMT_SRGGB10_1X10 : Nat := 0x300f
/-- Media bus code of 10-bit luma (linux/media-bus-format.h). -/
def MEDIA_BUS_FMT_Y10_1X10 : Nat := 0x200a
/-- Media bus code of 12-bit Bayer RGGB (linux/media-bus-format.h). -/
def MEDIA_BUS_FMT_SRGGB12_1X12 : Nat := 0x3012
/-- Media bus code of 12-bit luma (linux/media-bus-format.h). -/
def MEDIA_BUS_FMT_Y12_1X12 : Nat := 0x2013
/-- Invalid argument (errno-base.h). -/
def EINVAL : Int := 22
/-- Result out of range (errno-base.h). -/
def ERANGE : Int := 34

/-! ## Register addresses (imx547_mode_tbls.h, lines 26-102) -/

def STANDBY : Nat := 0x3000
def XMSTA : Nat := 0x3010
def INCKSEL_ST0 : Nat := 0x3014
def INCKSEL_ST1 : Nat := 0x3015
def INCKSEL_ST2 : Nat := 0x3016
def INCKSEL_ST3 : Nat := 0x3018
def INCKSEL_ST4 : Nat := 0x3019
def INCKSEL_ST5 : Nat := 0x301B
def REGHOLD : Nat := 0x3034
def HVMODE : Nat := 0x303C
def VOPB_VBLK_HWID_LOW : Nat := 0x30D0
def VOPB_VBLK_HWID_HIGH : Nat := 0x30D1
def FINFO_HWIDTH_LOW : Nat := 0x30D2
def FINFO_HWIDTH_HIGH : Nat := 0x30D3
def VMAX_LOW : Nat := 0x30D4
def VMAX_MID : Nat := 0x30D5
def VMAX_HIGH : Nat := 0x30D6
def HMAX_LOW : Nat := 0x30D8
def HMAX_HIGH : Nat := 0x30D9
def FREQ : Nat := 0x30DC
def GMRWT : Nat := 0x30E2
def GMTWT : Nat := 0x30E3
def GAINDLY : Nat := 0x30E5
def GSDLY : Nat := 0x30E6
def ADBIT : Nat := 0x3200
def HREVERSE_VREVERSE : Nat := 0x3204
def INCKSEL_N0 : Nat := 0x321C
def INCKSEL_N1 : Nat := 0x321D
def INCKSEL_N2 : Nat := 0x321E
def INCKSEL_N3 : Nat := 0x321F
def INCKSEL_S0 : Nat := 0x3220
def INCKSEL_S1 : Nat := 0x3221
def INCKSEL_S2 : Nat := 0x3222
def INCKSEL_S3 : Nat := 0x3223
def INCKSEL_D0 : Nat := 0x3224
def INCKSEL_D1 : Nat := 0x3225
def INCKSEL_D2 : Nat := 0x3226
def INCKSEL_D3 : Nat := 0x3227
def SLVS_EN : Nat := 0x322B
def LLBLANK_LOW : Nat := 0x323C
def LLBLANK_HIGH : Nat := 0x323D
def VINT_EN : Nat := 0x323E
def SHS_LOW : Nat := 0x3240
def SHS_MID : Nat := 0x3241
def SHS_HIGH : Nat := 0x3242
def TRIGMODE : Nat := 0x3400
def ODBIT : Nat := 0x3430
def SYNCSEL : Nat := 0x343C
def STBSLVS : Nat := 0x3444
def GAIN_RTS : Nat := 0x3502
def GAIN_LOW : Nat := 0x3514
def GAIN_HIGH : Nat := 0x3515
def BLKLEVEL_LOW : Nat := 0x35B4
def BLKLEVEL_HIGH : Nat := 0x35B5
def LANESEL : Nat := 0x3904
def IDLECODE1_LOW : Nat := 0x3934
def IDLECODE1_HIGH : Nat := 0x3935
def IDLECODE2_LOW : Nat := 0x3936
def IDLECODE2_HIGH : Nat := 0x3937
def IDLECODE3_LOW : Nat := 0x3938
def IDLECODE3_HIGH : Nat := 0x3939
def IDLECODE4_LOW : Nat := 0x393A
def IDLECODE4_HIGH : Nat := 0x393B
def CRC_ECC_MODE : Nat := 0x3A00

/-! ## Frame geometry and table sentinels (imx547_mode_tbls.h, lines 108-121) -/

def IMX547_DEFAULT_WIDTH : Nat := 2472
def IMX547_DEFAULT_HEIGHT : Nat := 2064

def IMX547_TABLE_WAIT_MS : Nat := 0
def IMX547_TABLE_END : Nat := 1
def IMX547_WAIT_MS : Nat := 10

def IMX547_MIN_FRAME_DELTA : Nat := 144

def IMX547_TO_LOW_BYTE (x : Nat) : Nat := x &&& 0xFF
def IMX547_TO_MID_BYTE (x : Nat) : Nat := x >>> 8

/-- One entry of a register table: a 16-bit address and an 8-bit value. -/
structure reg_8 where
  addr : Nat
  val : Nat
  deriving DecidableEq, Repr

/-! ## Static register tables (imx547_mode_tbls.h, lines 137-487) -/

/-- Register program imx547_stop of imx547_mode_tbls.h, entry for entry. -/
def imx547_stop : List reg_8 := [
  reg_8.mk STANDBY 0x01,
  reg_8.mk IMX547_TABLE_WAIT_MS IMX547_WAIT_MS,
  reg_8.mk XMSTA 0x01,
  reg_8.mk IMX547_TABLE_WAIT_MS 30,
  reg_8.mk IMX547_TABLE_END 0x00
]

/-- Register program imx547_10bit_mode of imx547_mode_tbls.h, entry for entry. -/
def imx547_10bit_mode : List reg_8 := [
  reg_8.mk HMAX_LOW (IMX547_TO_LOW_BYTE 274),
  reg_8.mk HMAX_HIGH (IMX547_TO_MID_BYTE 274),
  reg_8.mk VMAX_LOW (IMX547_TO_LOW_BYTE 2216),
  reg_8.mk VMAX_MID (IMX547_TO_MID_BYTE 2216),
  reg_8.mk GMRWT 0x08,
  reg_8.mk GMTWT 0x32,
  reg_8.mk GAINDLY 0x02,
  reg_8.mk GSDLY 0x08,
  reg_8.mk ADBIT 0x05,
  reg_8.mk ODBIT 0x00,
  reg_8.mk 0x35A4 0x1C,
  reg_8.mk 0x35A8 0x1C,
  reg_8.mk 0x35EC 0x1C,
  reg_8.mk 0x362C 0x1C,
  reg_8.mk 0x362E 0xEB,
  reg_8.mk 0x362F 0x1F,
  reg_8.mk 0x3654 0x1C,
  reg_8.mk 0x3656 0xEB,
  reg_8.mk 0x3657 0x1F,
  reg_8.mk 0x367C 0x1C,
  reg_8.mk 0x367E 0xEB,
  reg_8.mk 0x367F 0x1F,
  reg_8.mk 0x36E8 0x11,
  reg_8.mk 0x4056 0x0F,
  reg_8.mk 0x4096 0x0F,
  reg_8.mk 0x4460 0x6C,
  reg_8.mk 0x45E6 0x53,
  reg_8.mk 0x45F0 0x90,
  reg_8.mk 0x45F2 0x8A,
  reg_8.mk 0x45F8 0x8E,
  reg_8.mk 0x45FA 0x90,
  reg_8.mk 0x4604 0x8E,
  reg_8.mk 0x4606 0x90,
  reg_8.mk 0x460C 0x8A,
  reg_8.mk 0x460E 0xBB,
  reg_8.mk 0x4614 0x90,
  reg_8.mk 0x4616 0x8A,
  reg_8.mk 0x4634 0x4A,
  reg_8.mk 0x4636 0x90,
  reg_8.mk 0x463C 0x4C,
  reg_8.mk 0x463E 0x92,
  reg_8.mk 0x4644 0x4E,
  reg_8.mk 0x4646 0x94,
  reg_8.mk 0x464C 0x47,
  reg_8.mk 0x464E 0x4D,
  reg_8.mk 0x4654 0x49,
  reg_8.mk 0x4656 0x50,
  reg_8.mk 0x465C 0x4B,
  reg_8.mk 0x465E 0x52,
  reg_8.mk 0x466A 0x9E,
  reg_8.mk 0x4670 0x98,
  reg_8.mk 0x4676 0x96,
  reg_8.mk 0x4678 0xBA,
  reg_8.mk 0x4698 0x93,
  reg_8.mk 0x469A 0xB9,
  reg_8.mk 0x4728 0xD4,
  reg_8.mk 0x4729 0x0E,
  reg_8.mk 0x472E 0x05,
  reg_8.mk 0x472F 0x04,
  reg_8.mk 0x4730 0x04,
  reg_8.mk 0x4731 0x04,
  reg_8.mk 0x4900 0x64,
  reg_8.mk 0x4908 0x6E,
  reg_8.mk IMX547_TABLE_WAIT_MS IMX547_WAIT_MS,
  reg_8.mk IMX547_TABLE_END 0x00
]

/-- Register program imx547_12bit_mode of imx547_mode_tbls.h, entry for entry. -/
def imx547_12bit_mode : List reg_8 := [
  reg_8.mk HMAX_LOW (IMX547_TO_LOW_BYTE 408),
  reg_8.mk HMAX_HIGH (IMX547_TO_MID_BYTE 408),
  reg_8.mk VMAX_LOW (IMX547_TO_LOW_BYTE 2208),
  reg_8.mk VMAX_MID (IMX547_TO_MID_BYTE 2208),
  reg_8.mk GMRWT 0x06,
  reg_8.mk GMTWT 0x24,
  reg_8.mk GAINDLY 0x02,
  reg_8.mk GSDLY 0x10,
  reg_8.mk ADBIT 0x15,
  reg_8.mk ODBIT 0x01,
  reg_8.mk 0x35A4 0x08,
  reg_8.mk 0x35A8 0x08,
  reg_8.mk 0x35EC 0x08,
  reg_8.mk 0x362C 0x64,
  reg_8.mk 0x362E 0x00,
  reg_8.mk 0x362F 0x00,
  reg_8.mk 0x3654 0x64,
  reg_8.mk 0x3656 0x20,
  reg_8.mk 0x3657 0x00,
  reg_8.mk 0x367C 0x64,
  reg_8.mk 0x367E 0x00,
  reg_8.mk 0x367F 0x00,
  reg_8.mk 0x36E8 0x13,
  reg_8.mk 0x4056 0x23,
  reg_8.mk 0x4096 0x23,
  reg_8.mk 0x4460 0x6E,
  reg_8.mk 0x45E6 0x3F,
  reg_8.mk 0x45F0 0x95,
  reg_8.mk 0x45F2 0x8F,
  reg_8.mk 0x45F8 0x93,
  reg_8.mk 0x45FA 0x95,
  reg_8.mk 0x4604 0x93,
  reg_8.mk 0x4606 0x95,
  reg_8.mk 0x460C 0x8F,
  reg_8.mk 0x460E 0xC0,
  reg_8.mk 0x4614 0x95,
  reg_8.mk 0x4616 0x8F,
  reg_8.mk 0x4634 0x36,
  reg_8.mk 0x4636 0x95,
  reg_8.mk 0x463C 0x38,
  reg_8.mk 0x463E 0x97,
  reg_8.mk 0x4644 0x3A,
  reg_8.mk 0x4646 0x99,
  reg_8.mk 0x464C 0x33,
  reg_8.mk 0x464E 0x39,
  reg_8.mk 0x4654 0x35,
  reg_8.mk 0x4656 0x3C,
  reg_8.mk 0x465C 0x37,
  reg_8.mk 0x465E 0x3E,
  reg_8.mk 0x466A 0xA3,
  reg_8.mk 0x4670 0x9D,
  reg_8.mk 0x4676 0x9B,
  reg_8.mk 0x4678 0xBF,
  reg_8.mk 0x4698 0x98,
  reg_8.mk 0x469A 0xBE,
  reg_8.mk 0x4728 0xFB,
  reg_8.mk 0x4729 0x07,
  reg_8.mk 0x472E 0x06,
  reg_8.mk 0x472F 0x06,
  reg_8.mk 0x4730 0x06,
  reg_8.mk 0x4731 0x06,
  reg_8.mk 0x4900 0x6C,
  reg_8.mk 0x4908 0x68,
  reg_8.mk IMX547_TABLE_WAIT_MS IMX547_WAIT_MS,
  reg_8.mk IMX547_TABLE_END 0x00
]

/-- Register program imx547_common_settings of imx547_mode_tbls.h, entry for entry. -/
def imx547_common_settings : List reg_8 := [
  reg_8.mk FREQ 0x00,
  reg_8.mk INCKSEL_ST0 0x0A,
  reg_8.mk INCKSEL_ST1 0x22,
  reg_8.mk INCKSEL_ST2 0xB1,
  reg_8.mk INCKSEL_ST3 0x40,
  reg_8.mk INCKSEL_ST4 0x04,
  reg_8.mk INCKSEL_ST5 0x3A,
  reg_8.mk INCKSEL_N0 0x80,
  reg_8.mk INCKSEL_N1 0x05,
  reg_8.mk INCKSEL_N2 0xE0,
  reg_8.mk INCKSEL_N3 0x00,
  reg_8.mk INCKSEL_S0 0x80,
  reg_8.mk INCKSEL_S1 0x05,
  reg_8.mk INCKSEL_S2 0xE0,
  reg_8.mk INCKSEL_S3 0x00,
  reg_8.mk INCKSEL_D0 0x10,
  reg_8.mk INCKSEL_D1 0x14,
  reg_8.mk INCKSEL_D2 0x20,
  reg_8.mk INCKSEL_D3 0xC0,
  reg_8.mk SLVS_EN 0x02,
  reg_8.mk LLBLANK_LOW 0x19,
  reg_8.mk VINT_EN 0x33,
  reg_8.mk CRC_ECC_MODE 0xD1,
  reg_8.mk VOPB_VBLK_HWID_LOW 0xA8,
  reg_8.mk VOPB_VBLK_HWID_HIGH 0x09,
  reg_8.mk FINFO_HWIDTH_LOW 0xA8,
  reg_8.mk FINFO_HWIDTH_HIGH 0x09,
  reg_8.mk IDLECODE1_LOW 0x3C,
  reg_8.mk IDLECODE1_HIGH 0x01,
  reg_8.mk IDLECODE2_LOW 0xBC,
  reg_8.mk IDLECODE2_HIGH 0x01,
  reg_8.mk IDLECODE3_LOW 0x3C,
  reg_8.mk IDLECODE3_HIGH 0x01,
  reg_8.mk IDLECODE4_LOW 0x3C,
  reg_8.mk IDLECODE4_HIGH 0x01,
  reg_8.mk HVMODE 0x03,
  reg_8.mk LANESEL 0x03,
  reg_8.mk GAIN_RTS 0x09,
  reg_8.mk SYNCSEL 0xF0,
  reg_8.mk 0x3004 0xA8,
  reg_8.mk 0x3005 0x02,
  reg_8.mk 0x3233 0x00,
  reg_8.mk 0x3521 0x3D,
  reg_8.mk 0x3535 0x00,
  reg_8.mk 0x3542 0x27,
  reg_8.mk 0x3546 0x0F,
  reg_8.mk 0x354A 0x20,
  reg_8.mk 0x359C 0x0F,
  reg_8.mk 0x359D 0x02,
  reg_8.mk 0x35A5 0x12,
  reg_8.mk 0x35A9 0x62,
  reg_8.mk 0x35CE 0x0E,
  reg_8.mk 0x35ED 0x12,
  reg_8.mk 0x35F0 0xFB,
  reg_8.mk 0x35F1 0x0B,
  reg_8.mk 0x35F2 0xFB,
  reg_8.mk 0x35F3 0x0B,
  reg_8.mk 0x3642 0x10,
  reg_8.mk 0x366A 0x2E,
  reg_8.mk 0x3670 0xC3,
  reg_8.mk 0x3672 0x05,
  reg_8.mk 0x3674 0xB6,
  reg_8.mk 0x3675 0x01,
  reg_8.mk 0x3676 0x05,
  reg_8.mk 0x3692 0x10,
  reg_8.mk 0x36F5 0x0F,
  reg_8.mk 0x3797 0x20,
  reg_8.mk 0x3E2E 0x07,
  reg_8.mk 0x3E30 0x4E,
  reg_8.mk 0x3E6E 0x07,
  reg_8.mk 0x3E70 0x35,
  reg_8.mk 0x3E96 0x01,
  reg_8.mk 0x3E9E 0x38,
  reg_8.mk 0x3EA0 0x4C,
  reg_8.mk 0x3F3A 0x04,
  reg_8.mk 0x4182 0x00,
  reg_8.mk 0x41A2 0x03,
  reg_8.mk 0x4232 0x3C,
  reg_8.mk 0x4235 0x22,
  reg_8.mk 0x4306 0x00,
  reg_8.mk 0x4307 0x00,
  reg_8.mk 0x4308 0x00,
  reg_8.mk 0x4309 0x00,
  reg_8.mk 0x4310 0x04,
  reg_8.mk 0x4311 0x04,
  reg_8.mk 0x4312 0x04,
  reg_8.mk 0x4313 0x04,
  reg_8.mk 0x431E 0x16,
  reg_8.mk 0x431F 0x16,
  reg_8.mk 0x433C 0x8A,
  reg_8.mk 0x433D 0x02,
  reg_8.mk 0x433E 0xE8,
  reg_8.mk 0x433F 0x05,
  reg_8.mk 0x4340 0x9E,
  reg_8.mk 0x4341 0x0C,
  reg_8.mk 0x446A 0x4C,
  reg_8.mk 0x446E 0x51,
  reg_8.mk 0x4472 0x57,
  reg_8.mk 0x4476 0x79,
  reg_8.mk 0x448A 0x4C,
  reg_8.mk 0x448E 0x51,
  reg_8.mk 0x4492 0x57,
  reg_8.mk 0x4496 0x79,
  reg_8.mk 0x44EC 0x3F,
  reg_8.mk 0x44F0 0x44,
  reg_8.mk 0x44F4 0x4A,
  reg_8.mk 0x4510 0x3F,
  reg_8.mk 0x4514 0x44,
  reg_8.mk 0x4518 0x4A,
  reg_8.mk 0x4576 0xBE,
  reg_8.mk 0x457A 0xB1,
  reg_8.mk 0x4580 0xBC,
  reg_8.mk 0x4584 0xAF,
  reg_8.mk 0x473C 0x06,
  reg_8.mk 0x473D 0x06,
  reg_8.mk 0x473E 0x06,
  reg_8.mk 0x473F 0x06,
  reg_8.mk 0x4749 0x9F,
  reg_8.mk 0x474A 0x99,
  reg_8.mk 0x474B 0x09,
  reg_8.mk 0x4753 0x90,
  reg_8.mk 0x4754 0x99,
  reg_8.mk 0x4755 0x09,
  reg_8.mk 0x4788 0x04,
  reg_8.mk 0x4864 0xDC,
  reg_8.mk 0x4868 0xDC,
  reg_8.mk 0x486C 0xDC,
  reg_8.mk 0x4874 0xDC,
  reg_8.mk 0x4878 0xDC,
  reg_8.mk 0x487C 0xDC,
  reg_8.mk 0x48A4 0xF4,
  reg_8.mk 0x48A8 0xF4,
  reg_8.mk 0x48AC 0xF4,
  reg_8.mk 0x48B4 0xF4,
  reg_8.mk 0x48B8 0xF4,
  reg_8.mk 0x48BC 0xF4,
  reg_8.mk 0x4901 0x0A,
  reg_8.mk 0x4902 0x01,
  reg_8.mk 0x4916 0x00,
  reg_8.mk 0x4917 0x00,
  reg_8.mk 0x4918 0xFF,
  reg_8.mk 0x4919 0x0F,
  reg_8.mk 0x491E 0xFF,
  reg_8.mk 0x491F 0x0F,
  reg_8.mk 0x4920 0x00,
  reg_8.mk 0x4921 0x00,
  reg_8.mk 0x4926 0xFF,
  reg_8.mk 0x4927 0x0F,
  reg_8.mk 0x4928 0x00,
  reg_8.mk 0x4929 0x00,
  reg_8.mk 0x4A34 0x0A,
  reg_8.mk IMX547_TABLE_WAIT_MS IMX547_WAIT_MS,
  reg_8.mk IMX547_TABLE_END 0x0000
]
/-! ## External collaborators: register map, sleeps, reset line -/

/-- One call to an external collaborator, as the driver issues it. -/
inductive Event where
  /-- The call regmap_write(regmap, reg, val). -/
  | regmap_write (reg val : Nat)
  /-- The call regmap_bulk_write(regmap, reg, vals, count), with count the length of vals. -/
  | regmap_bulk_write (reg : Nat) (vals : List Nat)
  /-- The call regmap_bulk_read(regmap, reg, buf, count). -/
  | regmap_bulk_read (reg count : Nat)
  /-- The call usleep_range(min, max), in microseconds. -/
  | usleep_range (min max : Nat)
  /-- The call gpiod_set_value_cansleep(gt_trx_reset_gpio, value). -/
  | gpiod_set_value (value : Nat)
  deriving DecidableEq, Repr

/-- The register bus as the driver sees it: for each access, given everything
that happened before, the error code it returns (0 is success) and, for a
bulk read, the bytes it delivers. -/
structure Bus where
  err : List Event → Event → Int
  data : List Event → Nat → Nat → List Nat

/-- How a call of a driver function ends. -/
inductive Outcome where
  /-- The function returned this value. -/
  | ret (code : Int)
  /-- The C code has no defined behaviour here: a read past the end of a
  table without END entry, or a division by zero. -/
  | undefined
  /-- The call waits for ever on a mutex that is already held. -/
  | blocked
  deriving DecidableEq, Repr

/-- The outcome of a function that makes a call, ignores the value the call
returns, and then returns code. -/
def Outcome.then_return (o : Outcome) (code : Int) : Outcome :=
  match o with
  | Outcome.ret _ => Outcome.ret code
  | Outcome.undefined => Outcome.undefined
  | Outcome.blocked => Outcome.blocked

/-- Conversion to u32. -/
def u32 (x : Int) : Nat := (x % 2 ^ 32).toNat
/-- Conversion to u64. -/
def u64 (x : Int) : Nat := (x % 2 ^ 64).toNat
/-- Conversion to int (s32), two's complement. -/
def s32 (x : Int) : Int := (x + 2 ^ 31) % 2 ^ 32 - 2 ^ 31

/-- Delay helper msleep_range (imx547.c, lines 159-162). -/
def msleep_range (delay_base : Nat) (tr : List Event) : List Event :=
  tr ++ [Event.usleep_range (delay_base * 1000 % 2 ^ 32) ((delay_base * 1000 + 500) % 2 ^ 32)]

/-- The flush inside imx547_write_table (imx547.c, lines 205-213): a run of one
value goes out as a single write, a longer run as one bulk write, an empty run
as nothing.  Returns err and the new trace. -/
def write_table_flush (bus : Bus) (range_start : Int) (range_count : Nat)
    (range_vals : List Nat) (tr : List Event) : Int × List Event :=
  if range_count = 1 then
    (bus.err tr (Event.regmap_write range_start.toNat (range_vals.getD 0 0)),
      tr ++ [Event.regmap_write range_start.toNat (range_vals.getD 0 0)])
  else if range_count > 1 then
    (bus.err tr (Event.regmap_bulk_write range_start.toNat (range_vals.take range_count)),
      tr ++ [Event.regmap_bulk_write range_start.toNat (range_vals.take range_count)])
  else (0, tr)

/-- The loop of imx547_write_table (imx547.c, lines 200-237), one table entry
per step.  The arguments after the table are the loop variables range_start,
range_count and the 16-byte buffer range_vals.  Running off the end of the
list is a read past the end of the C array. -/
def write_table_loop (bus : Bus) : List reg_8 → Int → Nat → List Nat → List Event →
    Outcome × List Event
  | [], _, _, _, tr => (Outcome.undefined, tr)
  | next :: table, range_start, range_count, range_vals, tr =>
    if (next.addr : Int) ≠ range_start + range_count ∨ next.addr = IMX547_TABLE_END ∨
        next.addr = IMX547_TABLE_WAIT_MS ∨ range_count = 16 then
      let r := write_table_flush bus range_start range_count range_vals tr
      if r.1 ≠ 0 then (Outcome.ret r.1, r.2)
      else if next.addr = IMX547_TABLE_END then (Outcome.ret 0, r.2)
      else if next.addr = IMX547_TABLE_WAIT_MS then
        write_table_loop bus table (-1) 0 range_vals (msleep_range next.val r.2)
      else
        write_table_loop bus table next.addr 1 (range_vals.set 0 next.val) r.2
    else
      write_table_loop bus table (if range_start = -1 then next.addr else range_start)
        (range_count + 1) (range_vals.set range_count next.val) tr

/-- Table writer imx547_write_table (imx547.c, lines 188-239). -/
def imx547_write_table (bus : Bus) (table : List reg_8) (tr : List Event) :
    Outcome × List Event :=
  write_table_loop bus table (-1) 0 (List.replicate 16 0) tr

/-! ## Device state (imx547.c, lines 111-147) -/

/-- The fields of the kernel's struct v4l2_ctrl that the driver reads or
writes: the range of the control and its value. -/
structure v4l2_ctrl where
  minimum : Int
  maximum : Int
  default_value : Int
  val : Int
  deriving DecidableEq, Repr

structure imx547_ctrls where
  exposure : v4l2_ctrl
  gain : v4l2_ctrl
  test_pattern : v4l2_ctrl
  black_level : v4l2_ctrl
  deriving DecidableEq, Repr

/-- The kernel's struct v4l2_fract: two u32 fields. -/
structure v4l2_fract where
  numerator : Nat
  denominator : Nat
  deriving DecidableEq, Repr

/-- The fields of the kernel's struct v4l2_mbus_framefmt that the driver sets. -/
structure v4l2_mbus_framefmt where
  width : Nat
  height : Nat
  code : Nat
  field : Nat
  colorspace : Nat
  deriving DecidableEq, Repr

/-- Device structure stimx547.  The mutex is a boolean: true while held.
frame_length is a u64, line_time a u32. -/
structure stimx547 where
  ctrls : imx547_ctrls
  format : v4l2_mbus_framefmt
  frame_interval : v4l2_fract
  lock : Bool
  frame_length : Nat
  line_time : Nat
  deriving DecidableEq, Repr

/-! ## Register access helpers (imx547.c, lines 241-319) -/

/-- The first nbytes bytes of cpu_to_le32(val), lowest address first. -/
def le_bytes (val : Nat) (nbytes : Nat) : List Nat :=
  (List.range nbytes).map (fun i => val / 256 ^ i % 256)

/-- The value le32_to_cpu of a little-endian buffer whose first bytes are the
given ones and whose other bytes are zero. -/
def le32_to_cpu (bytes : List Nat) : Nat :=
  bytes.foldr (fun b acc => b % 256 + 256 * acc) 0

/-- Single register write imx547_write_reg (imx547.c, lines 241-255). -/
def imx547_write_reg (bus : Bus) (tr : List Event) (addr val : Nat) : Int × List Event :=
  (bus.err tr (Event.regmap_write addr val), tr ++ [Event.regmap_write addr val])

/-- Multi-byte register read imx547_read_mbreg (imx547.c, lines 271-290):
returns err, the value read (meaningful when err is 0) and the new trace. -/
def imx547_read_mbreg (bus : Bus) (tr : List Event) (addr nbytes : Nat) :
    Int × Nat × List Event :=
  (bus.err tr (Event.regmap_bulk_read addr nbytes),
    le32_to_cpu ((bus.data tr addr nbytes).take nbytes),
    tr ++ [Event.regmap_bulk_read addr nbytes])

/-- Multi-byte register write imx547_write_mbreg (imx547.c, lines 303-319);
val is a u32. -/
def imx547_write_mbreg (bus : Bus) (tr : List Event) (addr val nbytes : Nat) :
    Int × List Event :=
  (bus.err tr (Event.regmap_bulk_write addr (le_bytes (val % 2 ^ 32) nbytes)),
    tr ++ [Event.regmap_bulk_write addr (le_bytes (val % 2 ^ 32) nbytes)])

/-! ## Table programs (imx547.c, lines 327-366) -/

/-- Common register program imx547_common_regs (imx547.c, lines 327-338). -/
def imx547_common_regs (bus : Bus) (tr : List Event) : Outcome × List Event :=
  imx547_write_table bus imx547_common_settings tr

/-- Mode register program imx547_set_pixel_format (imx547.c, lines 346-366). -/
def imx547_set_pixel_format (bus : Bus) (priv : stimx547) (tr : List Event) :
    Outcome × List Event :=
  if priv.format.code = MEDIA_BUS_FMT_SRGGB10_1X10 ∨ priv.format.code = MEDIA_BUS_FMT_Y10_1X10 then
    imx547_write_table bus imx547_10bit_mode tr
  else if priv.format.code = MEDIA_BUS_FMT_SRGGB12_1X12 ∨
      priv.format.code = MEDIA_BUS_FMT_Y12_1X12 then
    imx547_write_table bus imx547_12bit_mode tr
  else (Outcome.ret (-EINVAL), tr)

/-! ## Stream start and stop (imx547.c, lines 374-412) -/

/-- Start sequence imx547_start_stream (imx547.c, lines 374-391): both
register writes are issued whatever the first one returns, and the function
returns 0. -/
def imx547_start_stream (bus : Bus) (tr : List Event) : Outcome × List Event :=
  let r1 := imx547_write_reg bus tr STANDBY 0x00
  let tr := r1.2 ++ [Event.usleep_range 1138000 1140000, Event.gpiod_set_value 1,
    Event.usleep_range 20000 21000, Event.gpiod_set_value 0]
  let r2 := imx547_write_reg bus tr XMSTA 0x00
  (Outcome.ret 0, r2.2)

/-- Stop sequence imx547_stop_stream (imx547.c, lines 399-412). -/
def imx547_stop_stream (bus : Bus) (tr : List Event) : Outcome × List Event :=
  let r1 := imx547_write_reg bus tr STANDBY 0x01
  let tr := r1.2 ++ [Event.usleep_range 100 110]
  let r2 := imx547_write_reg bus tr XMSTA 0x01
  (Outcome.ret 0, r2.2)

/-! ## Control setters (imx547.c, lines 684-832) -/

/-- Gain setter imx547_set_gain (imx547.c, lines 684-701); val is an int. -/
def imx547_set_gain (bus : Bus) (priv : stimx547) (tr : List Event) (val : Int) :
    Outcome × stimx547 × List Event :=
  let r := imx547_write_mbreg bus tr GAIN_LOW (u32 val) 2
  if r.1 ≠ 0 then (Outcome.ret r.1, priv, r.2)
  else (Outcome.ret 0,
    { priv with ctrls := { priv.ctrls with gain := { priv.ctrls.gain with val := val } } }, r.2)

/-- Black level setter imx547_set_black_level (imx547.c, lines 713-730). -/
def imx547_set_black_level (bus : Bus) (priv : stimx547) (tr : List Event) (val : Int) :
    Outcome × stimx547 × List Event :=
  let r := imx547_write_mbreg bus tr BLKLEVEL_LOW (u32 val) 2
  if r.1 ≠ 0 then (Outcome.ret r.1, priv, r.2)
  else (Outcome.ret 0,
    { priv with ctrls := { priv.ctrls with
        black_level := { priv.ctrls.black_level with val := val } } }, r.2)

/-- Exposure setter imx547_set_exposure (imx547.c, lines 742-796).  val is an
int; the product with IMX547_K_FACTOR and the division by line_time are
signed 64-bit, integration_time_line and reg_shs are u32, frame_length is
u64 and the comparisons with it are unsigned 64-bit. -/
def imx547_set_exposure (bus : Bus) (priv : stimx547) (tr : List Event) (val : Int) :
    Outcome × stimx547 × List Event :=
  let val : Int :=
    if val > priv.ctrls.exposure.maximum then s32 priv.ctrls.exposure.maximum
    else if val < priv.ctrls.exposure.minimum then s32 priv.ctrls.exposure.minimum
    else val
  if priv.line_time = 0 then (Outcome.undefined, priv, tr)
  else
    let integration_time_line : Nat := u32 (Int.tdiv (val * IMX547_K_FACTOR) priv.line_time)
    let reg_shs : Nat := u32 (u64 ((priv.frame_length : Int) - integration_time_line))
    if priv.format.code = MEDIA_BUS_FMT_SRGGB10_1X10 ∨
        priv.format.code = MEDIA_BUS_FMT_Y10_1X10 ∨
        priv.format.code = MEDIA_BUS_FMT_SRGGB12_1X12 ∨
        priv.format.code = MEDIA_BUS_FMT_Y12_1X12 then
      let min_reg_shs : Nat :=
        if priv.format.code = MEDIA_BUS_FMT_SRGGB10_1X10 ∨
            priv.format.code = MEDIA_BUS_FMT_Y10_1X10 then IMX547_MIN_SHS_LENGTH_10BIT
        else IMX547_MIN_SHS_LENGTH_12BIT
      let reg_shs : Nat :=
        if reg_shs < min_reg_shs then min_reg_shs
        else if reg_shs > u64 ((priv.frame_length : Int) - 1) then
          u32 (u64 ((priv.frame_length : Int) - 1))
        else reg_shs
      let r := imx547_write_mbreg bus tr SHS_LOW reg_shs 3
      if r.1 ≠ 0 then (Outcome.ret r.1, priv, r.2)
      else (Outcome.ret r.1,
        { priv with ctrls := { priv.ctrls with
            exposure := { priv.ctrls.exposure with val := val } } }, r.2)
    else (Outcome.ret (-EINVAL), priv, tr)

/-- Test pattern setter imx547_set_test_pattern (imx547.c, lines 807-832). -/
def imx547_set_test_pattern (bus : Bus) (priv : stimx547) (tr : List Event) (val : Int) :
    Outcome × stimx547 × List Event :=
  if val ≠ 0 then
    let r1 := imx547_write_reg bus tr 0x3550 0x07
    if r1.1 ≠ 0 then (Outcome.ret r1.1, priv, r1.2)
    else
      let r2 := imx547_write_reg bus r1.2 0x3551 (val % 256).toNat
      if r2.1 ≠ 0 then (Outcome.ret r2.1, priv, r2.2) else (Outcome.ret 0, priv, r2.2)
  else
    let r1 := imx547_write_reg bus tr 0x3550 0x06
    if r1.1 ≠ 0 then (Outcome.ret r1.1, priv, r1.2) else (Outcome.ret 0, priv, r1.2)

/-! ## Timing (imx547.c, lines 843-968) -/

/-- Line time from HMAX, imx547_calculate_line_time (imx547.c, lines 843-861). -/
def imx547_calculate_line_time (bus : Bus) (priv : stimx547) (tr : List Event) :
    Outcome × stimx547 × List Event :=
  let r := imx547_read_mbreg bus tr HMAX_LOW 2
  if r.1 ≠ 0 then (Outcome.ret r.1, priv, r.2.2)
  else (Outcome.ret 0,
    { priv with line_time := (r.2.1 * IMX547_G_FACTOR) / IMX547_INCK % 2 ^ 32 }, r.2.2)

/-- Frame length write imx547_set_frame_length (imx547.c, lines 872-888). -/
def imx547_set_frame_length (bus : Bus) (priv : stimx547) (tr : List Event) :
    Outcome × List Event :=
  let frame_length_32bit := priv.frame_length % 2 ^ 32
  let r := imx547_write_mbreg bus tr VMAX_LOW frame_length_32bit 3
  if r.1 ≠ 0 then (Outcome.ret r.1, r.2) else (Outcome.ret 0, r.2)

/-- Frame interval update imx547_set_frame_interval (imx547.c, lines 899-968).
req_frame_rate and frame_length are u64, max_frame_rate is u32; the product
req_frame_rate * line_time is unsigned 64-bit. -/
def imx547_set_frame_interval (bus : Bus) (priv : stimx547) (tr : List Event) :
    Outcome × stimx547 × List Event :=
  let priv : stimx547 :=
    if priv.frame_interval.numerator = 0 ∨ priv.frame_interval.denominator = 0 then
      { priv with frame_interval := { numerator := 1, denominator := IMX547_DEF_FRAME_RATE } }
    else priv
  let req_frame_rate : Nat :=
    (IMX547_M_FACTOR * priv.frame_interval.denominator / priv.frame_interval.numerator) % 2 ^ 64
  if priv.format.code = MEDIA_BUS_FMT_SRGGB10_1X10 ∨
      priv.format.code = MEDIA_BUS_FMT_Y10_1X10 ∨
      priv.format.code = MEDIA_BUS_FMT_SRGGB12_1X12 ∨
      priv.format.code = MEDIA_BUS_FMT_Y12_1X12 then
    let max_frame_rate : Nat :=
      if priv.format.code = MEDIA_BUS_FMT_SRGGB10_1X10 ∨
          priv.format.code = MEDIA_BUS_FMT_Y10_1X10 then
        (IMX547_M_FACTOR * IMX547_MAX_FRAME_INTERVAL_10BIT_DENOMINATOR /
          IMX547_MAX_FRAME_INTERVAL_10BIT_NUMERATOR) % 2 ^ 32
      else
        (IMX547_M_FACTOR * IMX547_MAX_FRAME_INTERVAL_12BIT_DENOMINATOR /
          IMX547_MAX_FRAME_INTERVAL_12BIT_NUMERATOR) % 2 ^ 32
    let priv : stimx547 :=
      if req_frame_rate > max_frame_rate then
        if priv.format.code = MEDIA_BUS_FMT_SRGGB10_1X10 ∨
            priv.format.code = MEDIA_BUS_FMT_Y10_1X10 then
          { priv with frame_interval :=
              { numerator := IMX547_MAX_FRAME_INTERVAL_10BIT_NUMERATOR,
                denominator := IMX547_MAX_FRAME_INTERVAL_10BIT_DENOMINATOR } }
        else
          { priv with frame_interval :=
              { numerator := IMX547_MAX_FRAME_INTERVAL_12BIT_NUMERATOR,
                denominator := IMX547_MAX_FRAME_INTERVAL_12BIT_DENOMINATOR } }
      else if req_frame_rate < IMX547_MIN_FRAME_RATE * IMX547_M_FACTOR then
        { priv with frame_interval := { numerator := 1, denominator := IMX547_MIN_FRAME_RATE } }
      else priv
    let req_frame_rate : Nat :=
      (IMX547_M_FACTOR * priv.frame_interval.denominator / priv.frame_interval.numerator) % 2 ^ 64
    if req_frame_rate * priv.line_time % 2 ^ 64 = 0 then (Outcome.undefined, priv, tr)
    else
      let frame_length : Nat :=
        (IMX547_M_FACTOR * IMX547_G_FACTOR) / (req_frame_rate * priv.line_time % 2 ^ 64)
      let priv : stimx547 := { priv with frame_length := frame_length }
      let r := imx547_set_frame_length bus priv tr
      (r.1, priv, r.2)
  else (Outcome.ret (-EINVAL), priv, tr)

/-! ## Control dispatch (imx547.c, lines 423-461) -/

/-- Control identifier of the exposure control (linux/v4l2-controls.h). -/
def V4L2_CID_EXPOSURE : Nat := 0x00980911
/-- Control identifier of the gain control (linux/v4l2-controls.h). -/
def V4L2_CID_GAIN : Nat := 0x00980913
/-- Control identifier of the black level control (linux/v4l2-controls.h). -/
def V4L2_CID_BLACK_LEVEL : Nat := 0x0098090b
/-- Control identifier of the test pattern control (linux/v4l2-controls.h). -/
def V4L2_CID_TEST_PATTERN : Nat := 0x009f0903

/-- Control callback imx547_s_ctrl (imx547.c, lines 423-461), called with the
identifier and the new value of the control. -/
def imx547_s_ctrl (bus : Bus) (imx547 : stimx547) (tr : List Event) (id : Nat) (val : Int) :
    Outcome × stimx547 × List Event :=
  if id = V4L2_CID_EXPOSURE then imx547_set_exposure bus imx547 tr val
  else if id = V4L2_CID_GAIN then imx547_set_gain bus imx547 tr val
  else if id = V4L2_CID_TEST_PATTERN then imx547_set_test_pattern bus imx547 tr val
  else if id = V4L2_CID_BLACK_LEVEL then imx547_set_black_level bus imx547 tr val
  else (Outcome.ret (-EINVAL), imx547, tr)

/-- Range update of the exposure control by the kernel's control framework
(__v4l2_ctrl_modify_range of v4l2-ctrls, not part of this repository), after
the kernel's documented behaviour: an invalid range is refused with -ERANGE
and changes nothing; otherwise the range is stored, the value is brought
into the new range, and a value that changed is applied through the
driver's s_ctrl callback, whose error is returned. -/
def __v4l2_ctrl_modify_range (bus : Bus) (imx547 : stimx547) (tr : List Event)
    (min max : Int) (step : Nat) (dflt : Int) : Outcome × stimx547 × List Event :=
  if step = 0 ∨ min > max ∨ dflt < min ∨ dflt > max then (Outcome.ret (-ERANGE), imx547, tr)
  else
    let cur := imx547.ctrls.exposure.val
    let imx547 : stimx547 :=
      { imx547 with ctrls := { imx547.ctrls with
          exposure := { imx547.ctrls.exposure with
            minimum := min, maximum := max, default_value := dflt } } }
    let new_val := if cur < min then min else if cur > max then max else cur
    if new_val ≠ cur then imx547_s_ctrl bus imx547 tr V4L2_CID_EXPOSURE new_val
    else (Outcome.ret 0, imx547, tr)

/-! ## Pad and video operations (imx547.c, lines 474-671) -/

/-- Format query imx547_get_fmt (imx547.c, lines 474-484): the outcome, the
state and the format copied out. -/
def imx547_get_fmt (imx547 : stimx547) : Outcome × stimx547 × v4l2_mbus_framefmt :=
  if imx547.lock then (Outcome.blocked, imx547, imx547.format)
  else
    let imx547 : stimx547 := { imx547 with lock := true }
    let fmt := imx547.format
    (Outcome.ret 0, { imx547 with lock := false }, fmt)

/-- Format change imx547_set_fmt (imx547.c, lines 496-523).  The requested
format is stored before its code is looked at, and the default branch
returns without releasing the mutex. -/
def imx547_set_fmt (imx547 : stimx547) (format : v4l2_mbus_framefmt) : Outcome × stimx547 :=
  if imx547.lock then (Outcome.blocked, imx547)
  else
    let imx547 : stimx547 := { imx547 with lock := true }
    let imx547 : stimx547 := { imx547 with format := format }
    if imx547.format.code = MEDIA_BUS_FMT_SRGGB10_1X10 ∨
        imx547.format.code = MEDIA_BUS_FMT_Y10_1X10 then
      (Outcome.ret 0, { imx547 with line_time := IMX547_DEFAULT_LINE_TIME_10BIT, lock := false })
    else if imx547.format.code = MEDIA_BUS_FMT_SRGGB12_1X12 ∨
        imx547.format.code = MEDIA_BUS_FMT_Y12_1X12 then
      (Outcome.ret 0, { imx547 with line_time := IMX547_DEFAULT_LINE_TIME_12BIT, lock := false })
    else (Outcome.ret (-EINVAL), imx547)

/-- Frame interval query imx547_g_frame_interval (imx547.c, lines 535-544). -/
def imx547_g_frame_interval (imx547 : stimx547) : Outcome × v4l2_fract :=
  (Outcome.ret 0, imx547.frame_interval)

/-- The maximum imx547_s_frame_interval computes for the exposure control
(imx547.c, lines 573-588) from the state the frame interval update leaves:
the variable max is an int, computed in unsigned 64-bit arithmetic. -/
def new_exposure_max (imx547 : stimx547) : Int :=
  let min_reg_shs : Nat :=
    if imx547.format.code = MEDIA_BUS_FMT_SRGGB10_1X10 ∨
        imx547.format.code = MEDIA_BUS_FMT_Y10_1X10 then IMX547_MIN_SHS_LENGTH_10BIT
    else IMX547_MIN_SHS_LENGTH_12BIT
  s32 ((u64 ((imx547.frame_length : Int) - min_reg_shs) * imx547.line_time % 2 ^ 64 /
    IMX547_K_FACTOR : Nat))

/-- The end of imx547_s_frame_interval (imx547.c, lines 590-605), on the
result m of __v4l2_ctrl_modify_range: when the range update failed the
function goes to the label unlock, otherwise it sets the exposure again;
then the mutex is released.  The value returned is ret, which is 0 here:
what __v4l2_ctrl_modify_range and imx547_set_exposure return is not passed
on. -/
def reapply_exposure (bus : Bus) (m : Outcome × stimx547 × List Event) :
    Outcome × stimx547 × List Event :=
  if m.1 ≠ Outcome.ret 0 then (m.1.then_return 0, { m.2.1 with lock := false }, m.2.2)
  else
    let x := imx547_set_exposure bus m.2.1 m.2.2 m.2.1.ctrls.exposure.val
    (x.1.then_return 0, { x.2.1 with lock := false }, x.2.2)

/-- The part of imx547_s_frame_interval after the call of
imx547_set_frame_interval (imx547.c, lines 567-605), on the result r of that
call.  The default branch of the switch returns -EINVAL without releasing
the mutex. -/
def after_frame_interval (bus : Bus) (r : Outcome × stimx547 × List Event) :
    Outcome × stimx547 × List Event :=
  if r.1 = Outcome.ret 0 then
    if r.2.1.format.code = MEDIA_BUS_FMT_SRGGB10_1X10 ∨
        r.2.1.format.code = MEDIA_BUS_FMT_Y10_1X10 ∨
        r.2.1.format.code = MEDIA_BUS_FMT_SRGGB12_1X12 ∨
        r.2.1.format.code = MEDIA_BUS_FMT_Y12_1X12 then
      reapply_exposure bus (__v4l2_ctrl_modify_range bus r.2.1 r.2.2 IMX547_MIN_EXPOSURE_TIME
        (new_exposure_max r.2.1) 1 (new_exposure_max r.2.1))
    else (Outcome.ret (-EINVAL), r.2.1, r.2.2)
  else (r.1, { r.2.1 with lock := false }, r.2.2)

/-- Frame interval change imx547_s_frame_interval (imx547.c, lines 555-606):
the mutex is taken, the requested interval is stored, and
imx547_set_frame_interval runs; after_frame_interval is the rest. -/
def imx547_s_frame_interval (bus : Bus) (imx547 : stimx547) (tr : List Event)
    (fi : v4l2_fract) : Outcome × stimx547 × List Event :=
  if imx547.lock then (Outcome.blocked, imx547, tr)
  else
    after_frame_interval bus
      (imx547_set_frame_interval bus { imx547 with lock := true, frame_interval := fi } tr)

/-- Stream switch imx547_s_stream (imx547.c, lines 618-671).  Each step that
does not return 0 leads to the label fail, which releases the mutex and
returns the value of the step. -/
def imx547_s_stream (bus : Bus) (imx547 : stimx547) (tr : List Event) (enable : Int) :
    Outcome × stimx547 × List Event :=
  if imx547.lock then (Outcome.blocked, imx547, tr)
  else
    let imx547 : stimx547 := { imx547 with lock := true }
    if enable ≠ 0 then
      let r1 := imx547_common_regs bus tr
      if r1.1 ≠ Outcome.ret 0 then (r1.1, { imx547 with lock := false }, r1.2)
      else
        let r2 := imx547_set_pixel_format bus imx547 r1.2
        if r2.1 ≠ Outcome.ret 0 then (r2.1, { imx547 with lock := false }, r2.2)
        else
          let r3 := imx547_calculate_line_time bus imx547 r2.2
          if r3.1 ≠ Outcome.ret 0 then (r3.1, { r3.2.1 with lock := false }, r3.2.2)
          else
            let r4 := imx547_set_frame_interval bus r3.2.1 r3.2.2
            if r4.1 ≠ Outcome.ret 0 then (r4.1, { r4.2.1 with lock := false }, r4.2.2)
            else
              let r5 := imx547_set_exposure bus r4.2.1 r4.2.2 r4.2.1.ctrls.exposure.val
              if r5.1 ≠ Outcome.ret 0 then (r5.1, { r5.2.1 with lock := false }, r5.2.2)
              else
                let r6 := imx547_start_stream bus r5.2.2
                if r6.1 ≠ Outcome.ret 0 then (r6.1, { r5.2.1 with lock := false }, r6.2)
                else (Outcome.ret 0, { r5.2.1 with lock := false }, r6.2)
    else
      let r := imx547_stop_stream bus tr
      if r.1 ≠ Outcome.ret 0 then (r.1, { imx547 with lock := false }, r.2)
      else (Outcome.ret 0, { imx547 with lock := false }, r.2)

/-! ## Attach state (imx547.c, lines 997-1012 and 1071-1095) -/

/-- Field order V4L2_FIELD_NONE (linux/videodev2.h). -/
def V4L2_FIELD_NONE : Nat := 1
/-- Colour space V4L2_COLORSPACE_SRGB (linux/videodev2.h). -/
def V4L2_COLORSPACE_SRGB : Nat := 8

/-- The device state imx547_probe builds: zeroed memory, the format and
timing defaults, and the four controls at their default values. -/
def imx547_probe_state : stimx547 :=
  { ctrls :=
      { test_pattern := { minimum := 0, maximum := 3, default_value := 0, val := 0 },
        gain := { minimum := IMX547_MIN_GAIN, maximum := IMX547_MAX_GAIN,
                  default_value := IMX547_DEF_GAIN, val := IMX547_DEF_GAIN },
        exposure := { minimum := IMX547_MIN_EXPOSURE_TIME,
                      maximum := (IMX547_M_FACTOR / IMX547_DEF_FRAME_RATE : Nat),
                      default_value := IMX547_DEF_EXPOSURE_TIME,
                      val := IMX547_DEF_EXPOSURE_TIME },
        black_level := { minimum := IMX547_MIN_BLACK_LEVEL,
                         maximum := IMX547_MAX_BLACK_LEVEL_10BIT,
                         default_value := IMX547_DEF_BLACK_LEVEL_10BIT,
                         val := IMX547_DEF_BLACK_LEVEL_10BIT } },
    format := { width := IMX547_DEFAULT_WIDTH, height := IMX547_DEFAULT_HEIGHT,
                code := MEDIA_BUS_FMT_SRGGB12_1X12, field := V4L2_FIELD_NONE,
                colorspace := V4L2_COLORSPACE_SRGB },
    frame_interval := { numerator := 1, denominator := IMX547_DEF_FRAME_RATE },
    lock := false,
    frame_length := IMX547_DEFAULT_HEIGHT + IMX547_MIN_FRAME_DELTA,
    line_time := 0 }

/-- A bus on which every access succeeds and every read delivers zeros. -/
def quiet_bus : Bus := ⟨fun _ _ => 0, fun _ _ n => List.replicate n 0⟩

/-! ## Vocabulary of the statements -/

/-- The register writes of a trace as (address, value) pairs in the order they
are issued, a bulk write counting as one write per byte at consecutive
addresses. -/
def reg_writes : List Event → List (Nat × Nat)
  | [] => []
  | Event.regmap_write reg val :: evs => (reg, val) :: reg_writes evs
  | Event.regmap_bulk_write reg vals :: evs => vals.enumFrom reg ++ reg_writes evs
  | Event.regmap_bulk_read _ _ :: evs => reg_writes evs
  | Event.usleep_range _ _ :: evs => reg_writes evs
  | Event.gpiod_set_value _ :: evs => reg_writes evs

/-- The entries of a table that stand for a register write: those before the
first END entry that are not WAIT entries, as (address, value) pairs. -/
def table_writes (table : List reg_8) : List (Nat × Nat) :=
  ((table.takeWhile (fun e => decide (e.addr ≠ IMX547_TABLE_END))).filter
    (fun e => decide (e.addr ≠ IMX547_TABLE_WAIT_MS))).map (fun e => (e.addr, e.val))

/-- Whether an event is a register write (single or bulk). -/
def is_write : Event → Bool
  | Event.regmap_write _ _ => true
  | Event.regmap_bulk_write _ _ => true
  | _ => false

/-- Whether an event is a bus access (a write or a read). -/
def is_access : Event → Bool
  | Event.regmap_write _ _ => true
  | Event.regmap_bulk_write _ _ => true
  | Event.regmap_bulk_read _ _ => true
  | _ => false

/-- No event of evs selected by P failed, evs being issued after the history tr. -/
def Clean (bus : Bus) (P : Event → Bool) (tr evs : List Event) : Prop :=
  ∀ pre ev post, evs = pre ++ ev :: post → P ev = true → bus.err (tr ++ pre) ev = 0

/-- A failing event of evs selected by P is the last event of evs, and its
error code is what the function returned. -/
def Aborts (bus : Bus) (P : Event → Bool) (tr evs : List Event) (r : Outcome) : Prop :=
  ∀ pre ev post, evs = pre ++ ev :: post → P ev = true → bus.err (tr ++ pre) ev ≠ 0 →
    post = [] ∧ r = Outcome.ret (bus.err (tr ++ pre) ev)

/-- The result res of a function started with history tr extends the history,
stops at the first failing event selected by P and returns its error code. -/
def StopsAtFailure (bus : Bus) (P : Event → Bool) (tr : List Event)
    (res : Outcome × List Event) : Prop :=
  ∃ evs, res.2 = tr ++ evs ∧ (res.1 = Outcome.ret 0 → Clean bus P tr evs) ∧
    Aborts bus P tr evs res.1

/-- The table entries of a run: the values vs at the consecutive addresses
a, a + 1, a + 2, ... -/
def run_entries (a : Nat) (vs : List Nat) : List reg_8 :=
  (vs.enumFrom a).map (fun p => reg_8.mk p.1 p.2)

/-- How a run of values vs at consecutive addresses from a is to be emitted:
one bulk write of 16 bytes for each full group of 16, at a, a + 16, a + 32,
..., then the remaining bytes as one write, a single-register write when one
byte remains and nothing when none remains. -/
def run_emission (a : Nat) (vs : List Nat) : List Event :=
  (List.range (vs.length / 16)).map
      (fun i => Event.regmap_bulk_write (a + 16 * i) ((vs.drop (16 * i)).take 16)) ++
    (if vs.length % 16 = 0 then []
     else if vs.length % 16 = 1 then
       [Event.regmap_write (a + 16 * (vs.length / 16)) ((vs.drop (16 * (vs.length / 16))).headD 0)]
     else [Event.regmap_bulk_write (a + 16 * (vs.length / 16)) (vs.drop (16 * (vs.length / 16)))])

/-- The events of flushing a pending run, on a bus that accepts them. -/
def flush_events (range_start : Int) (range_count : Nat) (range_vals : List Nat) : List Event :=
  if range_count = 1 then [Event.regmap_write range_start.toNat (range_vals.getD 0 0)]
  else if range_count > 1 then
    [Event.regmap_bulk_write range_start.toNat (range_vals.take range_count)]
  else []

/-- The pixel formats the driver supports: the two 10-bit and the two 12-bit codes. -/
def supported_code (code : Nat) : Prop :=
  code = MEDIA_BUS_FMT_SRGGB10_1X10 ∨ code = MEDIA_BUS_FMT_Y10_1X10 ∨
  code = MEDIA_BUS_FMT_SRGGB12_1X12 ∨ code = MEDIA_BUS_FMT_Y12_1X12

instance (code : Nat) : Decidable (supported_code code) := by
  unfold supported_code; infer_instance

/-- The 10-bit codes. -/
def is_10bit (code : Nat) : Prop :=
  code = MEDIA_BUS_FMT_SRGGB10_1X10 ∨ code = MEDIA_BUS_FMT_Y10_1X10

instance (code : Nat) : Decidable (is_10bit code) := by
  unfold is_10bit; infer_instance

/-- The highest frame rate of a format in micro-frames per second: 611/5 fps
for the 10-bit codes, 412/5 fps for the others. -/
def max_rate (code : Nat) : Nat :=
  if is_10bit code then 1000000 * 611 / 5 else 1000000 * 412 / 5

/-- The boundary interval of a format at its highest frame rate. -/
def max_rate_interval (code : Nat) : v4l2_fract :=
  if is_10bit code then { numerator := 5, denominator := 611 }
  else { numerator := 5, denominator := 412 }

/-- The lowest SHS value of a format: 54 for the 10-bit codes, 40 for the others. -/
def min_shs (code : Nat) : Nat :=
  if is_10bit code then 54 else 40

/-- The value clamp(x, lo, hi) of the specification. -/
def clamp (x lo hi : Int) : Int :=
  if x < lo then lo else if x > hi then hi else x

/-- The interval imx547_set_frame_interval settles on: 1/60 for a request with
a zero, the boundary of the format for a rate above it, 1/2 for a rate below
2 fps, and the request itself otherwise. -/
def settled_interval (code : Nat) (fi : v4l2_fract) : v4l2_fract :=
  if fi.numerator = 0 ∨ fi.denominator = 0 then { numerator := 1, denominator := 60 }
  else if 1000000 * fi.denominator / fi.numerator > max_rate code then max_rate_interval code
  else if 1000000 * fi.denominator / fi.numerator < 2000000 then { numerator := 1, denominator := 2 }
  else fi


/-- The SHS value the specification states for imx547_set_exposure(v):
clamp(frame_length - floor(v' * 1000 / line_time), min_shs, frame_length - 1)
with v' = clamp(v, exposure.minimum, exposure.maximum), the subtraction being
taken over the integers. -/
def stated_shs (priv : stimx547) (v : Int) : Int :=
  clamp ((priv.frame_length : Int) -
      clamp v priv.ctrls.exposure.minimum priv.ctrls.exposure.maximum * 1000 / priv.line_time)
    (min_shs priv.format.code) ((priv.frame_length : Int) - 1)

/-! ## Sample inputs -/

/-- A full-frame format request with the given media bus code. -/
def fmt_of_code (code : Nat) : v4l2_mbus_framefmt :=
  { width := IMX547_DEFAULT_WIDTH, height := IMX547_DEFAULT_HEIGHT, code := code,
    field := V4L2_FIELD_NONE, colorspace := V4L2_COLORSPACE_SRGB }

/-- The device state after attach and one imx547_set_fmt call with the given code. -/
def attached (code : Nat) : stimx547 :=
  (imx547_set_fmt imx547_probe_state (fmt_of_code code)).2

/-- A bus on which every access succeeds and HMAX reads back as 274. -/
def hmax_bus : Bus := ⟨fun _ _ => 0, fun _ _ _ => [0x12, 0x01]⟩

/-- A bus whose only failure is the write of 0 to STANDBY, refused with -EIO;
HMAX reads back as 274. -/
def standby_fail_bus : Bus :=
  ⟨fun _ e => if e = Event.regmap_write STANDBY 0 then -5 else 0, fun _ _ _ => [0x12, 0x01]⟩

/-- A bus whose only failure is the 3-byte write of the frame length to VMAX,
refused with -EIO; HMAX reads back as 274. -/
def vmax_fail_bus : Bus :=
  ⟨fun _ e => match e with
      | Event.regmap_bulk_write reg vals => if reg = VMAX_LOW ∧ vals.length = 3 then -5 else 0
      | _ => 0,
    fun _ _ _ => [0x12, 0x01]⟩

/-- A bus whose only failure is the single write to register 0x20, refused with -EIO. -/
def reg20_fail_bus : Bus :=
  ⟨fun _ e => match e with
      | Event.regmap_write reg _ => if reg = 0x20 then -5 else 0
      | _ => 0,
    fun _ _ n => List.replicate n 0⟩

/-- The bus accesses other than the two writes of the start sequence
(STANDBY = 0 and XMSTA = 0, imx547.c lines 378 and 387). -/
def before_start_sequence (e : Event) : Bool :=
  is_access e && !(decide (e = Event.regmap_write STANDBY 0x00)) &&
    !(decide (e = Event.regmap_write XMSTA 0x00))

/-! ## The register map behind the bus -/

/-- The content of the register map after the register writes of a trace,
starting from the content m: each write stores its byte at its address, a
bulk write one byte at each of its consecutive addresses. -/
def regmap_after (m : Nat → Nat) (evs : List Event) : Nat → Nat :=
  (reg_writes evs).foldl (fun m w => Function.update m w.1 w.2) m

/-- A bus that stores the bytes written to it, over the initial content init:
every access succeeds, and a bulk read delivers the content the register map
has after the writes of the history. -/
def Stores (bus : Bus) (init : Nat → Nat) : Prop :=
  (∀ h e, bus.err h e = 0) ∧
  ∀ h addr n, bus.data h addr n = (List.range n).map (fun i => regmap_after init h (addr + i))

/-- The bus that stores the bytes written to it, over the initial content init. -/
def memory_bus (init : Nat → Nat) : Bus :=
  ⟨fun _ _ => 0, fun h addr n => (List.range n).map (fun i => regmap_after init h (addr + i))⟩

/-- The cache discipline of a control setter, for its result res on the state
priv and the history tr: the setter issues at most one register write; when
that write fails, the setter returns the error of the bus and leaves the
state, and with it the cached value, as it was; the state differs afterwards
only when a write was issued and succeeded. -/
def CachesOnSuccess (bus : Bus) (priv : stimx547) (tr : List Event)
    (res : Outcome × stimx547 × List Event) : Prop :=
  (res.2.2 = tr ∨ ∃ ev, is_write ev = true ∧ res.2.2 = tr ++ [ev]) ∧
  (∀ ev, res.2.2 = tr ++ [ev] → bus.err tr ev ≠ 0 →
    res.1 = Outcome.ret (bus.err tr ev) ∧ res.2.1 = priv) ∧
  (res.2.1 ≠ priv → ∃ ev, res.2.2 = tr ++ [ev] ∧ bus.err tr ev = 0)

/-- The maximum the specification states for the exposure control:
floor((frame_length - min_shs) * line_time / 1000), over the integers. -/
def stated_exposure_max (priv : stimx547) : Int :=
  ((priv.frame_length : Int) - min_shs priv.format.code) * priv.line_time / 1000

/-! ## Further sample inputs -/

/-- A bus on which every access fails with -EIO. -/
def dead_bus : Bus := ⟨fun _ _ => -5, fun _ _ n => List.replicate n 0⟩

/-- A bus whose only failure is the 3-byte write of the exposure to SHS,
refused with -EIO; HMAX reads back as 274. -/
def shs_fail_bus : Bus :=
  ⟨fun _ e => match e with
      | Event.regmap_bulk_write reg vals => if reg = SHS_LOW ∧ vals.length = 3 then -5 else 0
      | _ => 0,
    fun _ _ _ => [0x12, 0x01]⟩

/-- A bus whose only failure is the write of 0 to XMSTA, refused with -EIO;
HMAX reads back as 274. -/
def xmsta_fail_bus : Bus :=
  ⟨fun _ e => if e = Event.regmap_write XMSTA 0 then -5 else 0, fun _ _ _ => [0x12, 0x01]⟩

/-- The value imx547_set_exposure goes on with after its check against the
range of the control (imx547.c, lines 752-757). -/
def checked_exposure (priv : stimx547) (val : Int) : Int :=
  if val > priv.ctrls.exposure.maximum then s32 priv.ctrls.exposure.maximum
  else if val < priv.ctrls.exposure.minimum then s32 priv.ctrls.exposure.minimum
  else val

/-- The state priv with another cached exposure value. -/
def with_exposure_val (priv : stimx547) (v : Int) : stimx547 :=
  { priv with ctrls := { priv.ctrls with exposure := { priv.ctrls.exposure with val := v } } }

/-- The state priv with another exposure control. -/
def with_exposure (priv : stimx547) (c : v4l2_ctrl) : stimx547 :=
  { priv with ctrls := { priv.ctrls with exposure := c } }

/-- The SHS value imx547_set_exposure hands to the 3-byte register write
(imx547.c, lines 752-780), for a supported format: the checked value in
micro-seconds becomes a number of lines (u32), the difference to frame_length
is taken in unsigned arithmetic and cut to u32, and the two checks against
min_reg_shs and frame_length - 1 follow. -/
def written_shs (priv : stimx547) (val : Int) : Nat :=
  let val : Int := checked_exposure priv val
  let integration_time_line : Nat := u32 (Int.tdiv (val * IMX547_K_FACTOR) priv.line_time)
  let reg_shs : Nat := u32 (u64 ((priv.frame_length : Int) - integration_time_line))
  let min_reg_shs : Nat :=
    if priv.format.code = MEDIA_BUS_FMT_SRGGB10_1X10 ∨
        priv.format.code = MEDIA_BUS_FMT_Y10_1X10 then IMX547_MIN_SHS_LENGTH_10BIT
    else IMX547_MIN_SHS_LENGTH_12BIT
  if reg_shs < min_reg_shs then min_reg_shs
  else if reg_shs > u64 ((priv.frame_length : Int) - 1) then
    u32 (u64 ((priv.frame_length : Int) - 1))
  else reg_shs

/-- Sample state: 12-bit after attach, with a line time of 500 ns and an
exposure range that starts below zero. -/
def negative_minimum_state : stimx547 :=
  { attached MEDIA_BUS_FMT_SRGGB12_1X12 with
    line_time := 500,
    ctrls := { (attached MEDIA_BUS_FMT_SRGGB12_1X12).ctrls with
      exposure := { (attached MEDIA_BUS_FMT_SRGGB12_1X12).ctrls.exposure with
        minimum := -2147482569, maximum := 1000 } } }

/-- Sample state: 12-bit after attach, with a line time of 1000 ns and a frame
length of 2^24 + 100 lines. -/
def tall_frame_state : stimx547 :=
  { attached MEDIA_BUS_FMT_SRGGB12_1X12 with line_time := 1000, frame_length := 16777316 }

/-- Modelled from the spec: the control set of the kernel's control framework
(v4l2-ctrls, the only caller of the callback imx547_s_ctrl; not part of src/).
The specification has it validate the value against the current range of the
control, an out-of-range value being silently clamped to the nearest valid
bound, and write through: the value is brought into [minimum, maximum] of the
addressed control and handed to imx547_s_ctrl, whose result is returned. -/
def v4l2_s_ctrl (bus : Bus) (imx547 : stimx547) (tr : List Event) (id : Nat) (val : Int) :
    Outcome × stimx547 × List Event :=
  if id = V4L2_CID_EXPOSURE then
    imx547_s_ctrl bus imx547 tr id
      (clamp val imx547.ctrls.exposure.minimum imx547.ctrls.exposure.maximum)
  else if id = V4L2_CID_GAIN then
    imx547_s_ctrl bus imx547 tr id (clamp val imx547.ctrls.gain.minimum imx547.ctrls.gain.maximum)
  else if id = V4L2_CID_TEST_PATTERN then
    imx547_s_ctrl bus imx547 tr id
      (clamp val imx547.ctrls.test_pattern.minimum imx547.ctrls.test_pattern.maximum)
  else if id = V4L2_CID_BLACK_LEVEL then
    imx547_s_ctrl bus imx547 tr id
      (clamp val imx547.ctrls.black_level.minimum imx547.ctrls.black_level.maximum)
  else (Outcome.ret (-EINVAL), imx547, tr)

/-! ## Lemmas -/

theorem reg_writes_append (xs ys : List Event) :
    reg_writes (xs ++ ys) = reg_writes xs ++ reg_writes ys := by
  induction xs with
  | nil => rfl
  | cons x xs ih => cases x <;> simp [reg_writes, ih]

theorem take_set_succ (vals : List Nat) (n v : Nat) (h : n < vals.length) :
    (vals.set n v).take (n + 1) = vals.take n ++ [v] := by
  induction vals generalizing n with
  | nil => simp at h
  | cons x xs ih =>
    cases n with
    | zero => simp
    | succ n =>
      simp only [List.set_cons_succ, List.take_succ_cons, List.cons_append, List.cons.injEq,
        true_and]
      exact ih n (by simpa using h)

/-- What the flush does on a bus whose writes succeed. -/
theorem write_table_flush_ok (bus : Bus) (hok : ∀ h e, is_write e = true → bus.err h e = 0)
    (range_start : Int) (range_count : Nat) (range_vals : List Nat) (tr : List Event)
    (hlen : range_count ≤ range_vals.length) :
    ∃ evs, write_table_flush bus range_start range_count range_vals tr = (0, tr ++ evs) ∧
      reg_writes evs = (range_vals.take range_count).enumFrom range_start.toNat := by
  unfold write_table_flush
  by_cases h1 : range_count = 1
  · subst h1
    refine ⟨[Event.regmap_write range_start.toNat (range_vals.getD 0 0)], ?_, ?_⟩
    · simp [hok _ _ (show is_write (Event.regmap_write _ _) = true from rfl)]
    · cases range_vals with
      | nil => simp at hlen
      | cons v vs => simp [reg_writes]
  · by_cases h2 : range_count > 1
    · refine ⟨[Event.regmap_bulk_write range_start.toNat (range_vals.take range_count)], ?_, ?_⟩
      · simp [h1, h2, hok _ _ (show is_write (Event.regmap_bulk_write _ _) = true from rfl)]
      · simp [reg_writes]
    · have h0 : range_count = 0 := by omega
      subst h0
      exact ⟨[], by simp, by simp [reg_writes]⟩

theorem table_writes_end (e : reg_8) (table : List reg_8) (h : e.addr = IMX547_TABLE_END) :
    table_writes (e :: table) = [] := by
  simp [table_writes, List.takeWhile_cons, h]

theorem table_writes_wait (e : reg_8) (table : List reg_8) (h : e.addr = IMX547_TABLE_WAIT_MS) :
    table_writes (e :: table) = table_writes table := by
  have h1 : IMX547_TABLE_WAIT_MS ≠ IMX547_TABLE_END := by decide
  simp [table_writes, List.takeWhile_cons, h, h1]

theorem table_writes_reg (e : reg_8) (table : List reg_8) (h1 : e.addr ≠ IMX547_TABLE_END)
    (h2 : e.addr ≠ IMX547_TABLE_WAIT_MS) :
    table_writes (e :: table) = (e.addr, e.val) :: table_writes table := by
  simp [table_writes, List.takeWhile_cons, h1, h2]

/-- The loop on a bus whose writes succeed: it returns 0 at the first END entry,
having written the pending run and then the entries of the table. -/
theorem write_table_loop_ok (bus : Bus) (hok : ∀ h e, is_write e = true → bus.err h e = 0) :
    ∀ (table : List reg_8) (range_start : Int) (range_count : Nat) (range_vals : List Nat)
      (tr : List Event),
      (∃ e ∈ table, e.addr = IMX547_TABLE_END) → range_vals.length = 16 → range_count ≤ 16 →
      ((range_start = -1 ∧ range_count = 0) ∨ (0 ≤ range_start ∧ 1 ≤ range_count)) →
      ∃ evs, write_table_loop bus table range_start range_count range_vals tr
          = (Outcome.ret 0, tr ++ evs) ∧
        reg_writes evs = (range_vals.take range_count).enumFrom range_start.toNat ++
          table_writes table := by
  intro table
  induction table with
  | nil => intro _ _ _ _ h; simp at h
  | cons next table ih =>
    intro range_start range_count range_vals tr hend hlen hcnt hinv
    unfold write_table_loop
    by_cases hc : (next.addr : Int) ≠ range_start + range_count ∨ next.addr = IMX547_TABLE_END ∨
        next.addr = IMX547_TABLE_WAIT_MS ∨ range_count = 16
    · rw [if_pos hc]
      obtain ⟨fl, hfl, hw⟩ := write_table_flush_ok bus hok range_start range_count range_vals tr
        (by omega)
      simp only [hfl, ne_eq, not_true_eq_false, if_false]
      by_cases he : next.addr = IMX547_TABLE_END
      · rw [if_pos he]
        exact ⟨fl, rfl, by rw [hw, table_writes_end _ _ he]; simp⟩
      · rw [if_neg he]
        have hend' : ∃ e ∈ table, e.addr = IMX547_TABLE_END := by
          obtain ⟨e, hm, h⟩ := hend
          rcases List.mem_cons.mp hm with rfl | hm
          · exact absurd h he
          · exact ⟨e, hm, h⟩
        by_cases hwt : next.addr = IMX547_TABLE_WAIT_MS
        · rw [if_pos hwt]
          obtain ⟨evs, h1, h2⟩ := ih (-1) 0 range_vals (msleep_range next.val (tr ++ fl)) hend'
            hlen (by omega) (Or.inl ⟨rfl, rfl⟩)
          refine ⟨fl ++ [Event.usleep_range (next.val * 1000 % 2 ^ 32)
            ((next.val * 1000 + 500) % 2 ^ 32)] ++ evs, ?_, ?_⟩
          · rw [h1]; simp [msleep_range]
          · rw [reg_writes_append, reg_writes_append, hw, h2, table_writes_wait _ _ hwt]
            simp [reg_writes]
        · rw [if_neg hwt]
          obtain ⟨evs, h1, h2⟩ := ih next.addr 1 (range_vals.set 0 next.val) (tr ++ fl) hend'
            (by simpa using hlen) (by omega) (Or.inr ⟨by omega, le_refl _⟩)
          refine ⟨fl ++ evs, ?_, ?_⟩
          · rw [h1]; simp
          · rw [reg_writes_append, hw, h2, table_writes_reg _ _ he hwt]
            have : (range_vals.set 0 next.val).take 1 = [next.val] := by
              cases range_vals with
              | nil => simp at hlen
              | cons v vs => simp
            simp [this]
    · rw [if_neg hc]
      simp only [not_or, ne_eq, not_not] at hc
      obtain ⟨hadr, he, hwt, h16⟩ := hc
      have hst : 0 ≤ range_start ∧ 1 ≤ range_count := by
        rcases hinv with ⟨h1, h2⟩ | h
        · omega
        · exact h
      have hne : range_start ≠ -1 := by omega
      rw [if_neg hne]
      have hend' : ∃ e ∈ table, e.addr = IMX547_TABLE_END := by
        obtain ⟨e, hm, h⟩ := hend
        rcases List.mem_cons.mp hm with rfl | hm
        · exact absurd h he
        · exact ⟨e, hm, h⟩
      obtain ⟨evs, h1, h2⟩ := ih range_start (range_count + 1)
        (range_vals.set range_count next.val) tr hend' (by simpa using hlen) (by omega)
        (Or.inr ⟨hst.1, by omega⟩)
      refine ⟨evs, h1, ?_⟩
      rw [h2, take_set_succ _ _ _ (by omega), List.enumFrom_append, table_writes_reg _ _ he hwt]
      have : range_start.toNat + range_count ⊓ range_vals.length = next.addr := by omega
      simp [this]

theorem clean_nil (bus : Bus) (P : Event → Bool) (tr : List Event) : Clean bus P tr [] := by
  intro pre ev post h; simp at h

theorem aborts_nil (bus : Bus) (P : Event → Bool) (tr : List Event) (r : Outcome) :
    Aborts bus P tr [] r := by
  intro pre ev post h; simp at h

theorem clean_single (bus : Bus) (P : Event → Bool) (tr : List Event) (e : Event)
    (h : P e = true → bus.err tr e = 0) : Clean bus P tr [e] := by
  intro pre ev post heq hP
  have hpre : pre = [] := by
    cases pre with
    | nil => rfl
    | cons a l =>
      have := congrArg List.length heq
      simp at this
  subst hpre
  simp at heq
  obtain ⟨rfl, _⟩ := heq
  simpa using h hP

theorem aborts_single (bus : Bus) (P : Event → Bool) (tr : List Event) (e : Event) :
    Aborts bus P tr [e] (Outcome.ret (bus.err tr e)) := by
  intro pre ev post heq _ _
  have hpre : pre = [] := by
    cases pre with
    | nil => rfl
    | cons a l =>
      have := congrArg List.length heq
      simp at this
  subst hpre
  simp at heq
  obtain ⟨rfl, rfl⟩ := heq
  simp

/-- Where an event of a concatenation lies. -/
theorem split_append {α : Type} (e1 e2 pre post : List α) (ev : α)
    (h : e1 ++ e2 = pre ++ ev :: post) :
    (∃ post1, e1 = pre ++ ev :: post1 ∧ post = post1 ++ e2) ∨
    (∃ pre2, pre = e1 ++ pre2 ∧ e2 = pre2 ++ ev :: post) := by
  rcases List.append_eq_append_iff.mp h with ⟨a, h1, h2⟩ | ⟨c, h1, h2⟩
  · exact Or.inr ⟨a, h1, h2⟩
  · cases c with
    | nil =>
      refine Or.inr ⟨[], by simpa using h1.symm, by simpa using h2.symm⟩
    | cons x c =>
      simp at h2
      obtain ⟨rfl, rfl⟩ := h2
      exact Or.inl ⟨c, h1, rfl⟩

theorem clean_append (bus : Bus) (P : Event → Bool) (tr e1 e2 : List Event)
    (h1 : Clean bus P tr e1) (h2 : Clean bus P (tr ++ e1) e2) : Clean bus P tr (e1 ++ e2) := by
  intro pre ev post heq hP
  rcases split_append e1 e2 pre post ev heq with ⟨post1, ha, _⟩ | ⟨pre2, ha, hb⟩
  · exact h1 pre ev post1 ha hP
  · have := h2 pre2 ev post hb hP
    rw [ha, ← List.append_assoc]; exact this

theorem aborts_append (bus : Bus) (P : Event → Bool) (tr e1 e2 : List Event) (r : Outcome)
    (h1 : Clean bus P tr e1) (h2 : Aborts bus P (tr ++ e1) e2 r) :
    Aborts bus P tr (e1 ++ e2) r := by
  intro pre ev post heq hP hne
  rcases split_append e1 e2 pre post ev heq with ⟨post1, ha, _⟩ | ⟨pre2, ha, hb⟩
  · exact absurd (h1 pre ev post1 ha hP) hne
  · subst ha
    rw [← List.append_assoc] at hne ⊢
    exact h2 pre2 ev post hb hP hne

theorem clean_mono (bus : Bus) (P Q : Event → Bool) (tr evs : List Event)
    (hPQ : ∀ e, Q e = true → P e = true) (h : Clean bus P tr evs) : Clean bus Q tr evs :=
  fun pre ev post heq hQ => h pre ev post heq (hPQ ev hQ)

theorem aborts_mono (bus : Bus) (P Q : Event → Bool) (tr evs : List Event) (r : Outcome)
    (hPQ : ∀ e, Q e = true → P e = true) (h : Aborts bus P tr evs r) : Aborts bus Q tr evs r :=
  fun pre ev post heq hQ hne => h pre ev post heq (hPQ ev hQ) hne

theorem stopsAtFailure_mono (bus : Bus) (P Q : Event → Bool) (tr : List Event)
    (res : Outcome × List Event) (hPQ : ∀ e, Q e = true → P e = true)
    (h : StopsAtFailure bus P tr res) : StopsAtFailure bus Q tr res := by
  obtain ⟨evs, h1, h2, h3⟩ := h
  exact ⟨evs, h1, fun hr => clean_mono bus P Q tr evs hPQ (h2 hr),
    aborts_mono bus P Q tr evs _ hPQ h3⟩

/-- The flush issues at most one event, and returns the error code of that event. -/
theorem write_table_flush_cases (bus : Bus) (range_start : Int) (range_count : Nat)
    (range_vals : List Nat) (tr : List Event) :
    write_table_flush bus range_start range_count range_vals tr = (0, tr) ∨
    ∃ ev, write_table_flush bus range_start range_count range_vals tr
      = (bus.err tr ev, tr ++ [ev]) := by
  unfold write_table_flush
  by_cases h1 : range_count = 1
  · rw [if_pos h1]; exact Or.inr ⟨_, rfl⟩
  · rw [if_neg h1]
    by_cases h2 : range_count > 1
    · rw [if_pos h2]; exact Or.inr ⟨_, rfl⟩
    · rw [if_neg h2]; exact Or.inl rfl

/-- The loop of the table writer stops at the first failing access. -/
theorem write_table_loop_stops (bus : Bus) :
    ∀ (table : List reg_8) (range_start : Int) (range_count : Nat) (range_vals : List Nat)
      (tr : List Event),
      StopsAtFailure bus is_access tr
        (write_table_loop bus table range_start range_count range_vals tr) := by
  intro table
  induction table with
  | nil =>
    intro _ _ _ tr
    exact ⟨[], by simp [write_table_loop], fun _ => clean_nil _ _ _, aborts_nil _ _ _ _⟩
  | cons next table ih =>
    intro range_start range_count range_vals tr
    unfold write_table_loop
    by_cases hc : (next.addr : Int) ≠ range_start + range_count ∨ next.addr = IMX547_TABLE_END ∨
        next.addr = IMX547_TABLE_WAIT_MS ∨ range_count = 16
    · rw [if_pos hc]
      -- the flush: nothing, or one write
      have key : ∃ fl err, write_table_flush bus range_start range_count range_vals tr
          = (err, tr ++ fl) ∧ (err = 0 → Clean bus is_access tr fl) ∧
            (err ≠ 0 → Aborts bus is_access tr fl (Outcome.ret err)) := by
        rcases write_table_flush_cases bus range_start range_count range_vals tr with h | ⟨ev, h⟩
        · exact ⟨[], 0, by simpa using h, fun _ => clean_nil _ _ _, fun h => absurd rfl h⟩
        · exact ⟨[ev], _, h, fun h0 => clean_single _ _ _ _ (fun _ => h0),
            fun _ => aborts_single _ _ _ _⟩
      obtain ⟨fl, err, hfl, hcl, hab⟩ := key
      simp only [hfl]
      by_cases herr : err ≠ 0
      · rw [if_pos herr]
        refine ⟨fl, rfl, fun h => ?_, hab herr⟩
        simp at h; exact absurd h herr
      · rw [if_neg herr]
        have h0 : err = 0 := by simpa using herr
        by_cases he : next.addr = IMX547_TABLE_END
        · rw [if_pos he]
          refine ⟨fl, rfl, fun _ => hcl h0, ?_⟩
          intro pre ev post heq hP hne
          exact absurd (hcl h0 pre ev post heq hP) hne
        · rw [if_neg he]
          by_cases hwt : next.addr = IMX547_TABLE_WAIT_MS
          · rw [if_pos hwt]
            obtain ⟨evs, e1, e2, e3⟩ := ih (-1) 0 range_vals (msleep_range next.val (tr ++ fl))
            have hs : msleep_range next.val (tr ++ fl) = tr ++ (fl ++
                [Event.usleep_range (next.val * 1000 % 2 ^ 32)
                  ((next.val * 1000 + 500) % 2 ^ 32)]) := by
              simp [msleep_range]
            rw [hs] at e1 e2 e3
            have hcl2 : Clean bus is_access tr (fl ++
                [Event.usleep_range (next.val * 1000 % 2 ^ 32)
                  ((next.val * 1000 + 500) % 2 ^ 32)]) :=
              clean_append _ _ _ _ _ (hcl h0)
                (clean_single _ _ _ _ (fun h => by simp [is_access] at h))
            rw [hs]
            refine ⟨(fl ++ [Event.usleep_range (next.val * 1000 % 2 ^ 32)
                  ((next.val * 1000 + 500) % 2 ^ 32)]) ++ evs, ?_, ?_, ?_⟩
            · rw [e1, List.append_assoc]
            · intro hr
              exact clean_append _ _ _ _ _ hcl2 (e2 hr)
            · exact aborts_append _ _ _ _ _ _ hcl2 e3
          · rw [if_neg hwt]
            obtain ⟨evs, e1, e2, e3⟩ := ih next.addr 1 (range_vals.set 0 next.val) (tr ++ fl)
            refine ⟨fl ++ evs, ?_, ?_, ?_⟩
            · rw [e1, List.append_assoc]
            · intro hr
              exact clean_append _ _ _ _ _ (hcl h0) (e2 hr)
            · exact aborts_append _ _ _ _ _ _ (hcl h0) e3
    · rw [if_neg hc]
      exact ih _ _ _ _

theorem imx547_write_table_stops (bus : Bus) (table : List reg_8) (tr : List Event) :
    StopsAtFailure bus is_access tr (imx547_write_table bus table tr) :=
  write_table_loop_stops bus table _ _ _ tr

theorem is_write_access (e : Event) (h : is_write e = true) : is_access e = true := by
  cases e <;> simp_all [is_write, is_access]

theorem run_entries_nil (a : Nat) : run_entries a [] = [] := rfl

theorem run_entries_cons (a v : Nat) (vs : List Nat) :
    run_entries a (v :: vs) = reg_8.mk a v :: run_entries (a + 1) vs := by
  simp [run_entries, List.enumFrom_cons]

theorem run_entries_append (a : Nat) (xs ys : List Nat) :
    run_entries a (xs ++ ys) = run_entries a xs ++ run_entries (a + xs.length) ys := by
  simp [run_entries, List.enumFrom_append]

theorem write_table_flush_eq (bus : Bus) (hok : ∀ h e, is_write e = true → bus.err h e = 0)
    (range_start : Int) (range_count : Nat) (range_vals : List Nat) (tr : List Event) :
    write_table_flush bus range_start range_count range_vals tr
      = (0, tr ++ flush_events range_start range_count range_vals) := by
  unfold write_table_flush flush_events
  by_cases h1 : range_count = 1
  · simp [h1, hok _ _ (show is_write (Event.regmap_write _ _) = true from rfl)]
  · by_cases h2 : range_count > 1
    · simp [h1, h2, hok _ _ (show is_write (Event.regmap_bulk_write _ _) = true from rfl)]
    · simp [h1, h2]

/-- Filling the buffer: entries that continue the pending run are stored and
nothing is written. -/
theorem write_table_loop_fill (bus : Bus) (a : Nat) (ha : 2 ≤ a) (more : List reg_8) :
    ∀ (ws : List Nat) (c : Nat) (vals : List Nat) (tr : List Event),
      1 ≤ c → c + ws.length ≤ 16 → vals.length = 16 →
      ∃ vals2, vals2.length = 16 ∧ vals2.take (c + ws.length) = vals.take c ++ ws ∧
        write_table_loop bus (run_entries (a + c) ws ++ more) a c vals tr
          = write_table_loop bus more a (c + ws.length) vals2 tr := by
  intro ws
  induction ws with
  | nil =>
    intro c vals tr _ _ hlen
    exact ⟨vals, hlen, by simp, by simp [run_entries_nil]⟩
  | cons w ws ih =>
    intro c vals tr hc hle hlen
    simp only [List.length_cons] at hle
    obtain ⟨vals2, h1, h2, h3⟩ := ih (c + 1) (vals.set c w) tr (by omega) (by omega)
      (by simpa using hlen)
    refine ⟨vals2, h1, ?_, ?_⟩
    · have : c + (w :: ws).length = c + 1 + ws.length := by simp; omega
      rw [this, h2, take_set_succ _ _ _ (by omega)]
      simp
    · rw [run_entries_cons, List.cons_append, write_table_loop]
      have hcond : ¬ ((((reg_8.mk (a + c) w).addr : Nat) : Int) ≠ (a : Int) + (c : Int) ∨
          (reg_8.mk (a + c) w).addr = IMX547_TABLE_END ∨
          (reg_8.mk (a + c) w).addr = IMX547_TABLE_WAIT_MS ∨ c = 16) := by
        simp only [IMX547_TABLE_END, IMX547_TABLE_WAIT_MS]
        push_cast
        omega
      rw [if_neg hcond]
      have hne : ¬ ((a : Int) = -1) := by omega
      rw [if_neg hne]
      have e1 : a + c + 1 = a + (c + 1) := by omega
      have e2 : c + (w :: ws).length = c + 1 + ws.length := by simp; omega
      rw [e1, e2]
      exact h3

theorem run_emission_nil (a : Nat) : run_emission a [] = [] := by
  simp [run_emission]

theorem run_emission_short (a : Nat) (vs vals : List Nat) (hne : vs ≠ [])
    (hlt : vs.length < 16) (hv : vals.take vs.length = vs) :
    flush_events (a : Int) vs.length vals = run_emission a vs := by
  have hpos : 0 < vs.length := List.length_pos.mpr hne
  have hq : vs.length / 16 = 0 := by omega
  have hr : vs.length % 16 = vs.length := by omega
  unfold flush_events run_emission
  rw [hq, hr]
  by_cases h1 : vs.length = 1
  · have h0 : vs.length ≠ 0 := by omega
    rw [if_pos h1, if_neg h0, if_pos h1]
    rw [h1] at hv
    obtain ⟨x, rfl⟩ := List.length_eq_one.mp h1
    cases vals with
    | nil => simp at hv
    | cons y ys =>
      simp at hv
      simp [hv]
  · have h0 : vs.length ≠ 0 := by omega
    have h2 : vs.length > 1 := by omega
    rw [if_neg h1, if_pos h2, if_neg h0, if_neg h1, hv]
    simp

theorem run_emission_long (a : Nat) (vs : List Nat) (hge : 16 ≤ vs.length) :
    Event.regmap_bulk_write a (vs.take 16) :: run_emission (a + 16) (vs.drop 16)
      = run_emission a vs := by
  have hq : vs.length / 16 = (vs.length - 16) / 16 + 1 := by omega
  have hr : vs.length % 16 = (vs.length - 16) % 16 := by omega
  unfold run_emission
  rw [List.length_drop, hq, hr, List.range_succ_eq_map, List.map_cons, List.map_map]
  have e1 : ∀ i, a + 16 + 16 * i = a + 16 * (i + 1) := by intro i; omega
  have e2 : ∀ i, List.drop (16 * i) (List.drop 16 vs) = List.drop (16 * (i + 1)) vs := by
    intro i; rw [List.drop_drop]; congr 1; omega
  simp only [e1, e2, Function.comp_def, Nat.succ_eq_add_one, Nat.mul_zero, Nat.add_zero,
    List.drop_zero, List.cons_append]

/-- An entry that ends the pending run is handled as from an empty buffer, once
the pending run is flushed. -/
theorem write_table_loop_flush_first (bus : Bus)
    (hok : ∀ h e, is_write e = true → bus.err h e = 0) (stop : reg_8) (rest : List reg_8)
    (range_start : Int) (range_count : Nat) (vals : List Nat) (tr : List Event)
    (htrig : (stop.addr : Int) ≠ range_start + range_count ∨ stop.addr = IMX547_TABLE_END ∨
      stop.addr = IMX547_TABLE_WAIT_MS ∨ range_count = 16) :
    write_table_loop bus (stop :: rest) range_start range_count vals tr
      = write_table_loop bus (stop :: rest) (-1) 0 vals
          (tr ++ flush_events range_start range_count vals) := by
  have h2 : (stop.addr : Int) ≠ -1 + ((0 : Nat) : Int) ∨ stop.addr = IMX547_TABLE_END ∨
      stop.addr = IMX547_TABLE_WAIT_MS ∨ (0 : Nat) = 16 := Or.inl (by omega)
  rw [write_table_loop, if_pos htrig, write_table_flush_eq bus hok]
  conv_rhs => rw [write_table_loop, if_pos h2, write_table_flush_eq bus hok]
  simp [flush_events]

theorem run_emission_split (a v : Nat) (ws vs2 vals1 : List Nat) (hws : ws.length ≤ 15)
    (h2 : vs2 ≠ [] → ws.length = 15) (ht : vals1.take (1 + ws.length) = v :: ws) :
    flush_events (a : Int) (1 + ws.length) vals1 ++ run_emission (a + 1 + ws.length) vs2
      = run_emission a (v :: (ws ++ vs2)) := by
  by_cases h15 : ws.length = 15
  · have hge : 16 ≤ (v :: (ws ++ vs2)).length := by simp; omega
    rw [← run_emission_long a _ hge, h15]
    rw [h15] at ht
    have htk : List.take 16 (v :: (ws ++ vs2)) = v :: ws := by
      simp [List.take_append_eq_append_take, h15, List.take_of_length_le (le_of_eq h15)]
    have hdr : List.drop 16 (v :: (ws ++ vs2)) = vs2 := by
      simp [List.drop_append_eq_append_drop, h15, List.drop_eq_nil_of_le (le_of_eq h15)]
    have hfl : flush_events (a : Int) (1 + 15) vals1 = [Event.regmap_bulk_write a (v :: ws)] := by
      simp [flush_events, ht]
    rw [htk, hdr, hfl]
    rfl
  · have hv2 : vs2 = [] := by
      by_contra hne
      exact h15 (h2 hne)
    subst hv2
    rw [run_emission_nil, List.append_nil, List.append_nil]
    have hc : 1 + ws.length = (v :: ws).length := by simp; omega
    rw [hc] at ht ⊢
    exact run_emission_short a (v :: ws) vals1 (by simp) (by simp; omega) ht

/-- A run met with a buffer it does not continue: the buffer is flushed, the run
goes out in groups of 16, and the entry after the run is handled from an empty
buffer. -/
theorem write_table_loop_run (bus : Bus) (hok : ∀ h e, is_write e = true → bus.err h e = 0)
    (stop : reg_8) (rest : List reg_8) :
    ∀ (n : Nat) (vs : List Nat) (a : Nat) (range_start : Int) (range_count : Nat)
      (vals : List Nat) (tr : List Event),
      vs.length = n → 2 ≤ a → vals.length = 16 →
      (vs ≠ [] → ((a : Int) ≠ range_start + range_count ∨ range_count = 16)) →
      (vs = [] → ((stop.addr : Int) ≠ range_start + range_count ∨
        stop.addr = IMX547_TABLE_END ∨ stop.addr = IMX547_TABLE_WAIT_MS ∨ range_count = 16)) →
      (stop.addr ≠ a + vs.length ∨ stop.addr = IMX547_TABLE_END ∨
        stop.addr = IMX547_TABLE_WAIT_MS) →
      ∃ vals2, vals2.length = 16 ∧
        write_table_loop bus (run_entries a vs ++ stop :: rest) range_start range_count vals tr
          = write_table_loop bus (stop :: rest) (-1) 0 vals2
              (tr ++ flush_events range_start range_count vals ++ run_emission a vs) := by
  intro n
  induction n using Nat.strong_induction_on with
  | _ n ih =>
    intro vs a range_start range_count vals tr hn ha hlen htrig htrig0 hstop
    cases vs with
    | nil =>
      refine ⟨vals, hlen, ?_⟩
      rw [run_entries_nil, run_emission_nil, List.nil_append, List.append_nil]
      exact write_table_loop_flush_first bus hok stop rest _ _ _ _ (htrig0 rfl)
    | cons v vs1 =>
      have hcond : ((reg_8.mk a v).addr : Int) ≠ range_start + range_count ∨
          (reg_8.mk a v).addr = IMX547_TABLE_END ∨
          (reg_8.mk a v).addr = IMX547_TABLE_WAIT_MS ∨ range_count = 16 := by
        rcases htrig (by simp) with h | h
        · exact Or.inl h
        · exact Or.inr (Or.inr (Or.inr h))
      have hne1 : ¬ ((reg_8.mk a v).addr = IMX547_TABLE_END) := by
        simp only [IMX547_TABLE_END]; omega
      have hne0 : ¬ ((reg_8.mk a v).addr = IMX547_TABLE_WAIT_MS) := by
        simp only [IMX547_TABLE_WAIT_MS]; omega
      -- the entries that fit into the buffer, and the others
      obtain ⟨ws, vs2, rfl, hws, hvs2⟩ : ∃ ws vs2, vs1 = ws ++ vs2 ∧ ws.length ≤ 15 ∧
          (vs2 ≠ [] → ws.length = 15) := by
        refine ⟨vs1.take 15, vs1.drop 15, (List.take_append_drop 15 vs1).symm, ?_, ?_⟩
        · rw [List.length_take]; omega
        · intro hne
          have : 15 < vs1.length := by
            by_contra hcon
            exact hne (List.drop_eq_nil_of_le (by omega))
          rw [List.length_take]; omega
      have hn' : (v :: (ws ++ vs2)).length = 1 + ws.length + vs2.length := by
        simp; omega
      rw [run_entries_cons, List.cons_append, write_table_loop, if_pos hcond,
        write_table_flush_eq bus hok]
      simp only [ne_eq, not_true_eq_false, if_false, if_neg hne1, if_neg hne0]
      rw [run_entries_append, List.append_assoc]
      obtain ⟨vals1, hl1, ht1, hfill⟩ := write_table_loop_fill bus a ha
        (run_entries (a + 1 + ws.length) vs2 ++ stop :: rest)
        ws 1 (vals.set 0 v) (tr ++ flush_events range_start range_count vals)
        (le_refl _) (by omega) (by simpa using hlen)
      rw [hfill]
      obtain ⟨vals2, hl2, hrun⟩ := ih vs2.length (by omega) vs2 (a + 1 + ws.length) a
        (1 + ws.length) vals1 (tr ++ flush_events range_start range_count vals) rfl
        (by omega) hl1
        (by intro hne; right; have := hvs2 hne; omega)
        (by
          intro he
          subst he
          rcases hstop with h | h | h
          · left
            rw [hn'] at h
            simp at h
            push_cast; omega
          · exact Or.inr (Or.inl h)
          · exact Or.inr (Or.inr (Or.inl h)))
        (by
          rcases hstop with h | h | h
          · left; rw [hn'] at h; omega
          · exact Or.inr (Or.inl h)
          · exact Or.inr (Or.inr h))
      have hv1 : (vals.set 0 v).take 1 = [v] := by
        cases vals with
        | nil => simp at hlen
        | cons y ys => simp
      rw [hv1] at ht1
      refine ⟨vals2, hl2, ?_⟩
      rw [hrun, List.append_assoc (tr ++ flush_events range_start range_count vals),
        run_emission_split a v ws vs2 vals1 hws hvs2 (by simpa using ht1)]

/-- Every bulk write of the loop carries between 2 and 16 bytes. -/
theorem write_table_loop_bulk_size (bus : Bus) :
    ∀ (table : List reg_8) (range_start : Int) (range_count : Nat) (vals : List Nat)
      (tr : List Event), vals.length = 16 → range_count ≤ 16 →
      ∃ evs, (write_table_loop bus table range_start range_count vals tr).2 = tr ++ evs ∧
        ∀ reg vs, Event.regmap_bulk_write reg vs ∈ evs → 2 ≤ vs.length ∧ vs.length ≤ 16 := by
  intro table
  induction table with
  | nil =>
    intro _ _ _ tr _ _
    exact ⟨[], by simp [write_table_loop], by simp⟩
  | cons next table ih =>
    intro range_start range_count vals tr hlen hcnt
    have key : ∃ fl, (write_table_flush bus range_start range_count vals tr).2 = tr ++ fl ∧
        ∀ reg vs, Event.regmap_bulk_write reg vs ∈ fl → 2 ≤ vs.length ∧ vs.length ≤ 16 := by
      unfold write_table_flush
      by_cases h1 : range_count = 1
      · rw [if_pos h1]; exact ⟨_, rfl, by simp⟩
      · rw [if_neg h1]
        by_cases h2 : range_count > 1
        · rw [if_pos h2]
          refine ⟨_, rfl, ?_⟩
          intro reg vs hm
          simp at hm
          obtain ⟨_, rfl⟩ := hm
          rw [List.length_take]
          omega
        · rw [if_neg h2]; exact ⟨[], by simp, by simp⟩
    obtain ⟨fl, hfl, hsz⟩ := key
    unfold write_table_loop
    by_cases hc : (next.addr : Int) ≠ range_start + range_count ∨ next.addr = IMX547_TABLE_END ∨
        next.addr = IMX547_TABLE_WAIT_MS ∨ range_count = 16
    · rw [if_pos hc]
      simp only [hfl]
      by_cases herr : (write_table_flush bus range_start range_count vals tr).1 ≠ 0
      · rw [if_pos herr]; exact ⟨fl, rfl, hsz⟩
      · rw [if_neg herr]
        by_cases he : next.addr = IMX547_TABLE_END
        · rw [if_pos he]; exact ⟨fl, rfl, hsz⟩
        · rw [if_neg he]
          by_cases hwt : next.addr = IMX547_TABLE_WAIT_MS
          · rw [if_pos hwt]
            obtain ⟨evs, e1, e2⟩ := ih (-1) 0 vals (msleep_range next.val (tr ++ fl)) hlen
              (by omega)
            refine ⟨fl ++ [Event.usleep_range (next.val * 1000 % 2 ^ 32)
              ((next.val * 1000 + 500) % 2 ^ 32)] ++ evs, ?_, ?_⟩
            · rw [e1]; simp [msleep_range]
            · intro reg vs hm
              simp only [List.mem_append, List.mem_singleton] at hm
              rcases hm with (hm | hm) | hm
              · exact hsz reg vs hm
              · cases hm
              · exact e2 reg vs hm
          · rw [if_neg hwt]
            obtain ⟨evs, e1, e2⟩ := ih next.addr 1 (vals.set 0 next.val) (tr ++ fl)
              (by simpa using hlen) (by omega)
            refine ⟨fl ++ evs, by rw [e1, List.append_assoc], ?_⟩
            intro reg vs hm
            rcases List.mem_append.mp hm with hm | hm
            · exact hsz reg vs hm
            · exact e2 reg vs hm
    · rw [if_neg hc]
      simp only [not_or, ne_eq, not_not] at hc
      exact ih _ _ _ _ (by simpa using hlen) (by omega)

theorem reg_writes_flush_events (range_start : Int) (range_count : Nat) (vals : List Nat)
    (hlen : range_count ≤ vals.length) :
    reg_writes (flush_events range_start range_count vals)
      = (vals.take range_count).enumFrom range_start.toNat := by
  unfold flush_events
  by_cases h1 : range_count = 1
  · subst h1
    cases vals with
    | nil => simp at hlen
    | cons v vs => simp [reg_writes]
  · by_cases h2 : range_count > 1
    · simp [h1, h2, reg_writes]
    · have h0 : range_count = 0 := by omega
      subst h0
      simp [reg_writes]

/-- The entries before a run: the loop works through them and is left with a
buffer that the run does not continue. -/
theorem write_table_loop_before (bus : Bus) (hok : ∀ h e, is_write e = true → bus.err h e = 0)
    (a : Nat) (more : List reg_8) :
    ∀ (pre : List reg_8) (range_start : Int) (range_count : Nat) (vals : List Nat)
      (tr : List Event),
      (∀ e ∈ pre, e.addr ≠ IMX547_TABLE_END) → (∀ e ∈ pre.getLast?, e.addr + 1 ≠ a) →
      (pre = [] → (a : Int) ≠ range_start + range_count) →
      vals.length = 16 → range_count ≤ 16 →
      ((range_start = -1 ∧ range_count = 0) ∨ (0 ≤ range_start ∧ 1 ≤ range_count)) →
      ∃ (start2 : Int) (count2 : Nat) (vals2 : List Nat) (evs : List Event),
        vals2.length = 16 ∧ count2 ≤ 16 ∧ (a : Int) ≠ start2 + count2 ∧
        write_table_loop bus (pre ++ more) range_start range_count vals tr
          = write_table_loop bus more start2 count2 vals2 (tr ++ evs) ∧
        reg_writes (evs ++ flush_events start2 count2 vals2)
          = (vals.take range_count).enumFrom range_start.toNat ++ table_writes pre := by
  intro pre
  induction pre with
  | nil =>
    intro range_start range_count vals tr _ _ h0 hlen hcnt _
    refine ⟨range_start, range_count, vals, [], hlen, hcnt, h0 rfl, by simp, ?_⟩
    rw [List.nil_append, reg_writes_flush_events _ _ _ (by omega)]
    simp [table_writes]
  | cons next pre ih =>
    intro range_start range_count vals tr hnoend hlast _ hlen hcnt hinv
    have he : ¬ next.addr = IMX547_TABLE_END := hnoend next (by simp)
    have hnoend2 : ∀ e ∈ pre, e.addr ≠ IMX547_TABLE_END :=
      fun e hm => hnoend e (List.mem_cons_of_mem _ hm)
    have hlast2 : ∀ e ∈ pre.getLast?, e.addr + 1 ≠ a := by
      intro e hm
      apply hlast e
      cases pre with
      | nil => simp at hm
      | cons x xs => simpa [List.getLast?_cons_cons] using hm
    have hlast1 : pre = [] → next.addr + 1 ≠ a := by
      intro hp
      subst hp
      exact hlast next (by simp)
    rw [List.cons_append, write_table_loop]
    by_cases hc : (next.addr : Int) ≠ range_start + range_count ∨ next.addr = IMX547_TABLE_END ∨
        next.addr = IMX547_TABLE_WAIT_MS ∨ range_count = 16
    · rw [if_pos hc, write_table_flush_eq bus hok]
      simp only [ne_eq, not_true_eq_false, if_false, if_neg he]
      by_cases hwt : next.addr = IMX547_TABLE_WAIT_MS
      · rw [if_pos hwt]
        obtain ⟨s2, c2, v2, evs, g1, g2, g3, g4, g5⟩ := ih (-1) 0 vals
          (msleep_range next.val (tr ++ flush_events range_start range_count vals))
          hnoend2 hlast2 (by intro _; omega) hlen (by omega) (Or.inl ⟨rfl, rfl⟩)
        refine ⟨s2, c2, v2, flush_events range_start range_count vals ++
          [Event.usleep_range (next.val * 1000 % 2 ^ 32) ((next.val * 1000 + 500) % 2 ^ 32)]
          ++ evs, g1, g2, g3, ?_, ?_⟩
        · rw [g4]; simp [msleep_range]
        · rw [List.append_assoc, List.append_assoc, reg_writes_append, reg_writes_append, g5,
            reg_writes_flush_events _ _ _ (by omega), table_writes_wait _ _ hwt]
          simp [reg_writes]
      · rw [if_neg hwt]
        obtain ⟨s2, c2, v2, evs, g1, g2, g3, g4, g5⟩ := ih next.addr 1 (vals.set 0 next.val)
          (tr ++ flush_events range_start range_count vals)
          hnoend2 hlast2 (by intro hp; have := hlast1 hp; push_cast; omega)
          (by simpa using hlen) (by omega) (Or.inr ⟨by omega, le_refl _⟩)
        refine ⟨s2, c2, v2, flush_events range_start range_count vals ++ evs, g1, g2, g3, ?_, ?_⟩
        · rw [g4, List.append_assoc]
        · rw [List.append_assoc, reg_writes_append, g5,
            reg_writes_flush_events _ _ _ (by omega), table_writes_reg _ _ he hwt]
          have : (vals.set 0 next.val).take 1 = [next.val] := by
            cases vals with
            | nil => simp at hlen
            | cons v vs => simp
          simp [this]
    · rw [if_neg hc]
      simp only [not_or, ne_eq, not_not] at hc
      obtain ⟨hadr, _, hwt, h16⟩ := hc
      have hst : 0 ≤ range_start ∧ 1 ≤ range_count := by
        rcases hinv with ⟨h1, h2⟩ | h
        · omega
        · exact h
      have hne : range_start ≠ -1 := by omega
      rw [if_neg hne]
      obtain ⟨s2, c2, v2, evs, g1, g2, g3, g4, g5⟩ := ih range_start (range_count + 1)
        (vals.set range_count next.val) tr hnoend2 hlast2
        (by intro hp; have := hlast1 hp; push_cast; omega)
        (by simpa using hlen) (by omega) (Or.inr ⟨hst.1, by omega⟩)
      refine ⟨s2, c2, v2, evs, g1, g2, g3, g4, ?_⟩
      rw [g5, take_set_succ _ _ _ (by omega), List.enumFrom_append, table_writes_reg _ _ he hwt]
      have : range_start.toNat + range_count ⊓ vals.length = next.addr := by omega
      simp [this]

theorem run_emission_one_bulk (a : Nat) (vs : List Nat) (h2 : 2 ≤ vs.length)
    (h16 : vs.length ≤ 16) : run_emission a vs = [Event.regmap_bulk_write a vs] := by
  by_cases h : vs.length = 16
  · rw [← run_emission_long a vs (by omega)]
    have hd : vs.drop 16 = [] := List.drop_eq_nil_of_le (by omega)
    have ht : vs.take 16 = vs := List.take_of_length_le (by omega)
    rw [hd, ht, run_emission_nil]
  · have hq : vs.length / 16 = 0 := by omega
    have hr : vs.length % 16 = vs.length := by omega
    unfold run_emission
    rw [hq, hr]
    have h0 : vs.length ≠ 0 := by omega
    have h1 : vs.length ≠ 1 := by omega
    simp [h0, h1]

theorem set_frame_length_eq (bus : Bus) (priv : stimx547) (tr : List Event) :
    imx547_set_frame_length bus priv tr
      = (Outcome.ret (bus.err tr (Event.regmap_bulk_write VMAX_LOW
            (le_bytes (priv.frame_length % 2 ^ 32 % 2 ^ 32) 3))),
          tr ++ [Event.regmap_bulk_write VMAX_LOW
            (le_bytes (priv.frame_length % 2 ^ 32 % 2 ^ 32) 3)]) := by
  unfold imx547_set_frame_length imx547_write_mbreg
  by_cases h : bus.err tr (Event.regmap_bulk_write VMAX_LOW
      (le_bytes (priv.frame_length % 2 ^ 32 % 2 ^ 32) 3)) = 0
  · simp only [h, ne_eq, not_true_eq_false, if_false]
  · simp only [h, ne_eq, not_false_eq_true, if_true]

theorem settled_interval_rate (code : Nat) (fi : v4l2_fract) :
    2000000 ≤ 1000000 * (settled_interval code fi).denominator /
        (settled_interval code fi).numerator ∧
      1000000 * (settled_interval code fi).denominator /
        (settled_interval code fi).numerator ≤ 122200000 := by
  unfold settled_interval max_rate max_rate_interval
  split_ifs <;> simp_all
  omega

/-- What imx547_set_frame_interval does for a supported format and a line time
that is not zero. -/
theorem imx547_set_frame_interval_eq (bus : Bus) (priv : stimx547) (tr : List Event)
    (hfmt : supported_code priv.format.code) (hlt : 0 < priv.line_time)
    (hlt32 : priv.line_time < 2 ^ 32) (hden : priv.frame_interval.denominator < 2 ^ 32) :
    imx547_set_frame_interval bus priv tr
      = (Outcome.ret (bus.err tr (Event.regmap_bulk_write VMAX_LOW (le_bytes
            (10 ^ 6 * 10 ^ 9 / (10 ^ 6 * (settled_interval priv.format.code
              priv.frame_interval).denominator / (settled_interval priv.format.code
              priv.frame_interval).numerator * priv.line_time) % 2 ^ 32 % 2 ^ 32) 3))),
          { priv with
            frame_interval := settled_interval priv.format.code priv.frame_interval,
            frame_length := 10 ^ 6 * 10 ^ 9 / (10 ^ 6 * (settled_interval priv.format.code
              priv.frame_interval).denominator / (settled_interval priv.format.code
              priv.frame_interval).numerator * priv.line_time) },
          tr ++ [Event.regmap_bulk_write VMAX_LOW (le_bytes
            (10 ^ 6 * 10 ^ 9 / (10 ^ 6 * (settled_interval priv.format.code
              priv.frame_interval).denominator / (settled_interval priv.format.code
              priv.frame_interval).numerator * priv.line_time) % 2 ^ 32 % 2 ^ 32) 3)]) := by
  have hsup : priv.format.code = MEDIA_BUS_FMT_SRGGB10_1X10 ∨
      priv.format.code = MEDIA_BUS_FMT_Y10_1X10 ∨
      priv.format.code = MEDIA_BUS_FMT_SRGGB12_1X12 ∨
      priv.format.code = MEDIA_BUS_FMT_Y12_1X12 := hfmt
  have hR : 1000000 * priv.frame_interval.denominator / priv.frame_interval.numerator
      % 18446744073709551616
      = 1000000 * priv.frame_interval.denominator / priv.frame_interval.numerator := by
    apply Nat.mod_eq_of_lt
    have := Nat.div_le_self (1000000 * priv.frame_interval.denominator)
      priv.frame_interval.numerator
    omega
  have hprod : ∀ r : Nat, r ≤ 122200000 → r * priv.line_time % 18446744073709551616
      = r * priv.line_time := by
    intro r hr
    apply Nat.mod_eq_of_lt
    have : r * priv.line_time ≤ 122200000 * 4294967296 :=
      Nat.mul_le_mul hr (by omega)
    omega
  have hpos : ∀ r : Nat, 2000000 ≤ r → r * priv.line_time ≠ 0 := by
    intro r hr
    exact Nat.mul_ne_zero (by omega) (by omega)
  unfold imx547_set_frame_interval
  lift_lets
  intro p1 req1 mx p2 req2 fl p3 r
  have hfmt1 : p1.format = priv.format := by
    simp only [p1]; split_ifs <;> rfl
  have hlt1 : p1.line_time = priv.line_time := by
    simp only [p1]; split_ifs <;> rfl
  have hmx : mx = max_rate priv.format.code := by
    simp only [mx, hfmt1, max_rate, is_10bit]
    split_ifs <;> rfl
  have hp2 : p2 = { priv with
      frame_interval := settled_interval priv.format.code priv.frame_interval } := by
    simp only [p2, hmx, req1, hfmt1]
    simp only [p1, settled_interval, max_rate_interval, is_10bit]
    by_cases hz : priv.frame_interval.numerator = 0 ∨ priv.frame_interval.denominator = 0
    · have c1 : ¬ (IMX547_M_FACTOR * IMX547_DEF_FRAME_RATE / 1 % 2 ^ 64
          > max_rate priv.format.code) := by
        unfold max_rate; split_ifs <;> decide
      have c2 : ¬ (IMX547_M_FACTOR * IMX547_DEF_FRAME_RATE / 1 % 2 ^ 64
          < IMX547_MIN_FRAME_RATE * IMX547_M_FACTOR) := by decide
      simp only [hz, if_true, c1, c2, if_false]
      rfl
    · simp only [hz, if_false, IMX547_M_FACTOR, Nat.reducePow, hR, IMX547_MIN_FRAME_RATE,
        Nat.reduceMul]
      split_ifs <;> rfl
  obtain ⟨hlo, hhi⟩ := settled_interval_rate priv.format.code priv.frame_interval
  have hreq2 : req2 = 10 ^ 6 * (settled_interval priv.format.code
      priv.frame_interval).denominator /
        (settled_interval priv.format.code priv.frame_interval).numerator := by
    simp only [req2, hp2, IMX547_M_FACTOR]
    exact Nat.mod_eq_of_lt (by omega)
  have hlt2 : p2.line_time = priv.line_time := by rw [hp2]
  have hdiv : req2 * p2.line_time % 2 ^ 64 = req2 * priv.line_time := by
    rw [hlt2]
    exact hprod req2 (by rw [hreq2]; exact hhi)
  have hne : ¬ (req2 * p2.line_time % 2 ^ 64 = 0) := by
    rw [hdiv]
    exact hpos req2 (by rw [hreq2]; exact hlo)
  have hfl : fl = 10 ^ 6 * 10 ^ 9 / (10 ^ 6 * (settled_interval priv.format.code
      priv.frame_interval).denominator /
        (settled_interval priv.format.code priv.frame_interval).numerator * priv.line_time) := by
    simp only [fl]
    rw [hdiv, hreq2]
    rfl
  have hsup1 : p1.format.code = MEDIA_BUS_FMT_SRGGB10_1X10 ∨
      p1.format.code = MEDIA_BUS_FMT_Y10_1X10 ∨
      p1.format.code = MEDIA_BUS_FMT_SRGGB12_1X12 ∨
      p1.format.code = MEDIA_BUS_FMT_Y12_1X12 := by rw [hfmt1]; exact hsup
  have hp3 : p3 = { priv with
      frame_interval := settled_interval priv.format.code priv.frame_interval,
      frame_length := fl } := by
    simp only [p3, hp2]
  rw [if_pos hsup1, if_neg hne]
  simp only [r, set_frame_length_eq, hp3, hfl]

/-- The exposure setter returns, and touches nothing but the controls. -/
theorem imx547_set_exposure_frame (bus : Bus) (priv : stimx547) (tr : List Event) (val : Int)
    (hlt : priv.line_time ≠ 0) :
    ∃ code c, (imx547_set_exposure bus priv tr val).1 = Outcome.ret code ∧
      (imx547_set_exposure bus priv tr val).2.1 = { priv with ctrls := c } := by
  unfold imx547_set_exposure
  lift_lets
  intro v1 itl shs0 mn shs r s1 s2
  rw [if_neg hlt]
  split_ifs with h1 h2
  · exact ⟨_, priv.ctrls, rfl, rfl⟩
  · exact ⟨_, _, rfl, rfl⟩
  · exact ⟨_, priv.ctrls, rfl, rfl⟩

/-- The range update returns, and touches nothing but the controls. -/
theorem v4l2_ctrl_modify_range_frame (bus : Bus) (imx547 : stimx547) (tr : List Event)
    (min max : Int) (step : Nat) (dflt : Int) (hlt : imx547.line_time ≠ 0) :
    ∃ code c, (__v4l2_ctrl_modify_range bus imx547 tr min max step dflt).1 = Outcome.ret code ∧
      (__v4l2_ctrl_modify_range bus imx547 tr min max step dflt).2.1
        = { imx547 with ctrls := c } := by
  unfold __v4l2_ctrl_modify_range
  lift_lets
  intro cur s1 s2 p1 new_val
  split_ifs with h1 h2
  · exact ⟨_, imx547.ctrls, rfl, rfl⟩
  · obtain ⟨code, c, e1, e2⟩ := imx547_set_exposure_frame bus p1 tr new_val hlt
    refine ⟨code, c, ?_, ?_⟩
    · simpa [imx547_s_ctrl] using e1
    · simp only [imx547_s_ctrl, if_true]
      rw [e2]
  · exact ⟨_, _, rfl, rfl⟩

/-- The end of imx547_s_frame_interval returns 0, and touches nothing but the
controls and the mutex. -/
theorem reapply_exposure_frame (bus : Bus) (m : Outcome × stimx547 × List Event)
    (hlt : m.2.1.line_time ≠ 0) (hm : ∃ code, m.1 = Outcome.ret code) :
    ∃ c, (reapply_exposure bus m).1 = Outcome.ret 0 ∧
      (reapply_exposure bus m).2.1 = { m.2.1 with ctrls := c, lock := false } := by
  obtain ⟨code, hcode⟩ := hm
  unfold reapply_exposure
  by_cases h : m.1 ≠ Outcome.ret 0
  · rw [if_pos h]
    exact ⟨m.2.1.ctrls, by rw [hcode]; rfl, rfl⟩
  · rw [if_neg h]
    obtain ⟨xcode, xc, hx1, hx2⟩ :=
      imx547_set_exposure_frame bus m.2.1 m.2.2 m.2.1.ctrls.exposure.val hlt
    refine ⟨xc, ?_, ?_⟩
    · show (imx547_set_exposure bus m.2.1 m.2.2 m.2.1.ctrls.exposure.val).1.then_return 0
        = Outcome.ret 0
      rw [hx1]
      rfl
    · show { (imx547_set_exposure bus m.2.1 m.2.2 m.2.1.ctrls.exposure.val).2.1 with
        lock := false } = _
      rw [hx2]

/-- What imx547_s_frame_interval leaves in the state. -/
theorem imx547_s_frame_interval_frame (bus : Bus) (imx547 : stimx547) (tr : List Event)
    (fi : v4l2_fract) (hlock : imx547.lock = false)
    (hfmt : supported_code imx547.format.code) (hlt : 0 < imx547.line_time)
    (hlt32 : imx547.line_time < 2 ^ 32) (hden : fi.denominator < 2 ^ 32) :
    ∃ code c,
      (imx547_s_frame_interval bus imx547 tr fi).1 = Outcome.ret code ∧
      (imx547_s_frame_interval bus imx547 tr fi).2.1
        = { imx547 with
            ctrls := c,
            frame_interval := settled_interval imx547.format.code fi,
            frame_length := 10 ^ 6 * 10 ^ 9 / (10 ^ 6 *
              (settled_interval imx547.format.code fi).denominator /
              (settled_interval imx547.format.code fi).numerator * imx547.line_time) } := by
  have hlk : ¬ (imx547.lock = true) := by simp [hlock]
  obtain ⟨e, q, tr1, hr, hq⟩ : ∃ e q tr1,
      imx547_set_frame_interval bus { imx547 with lock := true, frame_interval := fi } tr
        = (Outcome.ret e, q, tr1) ∧
      q = { imx547 with
            lock := true,
            frame_interval := settled_interval imx547.format.code fi,
            frame_length := 10 ^ 6 * 10 ^ 9 / (10 ^ 6 *
              (settled_interval imx547.format.code fi).denominator /
              (settled_interval imx547.format.code fi).numerator * imx547.line_time) } :=
    ⟨_, _, _, imx547_set_frame_interval_eq bus
      { imx547 with lock := true, frame_interval := fi } tr hfmt hlt hlt32 hden, rfl⟩
  have hst : ∀ c, ({ q with ctrls := c, lock := false } : stimx547)
      = { imx547 with
      ctrls := c,
      frame_interval := settled_interval imx547.format.code fi,
      frame_length := 10 ^ 6 * 10 ^ 9 / (10 ^ 6 *
        (settled_interval imx547.format.code fi).denominator /
        (settled_interval imx547.format.code fi).numerator * imx547.line_time) } := by
    intro c
    rw [hq, ← hlock]
  have hqlt : q.line_time ≠ 0 := by rw [hq]; exact Nat.pos_iff_ne_zero.mp hlt
  have hqs : q.format.code = MEDIA_BUS_FMT_SRGGB10_1X10 ∨
      q.format.code = MEDIA_BUS_FMT_Y10_1X10 ∨
      q.format.code = MEDIA_BUS_FMT_SRGGB12_1X12 ∨
      q.format.code = MEDIA_BUS_FMT_Y12_1X12 := by rw [hq]; exact hfmt
  clear hq
  unfold imx547_s_frame_interval
  rw [if_neg hlk, hr]
  unfold after_frame_interval
  by_cases he : (Outcome.ret e : Outcome) = Outcome.ret 0
  · rw [if_pos he, if_pos hqs]
    obtain ⟨mcode, mc, hm1, hm2⟩ := v4l2_ctrl_modify_range_frame bus q tr1
      IMX547_MIN_EXPOSURE_TIME (new_exposure_max q) 1 (new_exposure_max q) hqlt
    obtain ⟨c, hc1, hc2⟩ := reapply_exposure_frame bus
      (__v4l2_ctrl_modify_range bus q tr1 IMX547_MIN_EXPOSURE_TIME (new_exposure_max q) 1
        (new_exposure_max q)) (by rw [hm2]; exact hqlt) ⟨mcode, hm1⟩
    refine ⟨0, c, hc1, ?_⟩
    rw [hc2, hm2]
    exact hst c
  · rw [if_neg he]
    exact ⟨e, q.ctrls, rfl, hst q.ctrls⟩

/-- The table writer on a bus whose writes succeed: it returns 0 at the first END
entry, and its register writes are the entries of the table. -/
theorem imx547_write_table_ok (bus : Bus) (table : List reg_8) (tr : List Event)
    (hok : ∀ h e, is_write e = true → bus.err h e = 0)
    (hend : ∃ e ∈ table, e.addr = IMX547_TABLE_END) :
    ∃ evs, imx547_write_table bus table tr = (Outcome.ret 0, tr ++ evs) ∧
      reg_writes evs = table_writes table := by
  obtain ⟨evs, h1, h2⟩ := write_table_loop_ok bus hok table (-1) 0 (List.replicate 16 0) tr hend
    (by simp) (by omega) (Or.inl ⟨rfl, rfl⟩)
  exact ⟨evs, h1, by simpa using h2⟩

theorem le32_to_cpu_two_bytes (bytes : List Nat) :
    le32_to_cpu (bytes.take 2) < 65536 := by
  unfold le32_to_cpu
  rcases bytes with _ | ⟨b0, _ | ⟨b1, rest⟩⟩
  · simp
  · simp only [List.take, List.foldr]
    omega
  · simp only [List.take, List.foldr]
    omega

/-- The line time computed from an HMAX value that is not zero. -/
theorem line_time_of_hmax (hmax : Nat) (h0 : hmax ≠ 0) (h1 : hmax < 65536) :
    0 < hmax * IMX547_G_FACTOR / IMX547_INCK % 2 ^ 32 ∧
      hmax * IMX547_G_FACTOR / IMX547_INCK % 2 ^ 32 < 2 ^ 32 := by
  unfold IMX547_G_FACTOR IMX547_INCK
  have hq1 : 13 ≤ hmax * 1000000000 / 74250000 := by
    rw [Nat.le_div_iff_mul_le (by norm_num)]
    omega
  have hq2 : hmax * 1000000000 / 74250000 < 2 ^ 32 := by
    apply Nat.div_lt_of_lt_mul
    omega
  rw [Nat.mod_eq_of_lt hq2]
  exact ⟨by omega, hq2⟩

/-- What imx547_set_exposure does for a supported format and a line time that
is not zero: one 3-byte write at SHS, and the cache updated if it succeeds. -/
theorem imx547_set_exposure_eq (bus : Bus) (priv : stimx547) (tr : List Event) (val : Int)
    (hfmt : supported_code priv.format.code) (hlt : priv.line_time ≠ 0) :
    ∃ shs c,
      imx547_set_exposure bus priv tr val
        = (Outcome.ret (bus.err tr (Event.regmap_bulk_write SHS_LOW (le_bytes shs 3))),
            { priv with ctrls :=
                if bus.err tr (Event.regmap_bulk_write SHS_LOW (le_bytes shs 3)) ≠ 0
                then priv.ctrls else c },
            tr ++ [Event.regmap_bulk_write SHS_LOW (le_bytes shs 3)]) := by
  have hsup : priv.format.code = MEDIA_BUS_FMT_SRGGB10_1X10 ∨
      priv.format.code = MEDIA_BUS_FMT_Y10_1X10 ∨
      priv.format.code = MEDIA_BUS_FMT_SRGGB12_1X12 ∨
      priv.format.code = MEDIA_BUS_FMT_Y12_1X12 := hfmt
  unfold imx547_set_exposure
  lift_lets
  intro v1 itl shs0 mn shs r s1 s2
  rw [if_neg hlt, if_pos hsup]
  refine ⟨shs % 2 ^ 32, { s1 with exposure := { s2 with val := v1 } }, ?_⟩
  have hr : r = (bus.err tr (Event.regmap_bulk_write SHS_LOW (le_bytes (shs % 2 ^ 32) 3)),
      tr ++ [Event.regmap_bulk_write SHS_LOW (le_bytes (shs % 2 ^ 32) 3)]) := rfl
  clear_value r shs
  subst hr
  by_cases he : bus.err tr (Event.regmap_bulk_write SHS_LOW (le_bytes (shs % 2 ^ 32) 3)) ≠ 0
  · simp only [if_pos he]
  · simp only [if_neg he]

set_option maxRecDepth 100000 in
theorem common_settings_has_end : ∃ e ∈ imx547_common_settings, e.addr = IMX547_TABLE_END := by
  decide

set_option maxRecDepth 100000 in
theorem mode_10bit_has_end : ∃ e ∈ imx547_10bit_mode, e.addr = IMX547_TABLE_END := by
  decide

set_option maxRecDepth 100000 in
theorem mode_12bit_has_end : ∃ e ∈ imx547_12bit_mode, e.addr = IMX547_TABLE_END := by
  decide

theorem stopsAtFailure_refl (bus : Bus) (P : Event → Bool) (tr : List Event) (o : Outcome) :
    StopsAtFailure bus P tr (o, tr) :=
  ⟨[], by simp, fun _ => clean_nil _ _ _, aborts_nil _ _ _ _⟩

/-- A function that issues one access and returns its error code. -/
theorem stopsAtFailure_single (bus : Bus) (P : Event → Bool) (tr : List Event) (e : Event) :
    StopsAtFailure bus P tr (Outcome.ret (bus.err tr e), tr ++ [e]) := by
  refine ⟨[e], rfl, fun h => clean_single _ _ _ _ (fun _ => ?_), aborts_single _ _ _ _⟩
  simpa using h

/-- Two steps in a row, the second one run when the first returned 0. -/
theorem stopsAtFailure_then (bus : Bus) (P : Event → Bool) (tr : List Event)
    (r1 r2 : Outcome × List Event) (h1 : StopsAtFailure bus P tr r1)
    (hc : r1.1 = Outcome.ret 0) (h2 : StopsAtFailure bus P r1.2 r2) :
    StopsAtFailure bus P tr r2 := by
  obtain ⟨e1, a1, a2, _⟩ := h1
  obtain ⟨e2, b1, b2, b3⟩ := h2
  rw [a1] at b1 b2 b3
  refine ⟨e1 ++ e2, by rw [b1, List.append_assoc], fun h => ?_, ?_⟩
  · exact clean_append _ _ _ _ _ (a2 hc) (b2 h)
  · exact aborts_append _ _ _ _ _ _ (a2 hc) b3

theorem before_start_sequence_access (e : Event) (h : before_start_sequence e = true) :
    is_access e = true := by
  unfold before_start_sequence at h
  simp only [Bool.and_eq_true] at h
  exact h.1.1

theorem imx547_set_pixel_format_stops (bus : Bus) (priv : stimx547) (tr : List Event) :
    StopsAtFailure bus is_access tr (imx547_set_pixel_format bus priv tr) := by
  unfold imx547_set_pixel_format
  split_ifs
  · exact imx547_write_table_stops bus _ tr
  · exact imx547_write_table_stops bus _ tr
  · exact stopsAtFailure_refl _ _ _ _

theorem imx547_calculate_line_time_stops (bus : Bus) (priv : stimx547) (tr : List Event) :
    StopsAtFailure bus is_access tr
      ((imx547_calculate_line_time bus priv tr).1,
        (imx547_calculate_line_time bus priv tr).2.2) := by
  unfold imx547_calculate_line_time imx547_read_mbreg
  by_cases h : bus.err tr (Event.regmap_bulk_read HMAX_LOW 2) ≠ 0
  · simp only [if_pos h]
    exact stopsAtFailure_single _ _ _ _
  · simp only [if_neg h]
    have h0 : bus.err tr (Event.regmap_bulk_read HMAX_LOW 2) = 0 := by simpa using h
    have := stopsAtFailure_single bus is_access tr (Event.regmap_bulk_read HMAX_LOW 2)
    rw [h0] at this
    exact this

theorem imx547_set_frame_interval_stops (bus : Bus) (priv : stimx547) (tr : List Event) :
    StopsAtFailure bus is_access tr
      ((imx547_set_frame_interval bus priv tr).1,
        (imx547_set_frame_interval bus priv tr).2.2) := by
  unfold imx547_set_frame_interval
  lift_lets
  intro p1 req1 mx p2 req2 fl p3 r
  have hr : r = _ := set_frame_length_eq bus p3 tr
  clear_value r p3 fl req2 p2 mx req1 p1
  subst hr
  split_ifs
  · exact stopsAtFailure_refl _ _ _ _
  · exact stopsAtFailure_single _ _ _ _
  · exact stopsAtFailure_refl _ _ _ _

theorem imx547_set_exposure_stops (bus : Bus) (priv : stimx547) (tr : List Event) (val : Int) :
    StopsAtFailure bus is_access tr
      ((imx547_set_exposure bus priv tr val).1, (imx547_set_exposure bus priv tr val).2.2) := by
  unfold imx547_set_exposure
  lift_lets
  intro v1 itl shs0 mn shs r s1 s2
  have hr : r = (bus.err tr (Event.regmap_bulk_write SHS_LOW (le_bytes (shs % 2 ^ 32) 3)),
      tr ++ [Event.regmap_bulk_write SHS_LOW (le_bytes (shs % 2 ^ 32) 3)]) := rfl
  clear_value r shs mn shs0 itl v1
  subst hr
  split_ifs
  · exact stopsAtFailure_refl _ _ _ _
  · exact stopsAtFailure_single _ _ _ _
  · exact stopsAtFailure_single _ _ _ _
  · exact stopsAtFailure_refl _ _ _ _

/-- The start sequence has no access other than its own two writes. -/
theorem imx547_start_stream_stops (bus : Bus) (tr : List Event) :
    StopsAtFailure bus before_start_sequence tr (imx547_start_stream bus tr) := by
  refine ⟨[Event.regmap_write STANDBY 0x00, Event.usleep_range 1138000 1140000,
    Event.gpiod_set_value 1, Event.usleep_range 20000 21000, Event.gpiod_set_value 0,
    Event.regmap_write XMSTA 0x00], by simp [imx547_start_stream, imx547_write_reg], ?_, ?_⟩
  · intro _ pre ev post heq hP
    have hm : ev ∈ [Event.regmap_write STANDBY 0x00, Event.usleep_range 1138000 1140000,
        Event.gpiod_set_value 1, Event.usleep_range 20000 21000, Event.gpiod_set_value 0,
        Event.regmap_write XMSTA 0x00] := by rw [heq]; simp
    simp only [List.mem_cons, List.mem_singleton, List.not_mem_nil, or_false] at hm
    rcases hm with rfl | rfl | rfl | rfl | rfl | rfl <;> simp [before_start_sequence, is_access] at hP
  · intro pre ev post heq hP
    have hm : ev ∈ [Event.regmap_write STANDBY 0x00, Event.usleep_range 1138000 1140000,
        Event.gpiod_set_value 1, Event.usleep_range 20000 21000, Event.gpiod_set_value 0,
        Event.regmap_write XMSTA 0x00] := by rw [heq]; simp
    simp only [List.mem_cons, List.mem_singleton, List.not_mem_nil, or_false] at hm
    rcases hm with rfl | rfl | rfl | rfl | rfl | rfl <;> simp [before_start_sequence, is_access] at hP

theorem stopsAtFailure_of_access (bus : Bus) (tr : List Event) (res : Outcome × List Event)
    (h : StopsAtFailure bus is_access tr res) :
    StopsAtFailure bus before_start_sequence tr res :=
  stopsAtFailure_mono bus is_access before_start_sequence tr res
    before_start_sequence_access h

/-- Stream start stops at the first failing access that is not one of the two
writes of the start sequence, and returns its error code. -/
theorem imx547_s_stream_stops (bus : Bus) (imx547 : stimx547) (tr : List Event)
    (enable : Int) (hon : enable ≠ 0) :
    StopsAtFailure bus before_start_sequence tr
      ((imx547_s_stream bus imx547 tr enable).1, (imx547_s_stream bus imx547 tr enable).2.2) := by
  unfold imx547_s_stream
  by_cases hlk : imx547.lock = true
  · rw [if_pos hlk]
    exact stopsAtFailure_refl _ _ _ _
  rw [if_neg hlk, if_pos hon]
  lift_lets
  intro r1 r2 r3 q3 r4 q4 r5 q5 r6
  have s1 : StopsAtFailure bus before_start_sequence tr r1 :=
    stopsAtFailure_of_access _ _ _ (imx547_write_table_stops bus _ tr)
  have s2 : StopsAtFailure bus before_start_sequence r1.2 r2 :=
    stopsAtFailure_of_access _ _ _ (imx547_set_pixel_format_stops bus _ r1.2)
  have s3 : StopsAtFailure bus before_start_sequence r2.2 (r3.1, r3.2.2) :=
    stopsAtFailure_of_access _ _ _ (imx547_calculate_line_time_stops bus _ r2.2)
  have s4 : StopsAtFailure bus before_start_sequence r3.2.2 (r4.1, r4.2.2) :=
    stopsAtFailure_of_access _ _ _ (imx547_set_frame_interval_stops bus q3 r3.2.2)
  have s5 : StopsAtFailure bus before_start_sequence r4.2.2 (r5.1, r5.2.2) :=
    stopsAtFailure_of_access _ _ _
      (imx547_set_exposure_stops bus q4 r4.2.2 q4.ctrls.exposure.val)
  have s6 : StopsAtFailure bus before_start_sequence r5.2.2 r6 :=
    imx547_start_stream_stops bus r5.2.2
  have h6 : r6.1 = Outcome.ret 0 := rfl
  clear_value r6 q5 r5 q4 r4 q3 r3 r2 r1
  by_cases c1 : r1.1 ≠ Outcome.ret 0
  · rw [if_pos c1]; exact s1
  rw [if_neg c1]
  have c1' : r1.1 = Outcome.ret 0 := by simpa using c1
  have t2 := stopsAtFailure_then bus _ tr r1 r2 s1 c1' s2
  by_cases c2 : r2.1 ≠ Outcome.ret 0
  · rw [if_pos c2]; exact t2
  rw [if_neg c2]
  have c2' : r2.1 = Outcome.ret 0 := by simpa using c2
  have t3 := stopsAtFailure_then bus _ tr r2 (r3.1, r3.2.2) t2 c2' s3
  by_cases c3 : r3.1 ≠ Outcome.ret 0
  · rw [if_pos c3]; exact t3
  rw [if_neg c3]
  have c3' : r3.1 = Outcome.ret 0 := by simpa using c3
  have t4 := stopsAtFailure_then bus _ tr (r3.1, r3.2.2) (r4.1, r4.2.2) t3 c3' s4
  by_cases c4 : r4.1 ≠ Outcome.ret 0
  · rw [if_pos c4]; exact t4
  rw [if_neg c4]
  have c4' : r4.1 = Outcome.ret 0 := by simpa using c4
  have t5 := stopsAtFailure_then bus _ tr (r4.1, r4.2.2) (r5.1, r5.2.2) t4 c4' s5
  by_cases c5 : r5.1 ≠ Outcome.ret 0
  · rw [if_pos c5]; exact t5
  rw [if_neg c5]
  have c5' : r5.1 = Outcome.ret 0 := by simpa using c5
  have t6 := stopsAtFailure_then bus _ tr (r5.1, r5.2.2) r6 t5 c5' s6
  by_cases c6 : r6.1 ≠ Outcome.ret 0
  · exact absurd h6 c6
  rw [if_neg c6]
  obtain ⟨evs, a1, a2, a3⟩ := t6
  rw [h6] at a2 a3
  exact ⟨evs, a1, a2, a3⟩

theorem cachesOnSuccess_none (bus : Bus) (priv : stimx547) (tr : List Event) (o : Outcome) :
    CachesOnSuccess bus priv tr (o, priv, tr) := by
  refine ⟨Or.inl rfl, ?_, ?_⟩
  · intro ev h
    simp at h
  · intro h
    exact absurd rfl h

theorem cachesOnSuccess_write (bus : Bus) (priv s : stimx547) (tr : List Event) (ev : Event)
    (hw : is_write ev = true) :
    CachesOnSuccess bus priv tr
      (if bus.err tr ev ≠ 0 then (Outcome.ret (bus.err tr ev), priv, tr ++ [ev])
       else (Outcome.ret 0, s, tr ++ [ev])) := by
  by_cases he : bus.err tr ev ≠ 0
  · rw [if_pos he]
    refine ⟨Or.inr ⟨ev, hw, rfl⟩, ?_, ?_⟩
    · intro ev2 h hne
      have : ev = ev2 := by simpa using h
      subst this
      exact ⟨rfl, rfl⟩
    · intro h
      exact absurd rfl h
  · rw [if_neg he]
    refine ⟨Or.inr ⟨ev, hw, rfl⟩, ?_, ?_⟩
    · intro ev2 h hne
      have : ev = ev2 := by simpa using h
      subst this
      exact absurd hne he
    · intro _
      exact ⟨ev, rfl, not_not.mp he⟩

theorem regmap_after_append (m : Nat → Nat) (xs ys : List Event) :
    regmap_after m (xs ++ ys) = regmap_after (regmap_after m xs) ys := by
  simp [regmap_after, reg_writes_append, List.foldl_append]

theorem read_back_le_bytes (m : Nat → Nat) (addr v n : Nat) (h1 : 1 ≤ n) (h3 : n ≤ 3) :
    le32_to_cpu (((List.range n).map (fun i =>
      regmap_after m [Event.regmap_bulk_write addr (le_bytes v n)] (addr + i))).take n)
      = v % 2 ^ (8 * n) := by
  interval_cases n
  · simp [le_bytes, List.range_succ, regmap_after, reg_writes, List.enumFrom, le32_to_cpu]
  · simp [le_bytes, List.range_succ, regmap_after, reg_writes, List.enumFrom, le32_to_cpu,
      Function.update]
    omega
  · simp [le_bytes, List.range_succ, regmap_after, reg_writes, List.enumFrom, le32_to_cpu,
      Function.update]
    split_ifs <;> omega

theorem le_bytes_length (v n : Nat) : (le_bytes v n).length = n := by
  simp [le_bytes]

theorem le_bytes_getD (v n i : Nat) (h : i < n) :
    (le_bytes v n).getD i 0 = (v >>> (8 * i)) &&& 0xFF := by
  have h255 : (0xFF : Nat) = 2 ^ 8 - 1 := by norm_num
  rw [h255, Nat.and_pow_two_sub_one_eq_mod, Nat.shiftRight_eq_div_pow, pow_mul]
  simp [le_bytes, List.getD_eq_getElem?_getD, List.getElem?_range h]

theorem le_bytes_mod (v n : Nat) : le_bytes (v % 2 ^ (8 * n)) n = le_bytes v n := by
  unfold le_bytes
  apply List.map_congr_left
  intro i hi
  have hin : i < n := List.mem_range.mp hi
  obtain ⟨k, rfl⟩ : ∃ k, n = i + 1 + k := ⟨n - (i + 1), by omega⟩
  have e : 2 ^ (8 * (i + 1 + k)) = 256 ^ i * (256 * 256 ^ k) := by
    rw [show 8 * (i + 1 + k) = 8 * i + (8 + 8 * k) by ring, pow_add, pow_add, pow_mul, pow_mul]
    norm_num
  rw [e, Nat.mod_mul_right_div_self, Nat.mod_mul_right_mod]

theorem imx547_set_fmt_eq (imx547 : stimx547) (format : v4l2_mbus_framefmt)
    (hlock : imx547.lock = false) (hfmt : supported_code format.code) :
    imx547_set_fmt imx547 format
      = (Outcome.ret 0, { imx547 with
          format := format,
          line_time := if is_10bit format.code then IMX547_DEFAULT_LINE_TIME_10BIT
            else IMX547_DEFAULT_LINE_TIME_12BIT }) := by
  obtain ⟨ctrls, fmt, fi, lock, fl, lt⟩ := imx547
  simp only at hlock
  subst hlock
  unfold imx547_set_fmt
  by_cases h10 : is_10bit format.code
  · have h10b : format.code = MEDIA_BUS_FMT_SRGGB10_1X10 ∨ format.code = MEDIA_BUS_FMT_Y10_1X10 :=
      h10
    simp [h10, h10b]
  · have h10b : ¬ (format.code = MEDIA_BUS_FMT_SRGGB10_1X10 ∨
        format.code = MEDIA_BUS_FMT_Y10_1X10) := h10
    have h12 : format.code = MEDIA_BUS_FMT_SRGGB12_1X12 ∨ format.code = MEDIA_BUS_FMT_Y12_1X12 := by
      rcases hfmt with h | h | h | h
      · exact absurd (Or.inl h) h10b
      · exact absurd (Or.inr h) h10b
      · exact Or.inl h
      · exact Or.inr h
    simp [h10, h10b, h12]

theorem settled_interval_in_range (code : Nat) (fi : v4l2_fract) (hnum : fi.numerator ≠ 0)
    (hden : fi.denominator ≠ 0) (hlo : 2 * 10 ^ 6 ≤ 10 ^ 6 * fi.denominator / fi.numerator)
    (hhi : 10 ^ 6 * fi.denominator / fi.numerator ≤ max_rate code) :
    settled_interval code fi = fi := by
  unfold settled_interval
  norm_num at hlo hhi
  rw [if_neg (by simp [hnum, hden]), if_neg (by omega), if_neg (by omega)]

theorem foldl_update_not_written (W : List (Nat × Nat)) (a : Nat) :
    ∀ m : Nat → Nat, a ∉ W.map Prod.fst →
      W.foldl (fun m w => Function.update m w.1 w.2) m a = m a := by
  induction W with
  | nil => intro m _; rfl
  | cons w W ih =>
    intro m h
    simp only [List.map_cons, List.mem_cons, not_or] at h
    rw [List.foldl_cons, ih _ h.2, Function.update_noteq h.1]

theorem foldl_update_written (W : List (Nat × Nat)) (a : Nat) :
    ∀ m n : Nat → Nat, a ∈ W.map Prod.fst →
      W.foldl (fun m w => Function.update m w.1 w.2) m a
        = W.foldl (fun m w => Function.update m w.1 w.2) n a := by
  induction W with
  | nil => intro m n h; simp at h
  | cons w W ih =>
    intro m n h
    rw [List.foldl_cons, List.foldl_cons]
    by_cases hW : a ∈ W.map Prod.fst
    · exact ih _ _ hW
    · have ha : a = w.1 := by
        simp only [List.map_cons, List.mem_cons] at h
        exact h.resolve_right hW
      rw [foldl_update_not_written W a _ hW, foldl_update_not_written W a _ hW, ha,
        Function.update_same, Function.update_same]

theorem foldl_update_twice (W : List (Nat × Nat)) (m : Nat → Nat) :
    W.foldl (fun m w => Function.update m w.1 w.2)
        (W.foldl (fun m w => Function.update m w.1 w.2) m)
      = W.foldl (fun m w => Function.update m w.1 w.2) m := by
  funext a
  by_cases hW : a ∈ W.map Prod.fst
  · exact foldl_update_written W a _ _ hW
  · exact foldl_update_not_written W a _ hW

theorem imx547_write_table_twice (bus : Bus)
    (hok : ∀ h e, is_write e = true → bus.err h e = 0) (table : List reg_8)
    (init : Nat → Nat) (tr : List Event) (hend : ∃ e ∈ table, e.addr = IMX547_TABLE_END) :
    (imx547_write_table bus table tr).1 = Outcome.ret 0 ∧
    (imx547_write_table bus table (imx547_write_table bus table tr).2).1 = Outcome.ret 0 ∧
    regmap_after init (imx547_write_table bus table (imx547_write_table bus table tr).2).2
      = regmap_after init (imx547_write_table bus table tr).2 := by
  obtain ⟨evs1, e1, w1⟩ := imx547_write_table_ok bus table tr hok hend
  rw [e1]
  obtain ⟨evs2, e2, w2⟩ := imx547_write_table_ok bus table (tr ++ evs1) hok hend
  rw [e2]
  refine ⟨rfl, rfl, ?_⟩
  simp only [regmap_after, reg_writes_append, List.foldl_append, w1, w2]
  exact foldl_update_twice _ _

theorem with_exposure_val_self (priv : stimx547) :
    with_exposure_val priv priv.ctrls.exposure.val = priv := rfl

/-- What imx547_set_exposure leaves in the state: at most another cached
exposure value, which is the checked value when the function returns 0. -/
theorem imx547_set_exposure_state (bus : Bus) (priv : stimx547) (tr : List Event) (val : Int) :
    ((imx547_set_exposure bus priv tr val).2.1 = priv ∨
      (imx547_set_exposure bus priv tr val).2.1
        = with_exposure_val priv (checked_exposure priv val)) ∧
    ((imx547_set_exposure bus priv tr val).1 = Outcome.ret 0 →
      (imx547_set_exposure bus priv tr val).2.1
        = with_exposure_val priv (checked_exposure priv val)) := by
  unfold imx547_set_exposure
  lift_lets
  intro v1 itl shs0 mn shs r s1 s2
  have hv1 : v1 = checked_exposure priv val := rfl
  clear_value v1 r
  split_ifs with h1 h2 h3
  · exact ⟨Or.inl rfl, fun h => by simp at h⟩
  · refine ⟨Or.inl rfl, fun h => ?_⟩
    simp only [Outcome.ret.injEq] at h
    exact absurd h h3
  · rw [hv1]
    exact ⟨Or.inr rfl, fun _ => rfl⟩
  · refine ⟨Or.inl rfl, fun h => ?_⟩
    simp [EINVAL] at h

/-- On a bus whose writes succeed, imx547_set_exposure returns 0 in a state
with a supported format and a line time. -/
theorem imx547_set_exposure_ok (bus : Bus) (priv : stimx547) (tr : List Event) (val : Int)
    (hok : ∀ h e, is_write e = true → bus.err h e = 0)
    (hfmt : supported_code priv.format.code) (hlt : priv.line_time ≠ 0) :
    (imx547_set_exposure bus priv tr val).1 = Outcome.ret 0 := by
  obtain ⟨shs, c, e⟩ := imx547_set_exposure_eq bus priv tr val hfmt hlt
  rw [e]
  exact congrArg Outcome.ret
    (hok tr (Event.regmap_bulk_write SHS_LOW (le_bytes shs 3)) rfl)

theorem checked_exposure_in_range (priv : stimx547) (val : Int)
    (h1 : priv.ctrls.exposure.minimum ≤ val) (h2 : val ≤ priv.ctrls.exposure.maximum) :
    checked_exposure priv val = val := by
  unfold checked_exposure
  rw [if_neg (by omega), if_neg (by omega)]

/-- The range update with a range the framework refuses. -/
theorem modify_range_refused (bus : Bus) (q : stimx547) (tr : List Event) (min max : Int)
    (h : max < min) :
    __v4l2_ctrl_modify_range bus q tr min max 1 max = (Outcome.ret (-ERANGE), q, tr) := by
  unfold __v4l2_ctrl_modify_range
  rw [if_pos (Or.inr (Or.inl h))]

/-- The range update with a range the framework accepts: the range is stored,
and when the update returns 0 the cached value lies in it. -/
theorem modify_range_state (bus : Bus) (q : stimx547) (tr : List Event) (min max : Int)
    (h : min ≤ max) :
    ∃ v, (__v4l2_ctrl_modify_range bus q tr min max 1 max).2.1
        = with_exposure q { minimum := min, maximum := max, default_value := max, val := v } ∧
      ((__v4l2_ctrl_modify_range bus q tr min max 1 max).1 = Outcome.ret 0 →
        min ≤ v ∧ v ≤ max) := by
  unfold __v4l2_ctrl_modify_range
  lift_lets
  intro cur s1 s2 p1 new_val
  have hp1 : p1 = with_exposure q
      { minimum := min, maximum := max, default_value := max, val := cur } := rfl
  have hcur : cur = q.ctrls.exposure.val := rfl
  have hnew : min ≤ new_val ∧ new_val ≤ max := by
    simp only [new_val]
    split_ifs <;> omega
  clear_value new_val p1 cur
  have hv : ¬ ((1 : Nat) = 0 ∨ min > max ∨ max < min ∨ max > max) := by
    intro hh
    rcases hh with hh | hh | hh | hh <;> omega
  rw [if_neg hv]
  by_cases hc : new_val ≠ cur
  · rw [if_pos hc]
    have hs : imx547_s_ctrl bus p1 tr V4L2_CID_EXPOSURE new_val
        = imx547_set_exposure bus p1 tr new_val := by
      simp [imx547_s_ctrl]
    rw [hs]
    obtain ⟨e1, e2⟩ := imx547_set_exposure_state bus p1 tr new_val
    have hchk : checked_exposure p1 new_val = new_val :=
      checked_exposure_in_range p1 new_val (by rw [hp1]; exact hnew.1) (by rw [hp1]; exact hnew.2)
    rw [hchk] at e1 e2
    rcases e1 with e1 | e1
    · refine ⟨cur, ?_, ?_⟩
      · rw [e1, hp1]
      · intro h0
        have := e2 h0
        rw [e1, hp1] at this
        have hval := congrArg (fun s : stimx547 => s.ctrls.exposure.val) this
        simp only [with_exposure, with_exposure_val] at hval
        exact absurd hval.symm hc
    · refine ⟨new_val, ?_, fun _ => hnew⟩
      rw [e1, hp1]
      rfl
  · rw [if_neg hc]
    refine ⟨cur, by rw [hp1], fun _ => ?_⟩
    have : new_val = cur := not_not.mp hc
    rw [← this]
    exact hnew

/-- On a bus whose writes succeed, the range update with a range the
framework accepts returns 0 in a state with a supported format and a line
time. -/
theorem modify_range_ok (bus : Bus) (q : stimx547) (tr : List Event) (min max : Int)
    (h : min ≤ max) (hok : ∀ h e, is_write e = true → bus.err h e = 0)
    (hfmt : supported_code q.format.code) (hlt : q.line_time ≠ 0) :
    (__v4l2_ctrl_modify_range bus q tr min max 1 max).1 = Outcome.ret 0 := by
  unfold __v4l2_ctrl_modify_range
  lift_lets
  intro cur s1 s2 p1 new_val
  have hf : p1.format = q.format := rfl
  have hl : p1.line_time = q.line_time := rfl
  clear_value new_val p1 cur
  have hv : ¬ ((1 : Nat) = 0 ∨ min > max ∨ max < min ∨ max > max) := by
    intro hh
    rcases hh with hh | hh | hh | hh <;> omega
  rw [if_neg hv]
  split_ifs with hc
  · have hs : imx547_s_ctrl bus p1 tr V4L2_CID_EXPOSURE new_val
        = imx547_set_exposure bus p1 tr new_val := by
      simp [imx547_s_ctrl]
    rw [hs]
    exact imx547_set_exposure_ok bus p1 tr new_val hok (by rw [hf]; exact hfmt)
      (by rw [hl]; exact hlt)
  · rfl

/-- A frame interval update that returns 0 ran in a state with a supported
format and a line time other than 0. -/
theorem imx547_set_frame_interval_ret (bus : Bus) (priv : stimx547) (tr : List Event)
    (h : (imx547_set_frame_interval bus priv tr).1 = Outcome.ret 0) :
    supported_code priv.format.code ∧ priv.line_time ≠ 0 := by
  revert h
  unfold imx547_set_frame_interval
  lift_lets
  intro p1 req1 mx p2 req2 fl p3 r h
  have hfmt1 : p1.format = priv.format := by
    simp only [p1]; split_ifs <;> rfl
  have hlt1 : p1.line_time = priv.line_time := by
    simp only [p1]; split_ifs <;> rfl
  have hlt2 : p2.line_time = priv.line_time := by
    simp only [p2]; split_ifs <;> exact hlt1
  clear_value r p3 fl req2 p2 mx req1 p1
  by_cases h1 : p1.format.code = MEDIA_BUS_FMT_SRGGB10_1X10 ∨
      p1.format.code = MEDIA_BUS_FMT_Y10_1X10 ∨
      p1.format.code = MEDIA_BUS_FMT_SRGGB12_1X12 ∨ p1.format.code = MEDIA_BUS_FMT_Y12_1X12
  · rw [if_pos h1] at h
    by_cases h2 : req2 * p2.line_time % 2 ^ 64 = 0
    · rw [if_pos h2] at h
      simp at h
    · rw [hfmt1] at h1
      refine ⟨h1, fun h0 => h2 ?_⟩
      rw [hlt2, h0]
      rfl
  · rw [if_neg h1] at h
    simp [EINVAL] at h

theorem frame_length_line_time_le (rate lt : Nat) (hrate : 2000000 ≤ rate) :
    10 ^ 6 * 10 ^ 9 / (rate * lt) * lt ≤ 500000000 := by
  have h1 : 10 ^ 6 * 10 ^ 9 / (rate * lt) * (rate * lt) ≤ 10 ^ 6 * 10 ^ 9 :=
    Nat.div_mul_le_self _ _
  have h2 : 10 ^ 6 * 10 ^ 9 / (rate * lt) * lt * 2000000
      ≤ 10 ^ 6 * 10 ^ 9 / (rate * lt) * (rate * lt) := by
    calc 10 ^ 6 * 10 ^ 9 / (rate * lt) * lt * 2000000
        ≤ 10 ^ 6 * 10 ^ 9 / (rate * lt) * lt * rate := Nat.mul_le_mul_left _ hrate
      _ = 10 ^ 6 * 10 ^ 9 / (rate * lt) * (rate * lt) := by ring
  generalize 10 ^ 6 * 10 ^ 9 / (rate * lt) * lt = X at h2
  generalize 10 ^ 6 * 10 ^ 9 / (rate * lt) * (rate * lt) = Y at h1 h2
  norm_num at h1
  omega

theorem exposure_max_arith (fl mn lt : Nat) (h1 : mn ≤ fl) (h2 : fl * lt ≤ 500000000) :
    s32 ((u64 ((fl : Int) - mn) * lt % 2 ^ 64 / IMX547_K_FACTOR : Nat))
      = ((fl : Int) - mn) * lt / 1000 := by
  have hx : (fl - mn) * lt ≤ 500000000 :=
    le_trans (Nat.mul_le_mul_right lt (Nat.sub_le fl mn)) h2
  have hfl : fl - mn ≤ 500000000 ∨ lt = 0 := by
    rcases Nat.eq_zero_or_pos lt with h | h
    · exact Or.inr h
    · left
      calc fl - mn = (fl - mn) * 1 := (Nat.mul_one _).symm
        _ ≤ (fl - mn) * lt := Nat.mul_le_mul_left _ h
        _ ≤ 500000000 := hx
  have hu : u64 ((fl : Int) - mn) * lt = (fl - mn) * lt := by
    rcases hfl with h | h
    · have : u64 ((fl : Int) - mn) = fl - mn := by
        unfold u64
        omega
      rw [this]
    · rw [h, Nat.mul_zero, Nat.mul_zero]
  rw [hu]
  have hm : (fl - mn) * lt % 2 ^ 64 = (fl - mn) * lt := Nat.mod_eq_of_lt (by omega)
  rw [hm]
  have hc : ((fl : Int) - mn) * lt / 1000 = (((fl - mn) * lt / 1000 : Nat) : Int) := by
    push_cast [Nat.cast_sub h1]
    rfl
  rw [hc]
  have hd : (fl - mn) * lt / 1000 ≤ 500000 := by omega
  have hk : (fl - mn) * lt / IMX547_K_FACTOR = (fl - mn) * lt / 1000 := rfl
  rw [hk]
  generalize (fl - mn) * lt / 1000 = Z at hd
  unfold s32
  omega

theorem stated_exposure_max_congr (s t : stimx547) (h1 : s.frame_length = t.frame_length)
    (h2 : s.format = t.format) (h3 : s.line_time = t.line_time) :
    stated_exposure_max s = stated_exposure_max t := by
  unfold stated_exposure_max
  rw [h1, h2, h3]

/-- The maximum imx547_s_frame_interval computes is the stated one when the
frame length is not below the lowest SHS value and the frame lasts at most
half a second. -/
theorem new_exposure_max_eq (q : stimx547) (h1 : min_shs q.format.code ≤ q.frame_length)
    (h2 : q.frame_length * q.line_time ≤ 500000000) :
    new_exposure_max q = stated_exposure_max q := by
  have hmn : (if q.format.code = MEDIA_BUS_FMT_SRGGB10_1X10 ∨
      q.format.code = MEDIA_BUS_FMT_Y10_1X10 then IMX547_MIN_SHS_LENGTH_10BIT
      else IMX547_MIN_SHS_LENGTH_12BIT) = min_shs q.format.code := by
    simp only [min_shs, is_10bit]
    split_ifs <;> rfl
  unfold new_exposure_max stated_exposure_max
  simp only [hmn]
  exact exposure_max_arith q.frame_length (min_shs q.format.code) q.line_time h1 h2

/-- What the end of imx547_s_frame_interval leaves in the state: the mutex
released and at most another cached exposure value; the cached value stays
when the range update failed, and when it succeeded with the value in range. -/
theorem reapply_exposure_state (bus : Bus) (m : Outcome × stimx547 × List Event) :
    ∃ v, (reapply_exposure bus m).2.1 = { with_exposure_val m.2.1 v with lock := false } ∧
      (m.1 ≠ Outcome.ret 0 → v = m.2.1.ctrls.exposure.val) ∧
      (m.2.1.ctrls.exposure.minimum ≤ m.2.1.ctrls.exposure.val →
        m.2.1.ctrls.exposure.val ≤ m.2.1.ctrls.exposure.maximum →
        v = m.2.1.ctrls.exposure.val) := by
  unfold reapply_exposure
  by_cases h : m.1 ≠ Outcome.ret 0
  · rw [if_pos h]
    exact ⟨m.2.1.ctrls.exposure.val, rfl, fun _ => rfl, fun _ _ => rfl⟩
  · rw [if_neg h]
    obtain ⟨e1, -⟩ := imx547_set_exposure_state bus m.2.1 m.2.2 m.2.1.ctrls.exposure.val
    rcases e1 with e1 | e1
    · refine ⟨m.2.1.ctrls.exposure.val, ?_, fun _ => rfl, fun _ _ => rfl⟩
      show { (imx547_set_exposure bus m.2.1 m.2.2 m.2.1.ctrls.exposure.val).2.1 with
        lock := false } = _
      rw [e1]
      rfl
    · refine ⟨checked_exposure m.2.1 m.2.1.ctrls.exposure.val, ?_, fun h2 => absurd h2 h,
        fun h1 h2 => checked_exposure_in_range _ _ h1 h2⟩
      show { (imx547_set_exposure bus m.2.1 m.2.2 m.2.1.ctrls.exposure.val).2.1 with
        lock := false } = _
      rw [e1]

/-- The state after a successful imx547_s_frame_interval, through the state q
that imx547_set_frame_interval leaves. -/
theorem imx547_s_frame_interval_success (bus : Bus) (imx547 : stimx547) (tr : List Event)
    (fi : v4l2_fract) (hlock : imx547.lock = false) (hlt32 : imx547.line_time < 2 ^ 32)
    (hden : fi.denominator < 2 ^ 32)
    (hret : (imx547_s_frame_interval bus imx547 tr fi).1 = Outcome.ret 0) :
    ∃ q tr1, supported_code imx547.format.code ∧ imx547.line_time ≠ 0 ∧
      q.format = imx547.format ∧ q.line_time = imx547.line_time ∧ q.ctrls = imx547.ctrls ∧
      q.frame_length * q.line_time ≤ 500000000 ∧
      q.frame_length = 10 ^ 6 * 10 ^ 9 / (10 ^ 6 *
        (settled_interval imx547.format.code fi).denominator /
        (settled_interval imx547.format.code fi).numerator * imx547.line_time) ∧
      q.frame_interval = settled_interval imx547.format.code fi ∧
      imx547_s_frame_interval bus imx547 tr fi
        = reapply_exposure bus (__v4l2_ctrl_modify_range bus q tr1 IMX547_MIN_EXPOSURE_TIME
            (new_exposure_max q) 1 (new_exposure_max q)) := by
  have hlk : ¬ (imx547.lock = true) := by simp [hlock]
  unfold imx547_s_frame_interval at hret ⊢
  rw [if_neg hlk] at hret ⊢
  by_cases hr0 : (imx547_set_frame_interval bus
      { imx547 with lock := true, frame_interval := fi } tr).1 = Outcome.ret 0
  swap
  · unfold after_frame_interval at hret
    rw [if_neg hr0] at hret
    exact absurd hret hr0
  obtain ⟨hfmt, hlt⟩ := imx547_set_frame_interval_ret bus _ tr hr0
  have hfmt : supported_code imx547.format.code := hfmt
  have hlt : imx547.line_time ≠ 0 := hlt
  obtain ⟨hrlo, -⟩ := settled_interval_rate imx547.format.code fi
  obtain ⟨e, q, tr1, hr, hq⟩ : ∃ e q tr1,
      imx547_set_frame_interval bus { imx547 with lock := true, frame_interval := fi } tr
        = (Outcome.ret e, q, tr1) ∧
      q = { imx547 with
            lock := true,
            frame_interval := settled_interval imx547.format.code fi,
            frame_length := 10 ^ 6 * 10 ^ 9 / (10 ^ 6 *
              (settled_interval imx547.format.code fi).denominator /
              (settled_interval imx547.format.code fi).numerator * imx547.line_time) } :=
    ⟨_, _, _, imx547_set_frame_interval_eq bus
      { imx547 with lock := true, frame_interval := fi } tr hfmt (Nat.pos_of_ne_zero hlt)
      hlt32 hden, rfl⟩
  have hbound : q.frame_length * q.line_time ≤ 500000000 := by
    rw [hq]
    exact frame_length_line_time_le _ _ (by norm_num at hrlo ⊢; exact hrlo)
  have hqf : q.format = imx547.format := by rw [hq]
  have hql : q.line_time = imx547.line_time := by rw [hq]
  have hqc : q.ctrls = imx547.ctrls := by rw [hq]
  have hqfl : q.frame_length = 10 ^ 6 * 10 ^ 9 / (10 ^ 6 *
        (settled_interval imx547.format.code fi).denominator /
        (settled_interval imx547.format.code fi).numerator * imx547.line_time) := by rw [hq]
  have hqfi : q.frame_interval = settled_interval imx547.format.code fi := by rw [hq]
  have hqs : q.format.code = MEDIA_BUS_FMT_SRGGB10_1X10 ∨
      q.format.code = MEDIA_BUS_FMT_Y10_1X10 ∨
      q.format.code = MEDIA_BUS_FMT_SRGGB12_1X12 ∨
      q.format.code = MEDIA_BUS_FMT_Y12_1X12 := by rw [hqf]; exact hfmt
  clear hq
  rw [hr] at hr0 ⊢
  refine ⟨q, tr1, hfmt, hlt, hqf, hql, hqc, hbound, hqfl, hqfi, ?_⟩
  unfold after_frame_interval
  rw [if_pos hr0, if_pos hqs]

/-- The exposure control in the state s after a successful
imx547_s_frame_interval whose new frame length is not below the lowest SHS
value: with a stated maximum of at least 14 the range is [14, maximum] with
the maximum as default, and on a bus whose writes succeed the cached value
lies in it; with a stated maximum below 14 the controls are as before. -/
theorem imx547_s_frame_interval_exposure (bus : Bus) (imx547 : stimx547) (tr : List Event)
    (fi : v4l2_fract) (s : stimx547) (hlock : imx547.lock = false)
    (hlt32 : imx547.line_time < 2 ^ 32) (hden : fi.denominator < 2 ^ 32)
    (hret : (imx547_s_frame_interval bus imx547 tr fi).1 = Outcome.ret 0)
    (hs : (imx547_s_frame_interval bus imx547 tr fi).2.1 = s)
    (hfl : min_shs imx547.format.code ≤ s.frame_length) :
    s.format = imx547.format ∧ s.line_time = imx547.line_time ∧ s.lock = false ∧
    (14 ≤ stated_exposure_max s →
      ∃ v, s.ctrls.exposure
          = { minimum := 14, maximum := stated_exposure_max s,
              default_value := stated_exposure_max s, val := v } ∧
        ((∀ h e, is_write e = true → bus.err h e = 0) →
          14 ≤ v ∧ v ≤ stated_exposure_max s)) ∧
    (stated_exposure_max s < 14 → s.ctrls = imx547.ctrls) := by
  obtain ⟨q, tr1, hfmt, hlt, hqf, hql, hqc, hbound, -, -, heq⟩ :=
    imx547_s_frame_interval_success bus imx547 tr fi hlock hlt32 hden hret
  rw [heq] at hs
  clear heq hret
  obtain ⟨v, hv, hvf, hvr⟩ := reapply_exposure_state bus
    (__v4l2_ctrl_modify_range bus q tr1 IMX547_MIN_EXPOSURE_TIME (new_exposure_max q) 1
      (new_exposure_max q))
  rw [hv] at hs
  clear hv
  by_cases hM : IMX547_MIN_EXPOSURE_TIME ≤ new_exposure_max q
  · obtain ⟨v0, hm, hmr⟩ := modify_range_state bus q tr1 IMX547_MIN_EXPOSURE_TIME
      (new_exposure_max q) hM
    have hmok := modify_range_ok bus q tr1 IMX547_MIN_EXPOSURE_TIME (new_exposure_max q) hM
    generalize __v4l2_ctrl_modify_range bus q tr1 IMX547_MIN_EXPOSURE_TIME (new_exposure_max q) 1
      (new_exposure_max q) = m at hs hvf hvr hm hmr hmok
    rw [hm] at hs hvf hvr
    subst hs
    have hfl2 : min_shs q.format.code ≤ q.frame_length := by rw [hqf]; exact hfl
    have hst : stated_exposure_max
        ({ with_exposure_val (with_exposure q
          { minimum := IMX547_MIN_EXPOSURE_TIME, maximum := new_exposure_max q,
            default_value := new_exposure_max q, val := v0 }) v with lock := false })
        = new_exposure_max q := by
      rw [new_exposure_max_eq q hfl2 hbound]
      exact stated_exposure_max_congr _ _ rfl rfl rfl
    rw [hst]
    refine ⟨hqf, hql, rfl, fun _ => ⟨v, rfl, fun hok => ?_⟩, fun hlt14 => ?_⟩
    · have h0 := hmok hok (by rw [hqf]; exact hfmt) (by rw [hql]; exact hlt)
      obtain ⟨hlo, hhi⟩ := hmr h0
      have hv0 : v = v0 := hvr hlo hhi
      rw [hv0]
      exact ⟨hlo, hhi⟩
    · exact absurd hM (not_le.mpr hlt14)
  · have hMlt : new_exposure_max q < IMX547_MIN_EXPOSURE_TIME := not_le.mp hM
    have hmr := modify_range_refused bus q tr1 IMX547_MIN_EXPOSURE_TIME (new_exposure_max q)
      hMlt
    rw [hmr] at hs hvf
    have hv0 : v = q.ctrls.exposure.val := hvf (by simp [ERANGE])
    rw [hv0] at hs
    subst hs
    have hfl2 : min_shs q.format.code ≤ q.frame_length := by rw [hqf]; exact hfl
    have hst : stated_exposure_max
        ({ with_exposure_val q q.ctrls.exposure.val with lock := false })
        = new_exposure_max q := by
      rw [new_exposure_max_eq q hfl2 hbound]
      exact stated_exposure_max_congr _ _ rfl rfl rfl
    rw [hst]
    exact ⟨hqf, hql, rfl, fun h14 => absurd h14 hM, fun _ => hqc⟩

/-- The rate of the settled interval is at most the highest rate of the format. -/
theorem settled_interval_rate_le_max (code : Nat) (fi : v4l2_fract) :
    1000000 * (settled_interval code fi).denominator / (settled_interval code fi).numerator
      ≤ max_rate code := by
  unfold settled_interval max_rate_interval max_rate
  split_ifs <;> simp_all

/-- The steps of a successful imx547_s_stream(on): every step returned 0, and
the state is the one the exposure setter leaves, with the mutex released. -/
theorem imx547_s_stream_on_success (bus : Bus) (imx547 : stimx547) (tr : List Event)
    (enable : Int) (hon : enable ≠ 0) (hlock : imx547.lock = false) :
    (imx547_s_stream bus imx547 tr enable).1 = Outcome.ret 0 →
    ∃ (r1 r2 : Outcome × List Event) (r3 r4 r5 : Outcome × stimx547 × List Event),
      r1 = imx547_common_regs bus tr ∧ r1.1 = Outcome.ret 0 ∧
      r2 = imx547_set_pixel_format bus { imx547 with lock := true } r1.2 ∧
      r2.1 = Outcome.ret 0 ∧
      r3 = imx547_calculate_line_time bus { imx547 with lock := true } r2.2 ∧
      r3.1 = Outcome.ret 0 ∧
      r4 = imx547_set_frame_interval bus r3.2.1 r3.2.2 ∧ r4.1 = Outcome.ret 0 ∧
      r5 = imx547_set_exposure bus r4.2.1 r4.2.2 r4.2.1.ctrls.exposure.val ∧
      r5.1 = Outcome.ret 0 ∧
      (imx547_s_stream bus imx547 tr enable).2.1 = { r5.2.1 with lock := false } := by
  have hlk : ¬ (imx547.lock = true) := by simp [hlock]
  unfold imx547_s_stream
  rw [if_neg hlk, if_pos hon]
  lift_lets
  intro r1 r2 r3 q3 r4 q4 r5 q5 r6
  have e1 : r1 = imx547_common_regs bus tr := rfl
  have e2 : r2 = imx547_set_pixel_format bus { imx547 with lock := true } r1.2 := rfl
  have e3 : r3 = imx547_calculate_line_time bus { imx547 with lock := true } r2.2 := rfl
  have e4 : r4 = imx547_set_frame_interval bus r3.2.1 r3.2.2 := rfl
  have e5 : r5 = imx547_set_exposure bus r4.2.1 r4.2.2 r4.2.1.ctrls.exposure.val := rfl
  have e6 : q5 = r5.2.1 := rfl
  clear_value r6 q5 r5 q4 r4 q3 r3 r2 r1
  by_cases c1 : r1.1 ≠ Outcome.ret 0
  · rw [if_pos c1]
    intro h
    exact absurd h c1
  rw [if_neg c1]
  by_cases c2 : r2.1 ≠ Outcome.ret 0
  · rw [if_pos c2]
    intro h
    exact absurd h c2
  rw [if_neg c2]
  by_cases c3 : r3.1 ≠ Outcome.ret 0
  · rw [if_pos c3]
    intro h
    exact absurd h c3
  rw [if_neg c3]
  by_cases c4 : r4.1 ≠ Outcome.ret 0
  · rw [if_pos c4]
    intro h
    exact absurd h c4
  rw [if_neg c4]
  by_cases c5 : r5.1 ≠ Outcome.ret 0
  · rw [if_pos c5]
    intro h
    exact absurd h c5
  rw [if_neg c5]
  intro _
  refine ⟨r1, r2, r3, r4, r5, e1, not_not.mp c1, e2, not_not.mp c2, e3, not_not.mp c3, e4,
    not_not.mp c4, e5, not_not.mp c5, ?_⟩
  rw [← e6]
  split_ifs <;> rfl

/-- The frame interval update touches only frame_interval and frame_length. -/
theorem imx547_set_frame_interval_keeps (bus : Bus) (priv : stimx547) (tr : List Event) :
    (imx547_set_frame_interval bus priv tr).2.1.ctrls = priv.ctrls ∧
    (imx547_set_frame_interval bus priv tr).2.1.format = priv.format ∧
    (imx547_set_frame_interval bus priv tr).2.1.line_time = priv.line_time ∧
    (imx547_set_frame_interval bus priv tr).2.1.lock = priv.lock := by
  unfold imx547_set_frame_interval
  lift_lets
  intro p1 req1 mx p2 req2 fl p3 r
  have h1 : p1.ctrls = priv.ctrls ∧ p1.format = priv.format ∧ p1.line_time = priv.line_time ∧
      p1.lock = priv.lock := by
    simp only [p1]; split_ifs <;> exact ⟨rfl, rfl, rfl, rfl⟩
  have h2 : p2.ctrls = p1.ctrls ∧ p2.format = p1.format ∧ p2.line_time = p1.line_time ∧
      p2.lock = p1.lock := by
    simp only [p2]; split_ifs <;> exact ⟨rfl, rfl, rfl, rfl⟩
  have h3 : p3.ctrls = p2.ctrls ∧ p3.format = p2.format ∧ p3.line_time = p2.line_time ∧
      p3.lock = p2.lock := ⟨rfl, rfl, rfl, rfl⟩
  clear_value r p3 fl req2 p2 mx req1 p1
  obtain ⟨a1, a2, a3, a4⟩ := h1
  obtain ⟨b1, b2, b3, b4⟩ := h2
  obtain ⟨c1, c2, c3, c4⟩ := h3
  split_ifs
  · exact ⟨b1.trans a1, b2.trans a2, b3.trans a3, b4.trans a4⟩
  · exact ⟨c1.trans (b1.trans a1), c2.trans (b2.trans a2), c3.trans (b3.trans a3),
      c4.trans (b4.trans a4)⟩
  · exact ⟨a1, a2, a3, a4⟩

/-- The line time computation touches only line_time. -/
theorem imx547_calculate_line_time_keeps (bus : Bus) (priv : stimx547) (tr : List Event) :
    (imx547_calculate_line_time bus priv tr).2.1.ctrls = priv.ctrls ∧
    (imx547_calculate_line_time bus priv tr).2.1.format = priv.format ∧
    (imx547_calculate_line_time bus priv tr).2.1.frame_interval = priv.frame_interval ∧
    (imx547_calculate_line_time bus priv tr).2.1.lock = priv.lock := by
  unfold imx547_calculate_line_time
  lift_lets
  intro r
  split_ifs <;> exact ⟨rfl, rfl, rfl, rfl⟩

/-- The checked exposure value lies in the range of the control. -/
theorem checked_exposure_within (priv : stimx547) (val : Int)
    (h : priv.ctrls.exposure.minimum ≤ priv.ctrls.exposure.maximum)
    (hlo : -2 ^ 31 ≤ priv.ctrls.exposure.minimum) (hhi : priv.ctrls.exposure.maximum < 2 ^ 31) :
    priv.ctrls.exposure.minimum ≤ checked_exposure priv val ∧
      checked_exposure priv val ≤ priv.ctrls.exposure.maximum := by
  unfold checked_exposure s32
  split_ifs <;> omega

/-- The exposure control after a successful imx547_s_stream(on): the range is
the one before the call, and the cached value is the checked one. -/
theorem imx547_s_stream_on_exposure (bus : Bus) (imx547 : stimx547) (tr : List Event)
    (enable : Int) (hon : enable ≠ 0) (hlock : imx547.lock = false)
    (hret : (imx547_s_stream bus imx547 tr enable).1 = Outcome.ret 0) :
    (imx547_s_stream bus imx547 tr enable).2.1.ctrls.exposure
      = { imx547.ctrls.exposure with
          val := checked_exposure imx547 imx547.ctrls.exposure.val } := by
  obtain ⟨r1, r2, r3, r4, r5, -, -, -, -, e3, -, e4, -, e5, h5, hs⟩ :=
    imx547_s_stream_on_success bus imx547 tr enable hon hlock hret
  obtain ⟨-, hx⟩ := imx547_set_exposure_state bus r4.2.1 r4.2.2 r4.2.1.ctrls.exposure.val
  rw [← e5] at hx
  have hc4 : r4.2.1.ctrls = imx547.ctrls := by
    rw [e4, (imx547_set_frame_interval_keeps bus r3.2.1 r3.2.2).1, e3,
      (imx547_calculate_line_time_keeps bus _ r2.2).1]
  rw [hs, hx h5]
  unfold with_exposure_val checked_exposure
  rw [hc4]

set_option maxRecDepth 100000 in
/-- The 10-bit mode table leaves 274 in HMAX, whatever the registers held. -/
theorem hmax_after_10bit_mode (m : Nat → Nat) :
    (table_writes imx547_10bit_mode).foldl (fun m w => Function.update m w.1 w.2) m HMAX_LOW
      = 0x12 ∧
    (table_writes imx547_10bit_mode).foldl (fun m w => Function.update m w.1 w.2) m
      (HMAX_LOW + 1) = 0x01 := by
  constructor
  · rw [foldl_update_written _ _ m (fun _ => 0) (by decide)]
    decide
  · rw [foldl_update_written _ _ m (fun _ => 0) (by decide)]
    decide

set_option maxRecDepth 100000 in
/-- The 12-bit mode table leaves 408 in HMAX, whatever the registers held. -/
theorem hmax_after_12bit_mode (m : Nat → Nat) :
    (table_writes imx547_12bit_mode).foldl (fun m w => Function.update m w.1 w.2) m HMAX_LOW
      = 0x98 ∧
    (table_writes imx547_12bit_mode).foldl (fun m w => Function.update m w.1 w.2) m
      (HMAX_LOW + 1) = 0x01 := by
  constructor
  · rw [foldl_update_written _ _ m (fun _ => 0) (by decide)]
    decide
  · rw [foldl_update_written _ _ m (fun _ => 0) (by decide)]
    decide

/-- On a bus that stores the bytes written to it, the line time computed after
the mode table of the format is 3690 ns in 10-bit and 5494 ns in 12-bit. -/
theorem line_time_after_mode_table (bus : Bus) (init : Nat → Nat) (priv : stimx547)
    (tr : List Event) (hbus : Stores bus init)
    (hret : (imx547_set_pixel_format bus priv tr).1 = Outcome.ret 0) :
    (imx547_calculate_line_time bus priv (imx547_set_pixel_format bus priv tr).2).2.1.line_time
      = if is_10bit priv.format.code then 3690 else 5494 := by
  obtain ⟨herr, hdata⟩ := hbus
  have hok : ∀ h e, is_write e = true → bus.err h e = 0 := fun h e _ => herr h e
  unfold imx547_calculate_line_time imx547_read_mbreg
  simp only [herr, hdata, ne_eq, not_true_eq_false, if_false]
  revert hret
  unfold imx547_set_pixel_format
  by_cases h10 : priv.format.code = MEDIA_BUS_FMT_SRGGB10_1X10 ∨
      priv.format.code = MEDIA_BUS_FMT_Y10_1X10
  · have hb : is_10bit priv.format.code := h10
    rw [if_pos h10, if_pos hb]
    intro _
    obtain ⟨evs, e, w⟩ := imx547_write_table_ok bus imx547_10bit_mode tr hok mode_10bit_has_end
    rw [e]
    simp only [regmap_after, reg_writes_append, List.foldl_append, w, List.range_succ,
      List.range_zero, List.nil_append, List.map_cons, List.map_nil, List.cons_append,
      Nat.add_zero, (hmax_after_10bit_mode _).1, (hmax_after_10bit_mode _).2]
    decide
  · have hb : ¬ is_10bit priv.format.code := h10
    rw [if_neg h10, if_neg hb]
    by_cases h12 : priv.format.code = MEDIA_BUS_FMT_SRGGB12_1X12 ∨
        priv.format.code = MEDIA_BUS_FMT_Y12_1X12
    · rw [if_pos h12]
      intro _
      obtain ⟨evs, e, w⟩ := imx547_write_table_ok bus imx547_12bit_mode tr hok mode_12bit_has_end
      rw [e]
      simp only [regmap_after, reg_writes_append, List.foldl_append, w, List.range_succ,
        List.range_zero, List.nil_append, List.map_cons, List.map_nil, List.cons_append,
        Nat.add_zero, (hmax_after_12bit_mode _).1, (hmax_after_12bit_mode _).2]
      decide
    · rw [if_neg h12]
      intro h
      simp [EINVAL] at h

/-- The two bytes written for a control value within 0 .. 65535. -/
theorem le_bytes_two_of_int (v : Int) (h0 : 0 ≤ v) (h1 : v < 2 ^ 16) :
    le_bytes (u32 v % 2 ^ 32) 2 = [v.toNat % 256, v.toNat / 256] := by
  obtain ⟨n, rfl⟩ := Int.eq_ofNat_of_zero_le h0
  have hn : n < 2 ^ 16 := by exact_mod_cast h1
  have hu : u32 (n : Int) = n := by
    unfold u32
    rw [Int.emod_eq_of_lt h0 (by omega), Int.toNat_natCast]
  rw [hu, Nat.mod_eq_of_lt (by omega)]
  simp only [le_bytes, Int.toNat_natCast]
  have h2 : n / 256 % 256 = n / 256 := Nat.mod_eq_of_lt (by omega)
  simp [List.range_succ, h2]

/-- The mutex is released on every path of imx547_s_frame_interval: the
branch at line 584 that returns with the mutex held is not reached, a frame
interval update that returns 0 having found a supported format. -/
theorem imx547_s_frame_interval_releases (bus : Bus) (imx547 : stimx547) (tr : List Event)
    (fi : v4l2_fract) :
    (imx547_s_frame_interval bus { imx547 with lock := false } tr fi).2.1.lock = false := by
  unfold imx547_s_frame_interval
  rw [if_neg (by simp)]
  generalize hp : ({ ({ imx547 with lock := false } : stimx547) with
    lock := true, frame_interval := fi } : stimx547) = p
  have hk := imx547_set_frame_interval_keeps bus p tr
  have hr := imx547_set_frame_interval_ret bus p tr
  generalize imx547_set_frame_interval bus p tr = r at hk hr
  unfold after_frame_interval
  by_cases h0 : r.1 = Outcome.ret 0
  · rw [if_pos h0]
    have hs : r.2.1.format.code = MEDIA_BUS_FMT_SRGGB10_1X10 ∨
        r.2.1.format.code = MEDIA_BUS_FMT_Y10_1X10 ∨
        r.2.1.format.code = MEDIA_BUS_FMT_SRGGB12_1X12 ∨
        r.2.1.format.code = MEDIA_BUS_FMT_Y12_1X12 := by
      rw [hk.2.1]
      exact (hr h0).1
    rw [if_pos hs]
    obtain ⟨v, hv, -⟩ := reapply_exposure_state bus
      (__v4l2_ctrl_modify_range bus r.2.1 r.2.2 IMX547_MIN_EXPOSURE_TIME
        (new_exposure_max r.2.1) 1 (new_exposure_max r.2.1))
    rw [hv]
  · rw [if_neg h0]

/-- The mutex is released on every path of imx547_s_stream. -/
theorem imx547_s_stream_releases (bus : Bus) (imx547 : stimx547) (tr : List Event)
    (enable : Int) :
    (imx547_s_stream bus { imx547 with lock := false } tr enable).2.1.lock = false := by
  unfold imx547_s_stream
  rw [if_neg (by simp)]
  lift_lets
  intro q r1 r2 r3 r4 r5 r6 r
  clear_value r r6 r5 r4 r3 r2 r1 q
  split_ifs <;> rfl

/-- The two checks of imx547_set_exposure on the SHS value (imx547.c, lines
777-780) bring any 32-bit value into [mn, fl - 1]. -/
theorem shs_checks_bounds (raw mn fl : Nat) (h1 : mn < fl) (h2 : fl ≤ 2 ^ 24) :
    mn ≤ (if raw < mn then mn
      else if raw > u64 ((fl : Int) - 1) then u32 (u64 ((fl : Int) - 1)) else raw) ∧
    (if raw < mn then mn
      else if raw > u64 ((fl : Int) - 1) then u32 (u64 ((fl : Int) - 1)) else raw) ≤ fl - 1 := by
  have e1 : u64 ((fl : Int) - 1) = fl - 1 := by
    unfold u64
    omega
  have e2 : u32 ((fl - 1 : Nat) : Int) = fl - 1 := by
    unfold u32
    omega
  rw [e1, e2]
  split_ifs <;> omega

/-- Three little-endian bytes hold a value below 2^24 without loss. -/
theorem le32_to_cpu_le_bytes_three (v : Nat) (h : v < 2 ^ 24) :
    le32_to_cpu (le_bytes v 3) = v := by
  simp [le_bytes, le32_to_cpu, List.range_succ]
  omega

/-- The interval imx547_set_frame_interval settles on has 32-bit fields when
the request has. -/
theorem settled_interval_fields (code : Nat) (fi : v4l2_fract) (hnum : fi.numerator < 2 ^ 32)
    (hden : fi.denominator < 2 ^ 32) :
    (settled_interval code fi).numerator < 2 ^ 32 ∧
      (settled_interval code fi).denominator < 2 ^ 32 := by
  unfold settled_interval max_rate_interval
  split_ifs <;> exact ⟨by first | exact hnum | norm_num, by first | exact hden | norm_num⟩

/-- A request with a zero settles on 1/60. -/
theorem settled_interval_of_zero (code : Nat) (fi : v4l2_fract)
    (hzero : fi.numerator = 0 ∨ fi.denominator = 0) :
    settled_interval code fi = { numerator := 1, denominator := 60 } := by
  unfold settled_interval
  rw [if_pos hzero]

/-- The interval 1/60 is within the limits of every format. -/
theorem settled_interval_of_default (code : Nat) :
    settled_interval code { numerator := 1, denominator := 60 }
      = { numerator := 1, denominator := 60 } := by
  unfold settled_interval max_rate
  split_ifs <;> simp_all

/-- The one access of imx547_set_exposure, for a supported format and a line
time that is not zero: the 3-byte write of written_shs to SHS. -/
theorem imx547_set_exposure_trace (bus : Bus) (priv : stimx547) (tr : List Event) (val : Int)
    (hfmt : supported_code priv.format.code) (hlt : priv.line_time ≠ 0) :
    (imx547_set_exposure bus priv tr val).2.2
      = tr ++ [Event.regmap_bulk_write SHS_LOW (le_bytes (written_shs priv val % 2 ^ 32) 3)] := by
  have hsup : priv.format.code = MEDIA_BUS_FMT_SRGGB10_1X10 ∨
      priv.format.code = MEDIA_BUS_FMT_Y10_1X10 ∨
      priv.format.code = MEDIA_BUS_FMT_SRGGB12_1X12 ∨
      priv.format.code = MEDIA_BUS_FMT_Y12_1X12 := hfmt
  unfold imx547_set_exposure
  lift_lets
  intro v1 itl shs0 mn shs r s1 s2
  have hr : r.2 = tr ++ [Event.regmap_bulk_write SHS_LOW
      (le_bytes (written_shs priv val % 2 ^ 32) 3)] := rfl
  clear_value r shs mn shs0 itl v1
  rw [if_neg hlt, if_pos hsup]
  split_ifs <;> exact hr

/-- The value the exposure setter goes on with is monotone in the input, for
a range 0 <= minimum <= maximum and inputs that are C ints. -/
theorem checked_exposure_mono (priv : stimx547) (v1 v2 : Int)
    (h0 : 0 ≤ priv.ctrls.exposure.minimum)
    (hmm : priv.ctrls.exposure.minimum ≤ priv.ctrls.exposure.maximum)
    (h12 : v1 ≤ v2) (hint : v2 < 2 ^ 31) :
    checked_exposure priv v1 = checked_exposure priv v2 ∨
      (0 ≤ checked_exposure priv v1 ∧ checked_exposure priv v1 ≤ checked_exposure priv v2 ∧
        checked_exposure priv v2 ≤ priv.ctrls.exposure.maximum) := by
  unfold checked_exposure s32
  split_ifs <;> omega

/-- The number of lines of a checked value that is not negative. -/
theorem lines_of_nat (n lt fl : Nat) (hfl : fl < 2 ^ 32) (h : n * 1000 / lt ≤ fl) :
    u32 (Int.tdiv ((n : Int) * IMX547_K_FACTOR) lt) = n * 1000 / lt := by
  have e : Int.tdiv ((n : Int) * IMX547_K_FACTOR) lt = ((n * 1000 / lt : Nat) : Int) := by
    rw [Int.tdiv_eq_ediv (by positivity) (by positivity)]
    unfold IMX547_K_FACTOR
    push_cast
    rfl
  rw [e]
  generalize n * 1000 / lt = k at h ⊢
  unfold u32
  omega

/-- The two checks on the SHS value keep the order of the line counts. -/
theorem shs_checks_antitone (fl mn k1 k2 : Nat) (hmn : mn < fl) (hfl : fl < 2 ^ 32)
    (h12 : k1 ≤ k2) (h2 : k2 ≤ fl) :
    (if u32 (u64 ((fl : Int) - k2)) < mn then mn
      else if u32 (u64 ((fl : Int) - k2)) > u64 ((fl : Int) - 1) then u32 (u64 ((fl : Int) - 1))
      else u32 (u64 ((fl : Int) - k2)))
    ≤ (if u32 (u64 ((fl : Int) - k1)) < mn then mn
      else if u32 (u64 ((fl : Int) - k1)) > u64 ((fl : Int) - 1) then u32 (u64 ((fl : Int) - 1))
      else u32 (u64 ((fl : Int) - k1))) := by
  have e1 : u32 (u64 ((fl : Int) - k1)) = fl - k1 := by
    unfold u32 u64
    omega
  have e2 : u32 (u64 ((fl : Int) - k2)) = fl - k2 := by
    unfold u32 u64
    omega
  have e3 : u64 ((fl : Int) - 1) = fl - 1 := by
    unfold u64
    omega
  have e4 : u32 ((fl - 1 : Nat) : Int) = fl - 1 := by
    unfold u32
    omega
  rw [e1, e2, e3, e4]
  split_ifs <;> omega

/-- The value handed to the SHS write does not grow with the input. -/
theorem written_shs_antitone (priv : stimx547) (v1 v2 : Int)
    (hlt : 0 < priv.line_time) (hmin : min_shs priv.format.code < priv.frame_length)
    (hfl : priv.frame_length < 2 ^ 32) (h0 : 0 ≤ priv.ctrls.exposure.minimum)
    (hmm : priv.ctrls.exposure.minimum ≤ priv.ctrls.exposure.maximum)
    (hmax : priv.ctrls.exposure.maximum * 1000 / priv.line_time ≤ priv.frame_length)
    (h12 : v1 ≤ v2) (hint : v2 < 2 ^ 31) :
    written_shs priv v2 ≤ written_shs priv v1 := by
  rcases checked_exposure_mono priv v1 v2 h0 hmm h12 hint with he | ⟨hc0, hc12, hcm⟩
  · unfold written_shs
    rw [he]
  · unfold written_shs
    generalize checked_exposure priv v1 = c1 at hc0 hc12
    generalize checked_exposure priv v2 = c2 at hc12 hcm
    obtain ⟨n1, rfl⟩ := Int.eq_ofNat_of_zero_le hc0
    obtain ⟨n2, rfl⟩ := Int.eq_ofNat_of_zero_le (le_trans hc0 hc12)
    have hn12 : n1 ≤ n2 := by exact_mod_cast hc12
    have hltz : (0 : Int) < priv.line_time := by exact_mod_cast hlt
    have hk2 : n2 * 1000 / priv.line_time ≤ priv.frame_length := by
      have h1 : (n2 : Int) * 1000 / priv.line_time
          ≤ priv.ctrls.exposure.maximum * 1000 / priv.line_time :=
        Int.ediv_le_ediv hltz (by omega)
      have h2 : ((n2 * 1000 / priv.line_time : Nat) : Int) ≤ priv.frame_length := by
        push_cast
        exact le_trans h1 hmax
      exact_mod_cast h2
    have hk12 : n1 * 1000 / priv.line_time ≤ n2 * 1000 / priv.line_time :=
      Nat.div_le_div_right (by omega)
    have hmn : (if priv.format.code = MEDIA_BUS_FMT_SRGGB10_1X10 ∨
        priv.format.code = MEDIA_BUS_FMT_Y10_1X10 then IMX547_MIN_SHS_LENGTH_10BIT
      else IMX547_MIN_SHS_LENGTH_12BIT) = min_shs priv.format.code := by
      simp only [min_shs, is_10bit, IMX547_MIN_SHS_LENGTH_10BIT, IMX547_MIN_SHS_LENGTH_12BIT]
    dsimp only
    rw [hmn, lines_of_nat n1 _ _ hfl (le_trans hk12 hk2), lines_of_nat n2 _ _ hfl hk2]
    exact shs_checks_antitone _ _ _ _ hmin hfl hk12 hk2

/-- The value handed to the SHS write is at most frame_length - 1. -/
theorem written_shs_le (priv : stimx547) (v : Int)
    (hmin : min_shs priv.format.code < priv.frame_length) (hfl : priv.frame_length < 2 ^ 32) :
    written_shs priv v ≤ priv.frame_length - 1 := by
  unfold written_shs
  have hmn : (if priv.format.code = MEDIA_BUS_FMT_SRGGB10_1X10 ∨
      priv.format.code = MEDIA_BUS_FMT_Y10_1X10 then IMX547_MIN_SHS_LENGTH_10BIT
    else IMX547_MIN_SHS_LENGTH_12BIT) = min_shs priv.format.code := by
    simp only [min_shs, is_10bit, IMX547_MIN_SHS_LENGTH_10BIT, IMX547_MIN_SHS_LENGTH_12BIT]
  dsimp only
  rw [hmn]
  generalize u32 (u64 ((priv.frame_length : Int) -
    u32 (Int.tdiv (checked_exposure priv v * IMX547_K_FACTOR) priv.line_time))) = raw
  have e3 : u64 ((priv.frame_length : Int) - 1) = priv.frame_length - 1 := by
    unfold u64
    omega
  have e4 : u32 ((priv.frame_length - 1 : Nat) : Int) = priv.frame_length - 1 := by
    unfold u32
    omega
  rw [e3, e4]
  split_ifs <;> omega

/-- The two checks on the SHS value, for a line count within one line of
frame_length - mn: the result is mn or mn + 1. -/
theorem shs_checks_near (fl mn k : Nat) (hmn : mn < fl) (hfl : fl < 2 ^ 32)
    (hk1 : fl - mn - 1 ≤ k) (hk2 : k ≤ fl) :
    (if u32 (u64 ((fl : Int) - k)) < mn then mn
      else if u32 (u64 ((fl : Int) - k)) > u64 ((fl : Int) - 1) then u32 (u64 ((fl : Int) - 1))
      else u32 (u64 ((fl : Int) - k))) = mn ∨
    (if u32 (u64 ((fl : Int) - k)) < mn then mn
      else if u32 (u64 ((fl : Int) - k)) > u64 ((fl : Int) - 1) then u32 (u64 ((fl : Int) - 1))
      else u32 (u64 ((fl : Int) - k))) = mn + 1 := by
  have e1 : u32 (u64 ((fl : Int) - k)) = fl - k := by
    unfold u32 u64
    omega
  have e3 : u64 ((fl : Int) - 1) = fl - 1 := by
    unfold u64
    omega
  have e4 : u32 ((fl - 1 : Nat) : Int) = fl - 1 := by
    unfold u32
    omega
  rw [e1, e3, e4]
  split_ifs <;> omega

/-- The number of lines of the longest exposure of the range is within one
line of d, for a line time of at least 1000 ns: both for the maximum
floor(d * lt / 1000) itself and for the minimum 14 that replaces a maximum
below it. -/
theorem lines_of_maximum (d lt : Nat) (hd : 1 ≤ d) (hlt : 1000 ≤ lt) :
    d - 1 ≤ (if d * lt / 1000 < 14 then 14 else d * lt / 1000) * 1000 / lt ∧
    (if d * lt / 1000 < 14 then 14 else d * lt / 1000) * 1000 / lt ≤ max d 14 := by
  have hpos : 0 < lt := by omega
  by_cases h : d * lt / 1000 < 14
  · rw [if_pos h]
    have h1 : d * lt < 14 * 1000 := (Nat.div_lt_iff_lt_mul (by norm_num)).mp h
    have h2 : d ≤ 14 * 1000 / lt := (Nat.le_div_iff_mul_le hpos).mpr (by omega)
    have h3 : 14 * 1000 / lt ≤ 14 := Nat.div_le_of_le_mul (by omega)
    omega
  · rw [if_neg h]
    have h1 : d * lt / 1000 * 1000 ≤ d * lt := Nat.div_mul_le_self _ _
    have h2 : d * lt < 1000 * (d * lt / 1000 + 1) := Nat.lt_mul_div_succ _ (by norm_num)
    obtain ⟨e, rfl⟩ : ∃ e, d = e + 1 := ⟨d - 1, by omega⟩
    have h3 : (e + 1) * lt = e * lt + lt := by ring
    have h6 : lt * (e + 1) = e * lt + lt := by ring
    rw [h3] at h h1 h2 ⊢
    generalize (e * lt + lt) / 1000 = M at h h1 h2 ⊢
    have h4 : e ≤ M * 1000 / lt := (Nat.le_div_iff_mul_le hpos).mpr (by omega)
    have h5 : M * 1000 / lt ≤ e + 1 := Nat.div_le_of_le_mul (by omega)
    omega

/-- The maximum the specification states for the exposure control, as a
natural number. -/
theorem stated_exposure_max_nat (priv : stimx547)
    (hmin : min_shs priv.format.code < priv.frame_length) :
    stated_exposure_max priv
      = (((priv.frame_length - min_shs priv.format.code) * priv.line_time / 1000 : Nat) : Int) := by
  unfold stated_exposure_max
  push_cast [Nat.cast_sub (le_of_lt hmin)]
  rfl

/-- With the range the frame interval update sets, the longest exposure is
written as min_shs or min_shs + 1. -/
theorem written_shs_at_maximum (priv : stimx547) (hlt : 1000 ≤ priv.line_time)
    (hmin : min_shs priv.format.code < priv.frame_length) (hfl : priv.frame_length < 2 ^ 24)
    (hmn : priv.ctrls.exposure.minimum = 14)
    (hmx : priv.ctrls.exposure.maximum = stated_exposure_max priv) :
    written_shs priv priv.ctrls.exposure.maximum = min_shs priv.format.code ∨
      written_shs priv priv.ctrls.exposure.maximum = min_shs priv.format.code + 1 := by
  have hm14 : 14 ≤ min_shs priv.format.code := by
    unfold min_shs
    split_ifs <;> norm_num
  have hc : checked_exposure priv priv.ctrls.exposure.maximum
      = (((if (priv.frame_length - min_shs priv.format.code) * priv.line_time / 1000 < 14 then 14
          else (priv.frame_length - min_shs priv.format.code) * priv.line_time / 1000) : Nat)
          : Int) := by
    unfold checked_exposure
    rw [if_neg (lt_irrefl _), hmn, hmx, stated_exposure_max_nat priv hmin]
    generalize (priv.frame_length - min_shs priv.format.code) * priv.line_time / 1000 = M
    by_cases h : M < 14
    · rw [if_pos (by exact_mod_cast h), if_pos h]
      rfl
    · rw [if_neg (by exact_mod_cast h), if_neg h]
  obtain ⟨hk1, hk2⟩ := lines_of_maximum (priv.frame_length - min_shs priv.format.code)
    priv.line_time (by omega) hlt
  have hmn2 : (if priv.format.code = MEDIA_BUS_FMT_SRGGB10_1X10 ∨
      priv.format.code = MEDIA_BUS_FMT_Y10_1X10 then IMX547_MIN_SHS_LENGTH_10BIT
    else IMX547_MIN_SHS_LENGTH_12BIT) = min_shs priv.format.code := by
    simp only [min_shs, is_10bit, IMX547_MIN_SHS_LENGTH_10BIT, IMX547_MIN_SHS_LENGTH_12BIT]
  unfold written_shs
  dsimp only
  rw [hmn2, hc]
  generalize (if (priv.frame_length - min_shs priv.format.code) * priv.line_time / 1000 < 14
    then 14 else (priv.frame_length - min_shs priv.format.code) * priv.line_time / 1000) = n
    at hk1 hk2 ⊢
  have hkfl : n * 1000 / priv.line_time ≤ priv.frame_length := by omega
  rw [lines_of_nat n _ _ (by omega) hkfl]
  exact shs_checks_near _ _ _ hmin (by omega) hk1 hkfl

/-- The loop of the table writer only adds to the trace. -/
theorem write_table_loop_extends (bus : Bus) (table : List reg_8) (range_start : Int)
    (range_count : Nat) (range_vals : List Nat) (tr : List Event) :
    ∃ post, (write_table_loop bus table range_start range_count range_vals tr).2 = tr ++ post := by
  obtain ⟨evs, h, -⟩ := write_table_loop_stops bus table range_start range_count range_vals tr
  exact ⟨evs, h⟩

/-- During imx547_s_stream(on), a failing bus access other than
the two writes of the start sequence (that is: any table write, the HMAX
read, the VMAX write or the SHS write) makes s_stream return the non-zero
error code of that access, and nothing is issued after it; the start sequence
itself issues its two writes, STANDBY = 0 and XMSTA = 0 around the reset
pulse, whatever the bus answers. -/
theorem imx547_s_stream_aborts_before_start (bus : Bus) (imx547 : stimx547) (tr : List Event)
    (enable : Int) (hon : enable ≠ 0) :
    (∀ (pre post : List Event) (ev : Event),
      (imx547_s_stream bus imx547 tr enable).2.2 = tr ++ pre ++ ev :: post →
      is_access ev = true → bus.err (tr ++ pre) ev ≠ 0 →
      ev ≠ Event.regmap_write STANDBY 0x00 → ev ≠ Event.regmap_write XMSTA 0x00 →
      (imx547_s_stream bus imx547 tr enable).1 = Outcome.ret (bus.err (tr ++ pre) ev) ∧
        post = []) ∧
    (imx547_start_stream bus tr).2
      = tr ++ [Event.regmap_write STANDBY 0x00, Event.usleep_range 1138000 1140000,
          Event.gpiod_set_value 1, Event.usleep_range 20000 21000, Event.gpiod_set_value 0,
          Event.regmap_write XMSTA 0x00] := by
  constructor
  · intro pre post ev htrace hacc hfail hstandby hxmsta
    obtain ⟨evs, h1, _, h3⟩ := imx547_s_stream_stops bus imx547 tr enable hon
    simp only at h1 h3
    rw [h1, List.append_assoc] at htrace
    have heq : evs = pre ++ ev :: post := List.append_cancel_left htrace
    have hP : before_start_sequence ev = true := by
      simp [before_start_sequence, hacc, hstandby, hxmsta]
    have := h3 pre ev post heq hP hfail
    exact ⟨this.2, this.1⟩
  · simp [imx547_start_stream, imx547_write_reg]

/-- The exposure range after the frame interval update: for every state (with
the mutex free), after an
imx547_s_frame_interval that returns 0 and whose newly stored frame_length is
at least min_shs (54 for 10-bit, 40 for 12-bit), with
M = floor((frame_length - min_shs) * line_time / 1000) computed from the newly
stored frame_length: if M is at least 14, the exposure control range is
minimum = 14, maximum = M and default = M; if M is below 14, the exposure
control is as it was before the call. -/
theorem exposure_range_after_frame_interval (bus : Bus) (imx547 : stimx547)
    (tr : List Event) (fi : v4l2_fract) (hlock : imx547.lock = false)
    (hlt32 : imx547.line_time < 2 ^ 32) (hden : fi.denominator < 2 ^ 32)
    (hret : (imx547_s_frame_interval bus imx547 tr fi).1 = Outcome.ret 0)
    (hfl : min_shs imx547.format.code
      ≤ (imx547_s_frame_interval bus imx547 tr fi).2.1.frame_length) :
    (14 ≤ stated_exposure_max (imx547_s_frame_interval bus imx547 tr fi).2.1 →
      (imx547_s_frame_interval bus imx547 tr fi).2.1.ctrls.exposure.minimum = 14 ∧
      (imx547_s_frame_interval bus imx547 tr fi).2.1.ctrls.exposure.maximum
        = stated_exposure_max (imx547_s_frame_interval bus imx547 tr fi).2.1 ∧
      (imx547_s_frame_interval bus imx547 tr fi).2.1.ctrls.exposure.default_value
        = stated_exposure_max (imx547_s_frame_interval bus imx547 tr fi).2.1) ∧
    (stated_exposure_max (imx547_s_frame_interval bus imx547 tr fi).2.1 < 14 →
      (imx547_s_frame_interval bus imx547 tr fi).2.1.ctrls.exposure
        = imx547.ctrls.exposure) := by
  obtain ⟨-, -, -, h1, h2⟩ :=
    imx547_s_frame_interval_exposure bus imx547 tr fi _ hlock hlt32 hden hret rfl hfl
  refine ⟨fun h14 => ?_, fun hlt14 => ?_⟩
  · obtain ⟨v, hv, -⟩ := h1 h14
    rw [hv]
    exact ⟨rfl, rfl, rfl⟩
  · rw [h2 hlt14]

/-- The value clamp(x, lo, hi) lies in [lo, hi]. -/
theorem clamp_within (x lo hi : Int) (h : lo ≤ hi) : lo ≤ clamp x lo hi ∧ clamp x lo hi ≤ hi := by
  unfold clamp
  split_ifs <;> omega

/-- The gain setter with a value c within 0 .. 65535: one 2-byte write of c to
GAIN, low byte first; the result is the answer of the bus, and the value is
cached when it is 0. -/
theorem imx547_set_gain_eq (bus : Bus) (priv : stimx547) (tr : List Event) (c : Int)
    (h0 : 0 ≤ c) (h1 : c < 2 ^ 16) :
    (imx547_set_gain bus priv tr c).2.2
      = tr ++ [Event.regmap_bulk_write 0x3514 [c.toNat % 256, c.toNat / 256]] ∧
    (imx547_set_gain bus priv tr c).1
      = Outcome.ret (bus.err tr
          (Event.regmap_bulk_write 0x3514 [c.toNat % 256, c.toNat / 256])) ∧
    ((imx547_set_gain bus priv tr c).1 = Outcome.ret 0 →
      (imx547_set_gain bus priv tr c).2.1
        = { priv with ctrls := { priv.ctrls with
              gain := { priv.ctrls.gain with val := c } } }) ∧
    ((imx547_set_gain bus priv tr c).1 ≠ Outcome.ret 0 →
      (imx547_set_gain bus priv tr c).2.1 = priv) := by
  have hb := le_bytes_two_of_int c h0 h1
  unfold imx547_set_gain imx547_write_mbreg
  simp only [hb, GAIN_LOW]
  by_cases he : bus.err tr
      (Event.regmap_bulk_write 0x3514 [c.toNat % 256, c.toNat / 256]) = 0
  · simp [he]
  · simp [he]

/-- The black-level setter with a value c within 0 .. 65535: one 2-byte write
of c to BLKLEVEL, low byte first; the result is the answer of the bus, and the
value is cached when it is 0. -/
theorem imx547_set_black_level_eq (bus : Bus) (priv : stimx547) (tr : List Event) (c : Int)
    (h0 : 0 ≤ c) (h1 : c < 2 ^ 16) :
    (imx547_set_black_level bus priv tr c).2.2
      = tr ++ [Event.regmap_bulk_write 0x35B4 [c.toNat % 256, c.toNat / 256]] ∧
    (imx547_set_black_level bus priv tr c).1
      = Outcome.ret (bus.err tr
          (Event.regmap_bulk_write 0x35B4 [c.toNat % 256, c.toNat / 256])) ∧
    ((imx547_set_black_level bus priv tr c).1 = Outcome.ret 0 →
      (imx547_set_black_level bus priv tr c).2.1
        = { priv with ctrls := { priv.ctrls with
              black_level := { priv.ctrls.black_level with val := c } } }) ∧
    ((imx547_set_black_level bus priv tr c).1 ≠ Outcome.ret 0 →
      (imx547_set_black_level bus priv tr c).2.1 = priv) := by
  have hb := le_bytes_two_of_int c h0 h1
  unfold imx547_set_black_level imx547_write_mbreg
  simp only [hb, BLKLEVEL_LOW]
  by_cases he : bus.err tr
      (Event.regmap_bulk_write 0x35B4 [c.toNat % 256, c.toNat / 256]) = 0
  · simp [he]
  · simp [he]

/-- The control set of the framework for the gain and the black level is the
setter of the driver on the clamped value. -/
theorem v4l2_s_ctrl_gain_black_level (bus : Bus) (priv : stimx547) (tr : List Event) (v : Int) :
    v4l2_s_ctrl bus priv tr V4L2_CID_GAIN v
      = imx547_set_gain bus priv tr (clamp v priv.ctrls.gain.minimum priv.ctrls.gain.maximum) ∧
    v4l2_s_ctrl bus priv tr V4L2_CID_BLACK_LEVEL v
      = imx547_set_black_level bus priv tr
          (clamp v priv.ctrls.black_level.minimum priv.ctrls.black_level.maximum) := by
  have h1 : V4L2_CID_GAIN ≠ V4L2_CID_EXPOSURE := by decide
  have h2 : V4L2_CID_BLACK_LEVEL ≠ V4L2_CID_EXPOSURE := by decide
  have h3 : V4L2_CID_BLACK_LEVEL ≠ V4L2_CID_GAIN := by decide
  have h4 : V4L2_CID_BLACK_LEVEL ≠ V4L2_CID_TEST_PATTERN := by decide
  constructor
  · unfold v4l2_s_ctrl imx547_s_ctrl
    rw [if_neg h1, if_pos rfl, if_neg h1, if_pos rfl]
  · unfold v4l2_s_ctrl imx547_s_ctrl
    rw [if_neg h2, if_neg h3, if_neg h4, if_pos rfl, if_neg h2, if_neg h3, if_neg h4, if_pos rfl]

/-! ## The claims -/

/-- C1 (the code departs from the claim): in the state after attach and
set_fmt(12-bit), where line_time = 5500, frame_length = 2208 and the exposure
range is [14, 16666], imx547_set_exposure(16666) succeeds, caches 16666 and
writes SHS = 2207 = frame_length - 1, the shortest exposure, whereas the
claimed value clamp(frame_length - floor(v' * 1000 / line_time), min_shs,
frame_length - 1) taken over the integers is 40: the unsigned difference
2208 - 3030 wraps instead of going below min_shs. -/
theorem C1_long_exposure_wraps_to_shortest :
    (attached MEDIA_BUS_FMT_SRGGB12_1X12).line_time = 5500 ∧
    (attached MEDIA_BUS_FMT_SRGGB12_1X12).frame_length = 2208 ∧
    (attached MEDIA_BUS_FMT_SRGGB12_1X12).ctrls.exposure.minimum = 14 ∧
    (attached MEDIA_BUS_FMT_SRGGB12_1X12).ctrls.exposure.maximum = 16666 ∧
    (imx547_set_exposure quiet_bus (attached MEDIA_BUS_FMT_SRGGB12_1X12) [] 16666).1
      = Outcome.ret 0 ∧
    (imx547_set_exposure quiet_bus (attached MEDIA_BUS_FMT_SRGGB12_1X12) []
      16666).2.1.ctrls.exposure.val = 16666 ∧
    (imx547_set_exposure quiet_bus (attached MEDIA_BUS_FMT_SRGGB12_1X12) [] 16666).2.2
      = [Event.regmap_bulk_write SHS_LOW (le_bytes 2207 3)] ∧
    stated_shs (attached MEDIA_BUS_FMT_SRGGB12_1X12) 16666 = 40 := by
  decide

/-- C2: for a supported format and a line time that is not zero, a
frame-interval request with non-zero numerator and denominator makes
imx547_s_frame_interval return, and when its rate floor(10^6 * den / num) is
outside [2 * 10^6, max_rate(format)] the interval imx547_g_frame_interval
reports afterwards is the boundary of the format: 5/611 (10-bit) or 5/412
(12-bit) above the maximum, 1/2 below the minimum. -/
theorem C2_out_of_range_interval_becomes_boundary (bus : Bus) (imx547 : stimx547)
    (tr : List Event) (fi : v4l2_fract) (hlock : imx547.lock = false)
    (hfmt : supported_code imx547.format.code) (hlt : 0 < imx547.line_time)
    (hlt32 : imx547.line_time < 2 ^ 32) (hnum : fi.numerator ≠ 0) (hdenz : fi.denominator ≠ 0)
    (hden : fi.denominator < 2 ^ 32) :
    (∃ code, (imx547_s_frame_interval bus imx547 tr fi).1 = Outcome.ret code) ∧
    (max_rate imx547.format.code < 10 ^ 6 * fi.denominator / fi.numerator →
      (is_10bit imx547.format.code →
        imx547_g_frame_interval (imx547_s_frame_interval bus imx547 tr fi).2.1
          = (Outcome.ret 0, { numerator := 5, denominator := 611 })) ∧
      (¬ is_10bit imx547.format.code →
        imx547_g_frame_interval (imx547_s_frame_interval bus imx547 tr fi).2.1
          = (Outcome.ret 0, { numerator := 5, denominator := 412 }))) ∧
    (10 ^ 6 * fi.denominator / fi.numerator < 2 * 10 ^ 6 →
      imx547_g_frame_interval (imx547_s_frame_interval bus imx547 tr fi).2.1
        = (Outcome.ret 0, { numerator := 1, denominator := 2 })) := by
  obtain ⟨code, c, h1, h2⟩ :=
    imx547_s_frame_interval_frame bus imx547 tr fi hlock hfmt hlt hlt32 hden
  have hz : ¬ (fi.numerator = 0 ∨ fi.denominator = 0) := by
    intro h; rcases h with h | h
    · exact hnum h
    · exact hdenz h
  refine ⟨⟨code, h1⟩, ?_, ?_⟩
  · intro hgt
    have hgt' : 1000000 * fi.denominator / fi.numerator > max_rate imx547.format.code := hgt
    have hs : settled_interval imx547.format.code fi = max_rate_interval imx547.format.code := by
      unfold settled_interval
      rw [if_neg hz, if_pos hgt']
    constructor
    · intro h10
      rw [imx547_g_frame_interval, h2, hs, max_rate_interval, if_pos h10]
    · intro h10
      rw [imx547_g_frame_interval, h2, hs, max_rate_interval, if_neg h10]
  · intro hlow
    have hlow' : 1000000 * fi.denominator / fi.numerator < 2000000 := hlow
    have hngt : ¬ (1000000 * fi.denominator / fi.numerator > max_rate imx547.format.code) := by
      unfold max_rate; split_ifs <;> omega
    have hs : settled_interval imx547.format.code fi = { numerator := 1, denominator := 2 } := by
      unfold settled_interval
      rw [if_neg hz, if_neg hngt, if_pos hlow']
    rw [imx547_g_frame_interval, h2, hs]

/-- C2, witness: in 10-bit, a request of 1/200 yields 5/611 and a request of
1/1 yields 1/2. -/
theorem C2_witness :
    imx547_g_frame_interval (imx547_s_frame_interval quiet_bus
        (attached MEDIA_BUS_FMT_SRGGB10_1X10) [] { numerator := 1, denominator := 200 }).2.1
      = (Outcome.ret 0, { numerator := 5, denominator := 611 }) ∧
    imx547_g_frame_interval (imx547_s_frame_interval quiet_bus
        (attached MEDIA_BUS_FMT_SRGGB10_1X10) [] { numerator := 1, denominator := 1 }).2.1
      = (Outcome.ret 0, { numerator := 1, denominator := 2 }) :=
  ⟨((C2_out_of_range_interval_becomes_boundary quiet_bus
      (attached MEDIA_BUS_FMT_SRGGB10_1X10) [] { numerator := 1, denominator := 200 }
      (by decide) (by decide) (by decide) (by decide) (by decide) (by decide)
      (by decide)).2.1 (by decide)).1 (by decide),
   (C2_out_of_range_interval_becomes_boundary quiet_bus
      (attached MEDIA_BUS_FMT_SRGGB10_1X10) [] { numerator := 1, denominator := 1 }
      (by decide) (by decide) (by decide) (by decide) (by decide) (by decide)
      (by decide)).2.2 (by decide)⟩

/-- C3, counterexample: in 12-bit with line_time = 5500 and the interval 1/60
the stored frame length is 3030, while floor(10^9 * 10^9 / (frame_rate_micro *
line_time)) is 3030303. -/
theorem C3_counterexample :
    (imx547_set_frame_interval quiet_bus (attached MEDIA_BUS_FMT_SRGGB12_1X12)
        []).2.1.frame_interval = { numerator := 1, denominator := 60 } ∧
    (attached MEDIA_BUS_FMT_SRGGB12_1X12).line_time = 5500 ∧
    (imx547_set_frame_interval quiet_bus (attached MEDIA_BUS_FMT_SRGGB12_1X12)
        []).2.1.frame_length = 3030 ∧
    (imx547_set_frame_interval quiet_bus (attached MEDIA_BUS_FMT_SRGGB12_1X12)
        []).2.1.frame_length
      ≠ 10 ^ 9 * 10 ^ 9 / (10 ^ 6 * 60 / 1 * 5500) := by
  decide

/-- C3 (amended): for a supported format and a line time that is not zero,
imx547_set_frame_interval returns and the frame length it stores is
floor(10^6 * 10^9 / (frame_rate_micro * line_time)), frame_rate_micro being
floor(10^6 * den / num) of the interval it stores and line_time being in
nanoseconds. -/
theorem C3_frame_length_from_rate (bus : Bus) (priv : stimx547) (tr : List Event)
    (hfmt : supported_code priv.format.code) (hlt : 0 < priv.line_time)
    (hlt32 : priv.line_time < 2 ^ 32) (hden : priv.frame_interval.denominator < 2 ^ 32) :
    (∃ code, (imx547_set_frame_interval bus priv tr).1 = Outcome.ret code) ∧
    (imx547_set_frame_interval bus priv tr).2.1.frame_length
      = 10 ^ 6 * 10 ^ 9 /
          (10 ^ 6 * (imx547_set_frame_interval bus priv tr).2.1.frame_interval.denominator /
              (imx547_set_frame_interval bus priv tr).2.1.frame_interval.numerator *
            priv.line_time) := by
  rw [imx547_set_frame_interval_eq bus priv tr hfmt hlt hlt32 hden]
  exact ⟨⟨_, rfl⟩, rfl⟩

/-- C3, witness: the state after attach and set_fmt(12-bit). -/
theorem C3_witness :
    (∃ code, (imx547_set_frame_interval quiet_bus (attached MEDIA_BUS_FMT_SRGGB12_1X12)
      []).1 = Outcome.ret code) ∧
    (imx547_set_frame_interval quiet_bus (attached MEDIA_BUS_FMT_SRGGB12_1X12)
        []).2.1.frame_length
      = 10 ^ 6 * 10 ^ 9 /
          (10 ^ 6 * (imx547_set_frame_interval quiet_bus
              (attached MEDIA_BUS_FMT_SRGGB12_1X12) []).2.1.frame_interval.denominator /
            (imx547_set_frame_interval quiet_bus
              (attached MEDIA_BUS_FMT_SRGGB12_1X12) []).2.1.frame_interval.numerator *
            (attached MEDIA_BUS_FMT_SRGGB12_1X12).line_time) :=
  C3_frame_length_from_rate quiet_bus (attached MEDIA_BUS_FMT_SRGGB12_1X12) []
    (by decide) (by decide) (by decide) (by decide)

/-- C4: on a bus whose writes all succeed, for a table that contains an END
entry, imx547_write_table returns 0 and its register writes, each bulk write
counted as single-byte writes at consecutive addresses, are exactly the
non-WAIT entries before the first END entry, in table order; nothing after the
first END is written. -/
theorem C4_write_table_writes_entries (bus : Bus) (table : List reg_8) (tr : List Event)
    (hok : ∀ h e, is_write e = true → bus.err h e = 0)
    (hend : ∃ e ∈ table, e.addr = IMX547_TABLE_END) :
    (imx547_write_table bus table tr).1 = Outcome.ret 0 ∧
    ∃ evs, (imx547_write_table bus table tr).2 = tr ++ evs ∧
      reg_writes evs = table_writes table := by
  obtain ⟨evs, h1, h2⟩ := imx547_write_table_ok bus table tr hok hend
  rw [h1]
  exact ⟨rfl, evs, rfl, h2⟩

/-- C4, witness: a table with a run, a WAIT, a single entry, END and one more
entry after END. -/
theorem C4_witness :
    (∀ h e, is_write e = true → quiet_bus.err h e = 0) ∧
    (∃ e ∈ [reg_8.mk 0x10 1, reg_8.mk 0x11 2, reg_8.mk 0x12 3, reg_8.mk IMX547_TABLE_WAIT_MS 5,
        reg_8.mk 0x20 9, reg_8.mk IMX547_TABLE_END 0, reg_8.mk 0x30 7],
      e.addr = IMX547_TABLE_END) ∧
    (imx547_write_table quiet_bus
      [reg_8.mk 0x10 1, reg_8.mk 0x11 2, reg_8.mk 0x12 3, reg_8.mk IMX547_TABLE_WAIT_MS 5,
        reg_8.mk 0x20 9, reg_8.mk IMX547_TABLE_END 0, reg_8.mk 0x30 7] []).1 = Outcome.ret 0 ∧
    ∃ evs, (imx547_write_table quiet_bus
      [reg_8.mk 0x10 1, reg_8.mk 0x11 2, reg_8.mk 0x12 3, reg_8.mk IMX547_TABLE_WAIT_MS 5,
        reg_8.mk 0x20 9, reg_8.mk IMX547_TABLE_END 0, reg_8.mk 0x30 7] []).2 = [] ++ evs ∧
      reg_writes evs = table_writes
        [reg_8.mk 0x10 1, reg_8.mk 0x11 2, reg_8.mk 0x12 3, reg_8.mk IMX547_TABLE_WAIT_MS 5,
          reg_8.mk 0x20 9, reg_8.mk IMX547_TABLE_END 0, reg_8.mk 0x30 7] :=
  ⟨fun _ _ _ => rfl, by decide,
    C4_write_table_writes_entries quiet_bus _ [] (fun _ _ _ => rfl) (by decide)⟩

/-- C5, counterexample: with a = 0 and k = 2 the two entries of the run are a
WAIT entry and an END entry, and the table writer only sleeps. -/
theorem C5_counterexample :
    (imx547_write_table quiet_bus
      (run_entries 0 [7, 8] ++ [reg_8.mk IMX547_TABLE_WAIT_MS 5, reg_8.mk 0x20 9,
        reg_8.mk IMX547_TABLE_END 0]) []).2 = [Event.usleep_range 7000 7500] ∧
    (imx547_write_table quiet_bus
      (run_entries 0 [7, 8] ++ [reg_8.mk IMX547_TABLE_WAIT_MS 5, reg_8.mk 0x20 9,
        reg_8.mk IMX547_TABLE_END 0]) []).2
      ≠ [Event.regmap_bulk_write 0 [7, 8], Event.usleep_range 5000 5500,
          Event.regmap_write 0x20 9] := by
  decide

/-- C5 (amended): a table made of k entries at the consecutive addresses
a, ..., a + k - 1 with a >= 2 and 2 <= k <= 16, then WAIT(d), then one entry at
a non-sentinel address b, then END, makes imx547_write_table (on a bus that
accepts its writes) return 0 after exactly three actions in this order: one
bulk write of the k values at a, one sleep requested for [1000 d, 1000 d + 500]
microseconds, one single-register write at b. -/
theorem C5_bulk_then_sleep_then_single (bus : Bus) (a b d v x : Nat) (vs : List Nat)
    (tr : List Event) (hok : ∀ h e, is_write e = true → bus.err h e = 0)
    (ha : 2 ≤ a) (hk2 : 2 ≤ vs.length) (hk16 : vs.length ≤ 16)
    (hb0 : b ≠ IMX547_TABLE_WAIT_MS) (hb1 : b ≠ IMX547_TABLE_END) (hd : d < 256) :
    imx547_write_table bus
        (run_entries a vs ++ [reg_8.mk IMX547_TABLE_WAIT_MS d, reg_8.mk b v,
          reg_8.mk IMX547_TABLE_END x]) tr
      = (Outcome.ret 0, tr ++ [Event.regmap_bulk_write a vs,
          Event.usleep_range (1000 * d) (1000 * d + 500), Event.regmap_write b v]) := by
  obtain ⟨vals2, hl2, hrun⟩ := write_table_loop_run bus hok (reg_8.mk IMX547_TABLE_WAIT_MS d)
    [reg_8.mk b v, reg_8.mk IMX547_TABLE_END x] vs.length vs a (-1) 0 (List.replicate 16 0) tr
    rfl ha (by simp) (fun _ => Or.inl (by omega))
    (fun h => by rw [h] at hk2; simp at hk2) (Or.inr (Or.inr rfl))
  unfold imx547_write_table
  rw [hrun, run_emission_one_bulk a vs hk2 hk16]
  have hwait : (reg_8.mk IMX547_TABLE_WAIT_MS d).addr = IMX547_TABLE_WAIT_MS := rfl
  have hnend : ¬ ((reg_8.mk IMX547_TABLE_WAIT_MS d).addr = IMX547_TABLE_END) := by
    show ¬ (IMX547_TABLE_WAIT_MS = IMX547_TABLE_END)
    decide
  have c1 : ((reg_8.mk IMX547_TABLE_WAIT_MS d).addr : Int) ≠ -1 + ((0 : Nat) : Int) ∨
      (reg_8.mk IMX547_TABLE_WAIT_MS d).addr = IMX547_TABLE_END ∨
      (reg_8.mk IMX547_TABLE_WAIT_MS d).addr = IMX547_TABLE_WAIT_MS ∨ (0 : Nat) = 16 :=
    Or.inr (Or.inr (Or.inl rfl))
  have c2 : ((reg_8.mk b v).addr : Int) ≠ -1 + ((0 : Nat) : Int) ∨
      (reg_8.mk b v).addr = IMX547_TABLE_END ∨
      (reg_8.mk b v).addr = IMX547_TABLE_WAIT_MS ∨ (0 : Nat) = 16 := Or.inl (by omega)
  have c3 : ((reg_8.mk IMX547_TABLE_END x).addr : Int) ≠ ((b : Nat) : Int) + ((1 : Nat) : Int) ∨
      (reg_8.mk IMX547_TABLE_END x).addr = IMX547_TABLE_END ∨
      (reg_8.mk IMX547_TABLE_END x).addr = IMX547_TABLE_WAIT_MS ∨ (1 : Nat) = 16 :=
    Or.inr (Or.inl rfl)
  have hv : (vals2.set 0 v).getD 0 0 = v := by
    cases vals2 with
    | nil => simp at hl2
    | cons y ys => simp
  have hm1 : d * 1000 % 2 ^ 32 = 1000 * d := by omega
  have hm2 : (d * 1000 + 500) % 2 ^ 32 = 1000 * d + 500 := by omega
  rw [write_table_loop, if_pos c1, write_table_flush_eq bus hok]
  simp only [ne_eq, not_true_eq_false, if_false, if_neg hnend, if_pos hwait]
  rw [write_table_loop, if_pos c2, write_table_flush_eq bus hok]
  simp only [ne_eq, not_true_eq_false, if_false]
  rw [if_neg (show ¬ (b = IMX547_TABLE_END) from hb1),
    if_neg (show ¬ (b = IMX547_TABLE_WAIT_MS) from hb0)]
  rw [write_table_loop, if_pos c3, write_table_flush_eq bus hok]
  simp only [ne_eq, not_true_eq_false, if_false, if_true, flush_events, msleep_range, hv, hm1,
    hm2, Int.toNat_ofNat, List.append_assoc, List.nil_append, List.append_nil,
    List.singleton_append, gt_iff_lt, Nat.lt_irrefl, zero_ne_one,
    Nat.not_lt_zero, List.cons_append]

/-- C5, witness: the addresses 0x10, 0x11, 0x12, then WAIT(5), then 0x20. -/
theorem C5_witness :
    imx547_write_table quiet_bus
        (run_entries 0x10 [1, 2, 3] ++ [reg_8.mk IMX547_TABLE_WAIT_MS 5, reg_8.mk 0x20 9,
          reg_8.mk IMX547_TABLE_END 0]) []
      = (Outcome.ret 0, [] ++ [Event.regmap_bulk_write 0x10 [1, 2, 3],
          Event.usleep_range (1000 * 5) (1000 * 5 + 500), Event.regmap_write 0x20 9]) :=
  C5_bulk_then_sleep_then_single quiet_bus 0x10 0x20 5 9 0 [1, 2, 3] [] (fun _ _ _ => rfl)
    (by decide) (by decide) (by decide) (by decide) (by decide) (by decide)

/-- C6: every bulk write of imx547_write_table carries between 2 and 16 bytes,
for every table and every bus; and on a bus whose writes succeed a run of n
entries at consecutive non-sentinel addresses from a (not continued to the
left nor to the right) is emitted as floor(n / 16) bulk writes of 16 bytes at
a, a + 16, a + 32, ..., followed by one write of the remaining n mod 16 bytes,
a single-register write when one byte remains and nothing when none remains:
the trace of the call is the writes of the entries before the run, then this
emission, then what the loop issues for the rest of the table, on which it
goes on from an empty buffer; when the rest has an END entry the call returns
0 and the register writes after the emission are those of the rest. -/
theorem C6_bulk_writes_in_groups_of_16 :
    (∀ (bus : Bus) (table : List reg_8) (tr evs : List Event),
      (imx547_write_table bus table tr).2 = tr ++ evs →
      ∀ reg vals, Event.regmap_bulk_write reg vals ∈ evs →
        2 ≤ vals.length ∧ vals.length ≤ 16) ∧
    (∀ (bus : Bus) (pre : List reg_8) (a : Nat) (vs : List Nat) (stop : reg_8)
      (rest : List reg_8) (tr : List Event),
      (∀ h e, is_write e = true → bus.err h e = 0) →
      2 ≤ a → vs ≠ [] →
      (∀ e ∈ pre, e.addr ≠ IMX547_TABLE_END) → (∀ e ∈ pre.getLast?, e.addr + 1 ≠ a) →
      (stop.addr ≠ a + vs.length ∨ stop.addr = IMX547_TABLE_END ∨
        stop.addr = IMX547_TABLE_WAIT_MS) →
      ∃ evs vals2 post, reg_writes evs = table_writes pre ∧
        imx547_write_table bus (pre ++ run_entries a vs ++ stop :: rest) tr
          = write_table_loop bus (stop :: rest) (-1) 0 vals2
              (tr ++ evs ++ run_emission a vs) ∧
        (imx547_write_table bus (pre ++ run_entries a vs ++ stop :: rest) tr).2
          = tr ++ evs ++ run_emission a vs ++ post ∧
        ((∃ e ∈ stop :: rest, e.addr = IMX547_TABLE_END) →
          (imx547_write_table bus (pre ++ run_entries a vs ++ stop :: rest) tr).1
            = Outcome.ret 0 ∧
          reg_writes post = table_writes (stop :: rest))) := by
  constructor
  · intro bus table tr evs htr reg vals hm
    obtain ⟨evs2, h1, h2⟩ := write_table_loop_bulk_size bus table (-1) 0 (List.replicate 16 0) tr
      (by simp) (by omega)
    unfold imx547_write_table at htr
    rw [h1] at htr
    have : evs2 = evs := List.append_cancel_left htr
    subst this
    exact h2 reg vals hm
  · intro bus pre a vs stop rest tr hok ha hvs hnoend hlast hstop
    obtain ⟨s2, c2, v2, evs, g1, g2, g3, g4, g5⟩ := write_table_loop_before bus hok a
      (run_entries a vs ++ stop :: rest) pre (-1) 0 (List.replicate 16 0) tr hnoend hlast
      (by intro _; omega) (by simp) (by omega) (Or.inl ⟨rfl, rfl⟩)
    obtain ⟨vals2, hl2, hrun⟩ := write_table_loop_run bus hok stop rest vs.length vs a s2 c2 v2
      (tr ++ evs) rfl ha g1 (fun _ => Or.inl g3) (fun h => absurd h hvs) hstop
    have heq : imx547_write_table bus (pre ++ run_entries a vs ++ stop :: rest) tr
        = write_table_loop bus (stop :: rest) (-1) 0 vals2
            (tr ++ (evs ++ flush_events s2 c2 v2) ++ run_emission a vs) := by
      unfold imx547_write_table
      rw [List.append_assoc, g4, hrun, List.append_assoc tr]
    obtain ⟨post, hpost⟩ := write_table_loop_extends bus (stop :: rest) (-1) 0 vals2
      (tr ++ (evs ++ flush_events s2 c2 v2) ++ run_emission a vs)
    refine ⟨evs ++ flush_events s2 c2 v2, vals2, post, by simpa using g5, heq, ?_, ?_⟩
    · rw [heq, hpost]
    · intro hend
      obtain ⟨evs3, h3, h4⟩ := write_table_loop_ok bus hok (stop :: rest) (-1) 0 vals2
        (tr ++ (evs ++ flush_events s2 c2 v2) ++ run_emission a vs) hend hl2 (by omega)
        (Or.inl ⟨rfl, rfl⟩)
      rw [h3] at hpost
      have hp : evs3 = post := List.append_cancel_left hpost
      subst hp
      rw [heq, h3]
      exact ⟨rfl, by simpa using h4⟩

/-- C6, witness: a run of 35 entries from 0x10, followed by END, goes out as
two bulk writes of 16 bytes at 0x10 and 0x20 and one of 3 bytes at 0x30, and
nothing else. -/
theorem C6_witness :
    (∃ evs vals2 post, reg_writes evs = table_writes [] ∧
      imx547_write_table quiet_bus
          ([] ++ run_entries 0x10 (List.range 35) ++ reg_8.mk IMX547_TABLE_END 0 :: []) []
        = write_table_loop quiet_bus (reg_8.mk IMX547_TABLE_END 0 :: []) (-1) 0 vals2
            ([] ++ evs ++ run_emission 0x10 (List.range 35)) ∧
      (imx547_write_table quiet_bus
          ([] ++ run_entries 0x10 (List.range 35) ++ reg_8.mk IMX547_TABLE_END 0 :: []) []).2
        = [] ++ evs ++ run_emission 0x10 (List.range 35) ++ post ∧
      (imx547_write_table quiet_bus
          ([] ++ run_entries 0x10 (List.range 35) ++ reg_8.mk IMX547_TABLE_END 0 :: []) []).1
        = Outcome.ret 0 ∧
      reg_writes post = table_writes (reg_8.mk IMX547_TABLE_END 0 :: [])) ∧
    imx547_write_table quiet_bus
        (run_entries 0x10 (List.range 35) ++ [reg_8.mk IMX547_TABLE_END 0]) []
      = (Outcome.ret 0,
          [Event.regmap_bulk_write 0x10 [0, 1, 2, 3, 4, 5, 6, 7, 8, 9, 10, 11, 12, 13, 14, 15],
           Event.regmap_bulk_write 0x20
             [16, 17, 18, 19, 20, 21, 22, 23, 24, 25, 26, 27, 28, 29, 30, 31],
           Event.regmap_bulk_write 0x30 [32, 33, 34]]) ∧
    run_emission 0x10 (List.range 35)
      = [Event.regmap_bulk_write 0x10 [0, 1, 2, 3, 4, 5, 6, 7, 8, 9, 10, 11, 12, 13, 14, 15],
         Event.regmap_bulk_write 0x20
           [16, 17, 18, 19, 20, 21, 22, 23, 24, 25, 26, 27, 28, 29, 30, 31],
         Event.regmap_bulk_write 0x30 [32, 33, 34]] := by
  obtain ⟨evs, vals2, post, h1, h2, h3, h4⟩ :=
    C6_bulk_writes_in_groups_of_16.2 quiet_bus [] 0x10 (List.range 35)
      (reg_8.mk IMX547_TABLE_END 0) [] [] (fun _ _ _ => rfl) (by decide) (by decide)
      (by decide) (by decide) (by decide)
  obtain ⟨h5, h6⟩ := h4 ⟨reg_8.mk IMX547_TABLE_END 0, List.mem_singleton.mpr rfl, rfl⟩
  exact ⟨⟨evs, vals2, post, h1, h2, h3, h5, h6⟩, by decide, by decide⟩

/-- C7: if a register write issued by imx547_write_table fails, the function
returns the error code of that write and the failing write is the last thing
it does: no write and no sleep follows. -/
theorem C7_write_table_aborts_on_failure (bus : Bus) (table : List reg_8)
    (tr pre post : List Event) (ev : Event)
    (htrace : (imx547_write_table bus table tr).2 = tr ++ pre ++ ev :: post)
    (hwrite : is_write ev = true) (hfail : bus.err (tr ++ pre) ev ≠ 0) :
    (imx547_write_table bus table tr).1 = Outcome.ret (bus.err (tr ++ pre) ev) ∧ post = [] := by
  obtain ⟨evs, h1, _, h3⟩ := imx547_write_table_stops bus table tr
  rw [h1, List.append_assoc] at htrace
  have heq : evs = pre ++ ev :: post := List.append_cancel_left htrace
  have := h3 pre ev post heq (is_write_access ev hwrite) hfail
  exact ⟨this.2, this.1⟩

/-- C7, witness: the write to register 0x20 fails; the entry at 0x30 that
follows in the table is not written. -/
theorem C7_witness :
    (imx547_write_table reg20_fail_bus
      [reg_8.mk 0x10 1, reg_8.mk 0x11 2, reg_8.mk 0x12 3, reg_8.mk IMX547_TABLE_WAIT_MS 5,
        reg_8.mk 0x20 9, reg_8.mk 0x30 7, reg_8.mk IMX547_TABLE_END 0] []).1
      = Outcome.ret (reg20_fail_bus.err
          ([] ++ [Event.regmap_bulk_write 0x10 [1, 2, 3], Event.usleep_range 5000 5500])
          (Event.regmap_write 0x20 9)) ∧
      ([] : List Event) = [] :=
  C7_write_table_aborts_on_failure reg20_fail_bus
    [reg_8.mk 0x10 1, reg_8.mk 0x11 2, reg_8.mk 0x12 3, reg_8.mk IMX547_TABLE_WAIT_MS 5,
      reg_8.mk 0x20 9, reg_8.mk 0x30 7, reg_8.mk IMX547_TABLE_END 0]
    [] [Event.regmap_bulk_write 0x10 [1, 2, 3], Event.usleep_range 5000 5500] []
    (Event.regmap_write 0x20 9) (by decide) (by decide) (by decide)

/-- C8, counterexample: after imx547_set_fmt with the unsupported code 0x3001
on the attach state, the stored format code is 0x3001 and no longer the 12-bit
code set at attach. -/
theorem C8_counterexample :
    (imx547_set_fmt imx547_probe_state (fmt_of_code 0x3001)).1 = Outcome.ret (-EINVAL) ∧
    (imx547_set_fmt imx547_probe_state (fmt_of_code 0x3001)).2.format.code = 0x3001 ∧
    imx547_probe_state.format.code = MEDIA_BUS_FMT_SRGGB12_1X12 ∧
    (imx547_set_fmt imx547_probe_state (fmt_of_code 0x3001)).2.format
      ≠ imx547_probe_state.format := by
  decide

/-- C8 (amended): for every requested format whose code is none of the two
10-bit and two 12-bit codes, imx547_set_fmt returns -EINVAL and leaves
line_time, frame_interval, frame_length and the control values as they were,
while the stored format is the requested one. -/
theorem C8_set_fmt_unsupported_code (imx547 : stimx547) (format : v4l2_mbus_framefmt)
    (hlock : imx547.lock = false) (hcode : ¬ supported_code format.code) :
    (imx547_set_fmt imx547 format).1 = Outcome.ret (-EINVAL) ∧
    (imx547_set_fmt imx547 format).2.line_time = imx547.line_time ∧
    (imx547_set_fmt imx547 format).2.frame_interval = imx547.frame_interval ∧
    (imx547_set_fmt imx547 format).2.frame_length = imx547.frame_length ∧
    (imx547_set_fmt imx547 format).2.ctrls = imx547.ctrls ∧
    (imx547_set_fmt imx547 format).2.format = format := by
  have hlk : ¬ (imx547.lock = true) := by simp [hlock]
  have h10 : ¬ (format.code = MEDIA_BUS_FMT_SRGGB10_1X10 ∨
      format.code = MEDIA_BUS_FMT_Y10_1X10) := by
    intro h
    apply hcode
    rcases h with h | h
    · exact Or.inl h
    · exact Or.inr (Or.inl h)
  have h12 : ¬ (format.code = MEDIA_BUS_FMT_SRGGB12_1X12 ∨
      format.code = MEDIA_BUS_FMT_Y12_1X12) := by
    intro h
    apply hcode
    rcases h with h | h
    · exact Or.inr (Or.inr (Or.inl h))
    · exact Or.inr (Or.inr (Or.inr h))
  unfold imx547_set_fmt
  simp only [if_neg hlk, if_neg h10, if_neg h12, and_self]

/-- C8, witness: the attach state and the code 0x3001. -/
theorem C8_witness :
    (imx547_set_fmt imx547_probe_state (fmt_of_code 0x3001)).1 = Outcome.ret (-EINVAL) ∧
    (imx547_set_fmt imx547_probe_state (fmt_of_code 0x3001)).2.line_time
      = imx547_probe_state.line_time ∧
    (imx547_set_fmt imx547_probe_state (fmt_of_code 0x3001)).2.frame_interval
      = imx547_probe_state.frame_interval ∧
    (imx547_set_fmt imx547_probe_state (fmt_of_code 0x3001)).2.frame_length
      = imx547_probe_state.frame_length ∧
    (imx547_set_fmt imx547_probe_state (fmt_of_code 0x3001)).2.ctrls
      = imx547_probe_state.ctrls ∧
    (imx547_set_fmt imx547_probe_state (fmt_of_code 0x3001)).2.format = fmt_of_code 0x3001 :=
  C8_set_fmt_unsupported_code imx547_probe_state (fmt_of_code 0x3001) (by decide) (by decide)

/-- C9: for a state configured for a 10-bit format, when every bus access
succeeds and HMAX reads back non-zero, imx547_s_stream(on) returns 0 and what
it does is, in this order: the common table, the 10-bit mode table (the
register writes of each being the entries of the table), the read of HMAX,
one 3-byte write of the frame length at VMAX, one 3-byte write at SHS,
STANDBY = 0, the reset line driven high and low again, then XMSTA = 0; there
is no other register write. -/
theorem C9_start_sequence_order (bus : Bus) (imx547 : stimx547) (tr : List Event)
    (enable : Int) (hon : enable ≠ 0) (hlock : imx547.lock = false)
    (h10 : is_10bit imx547.format.code)
    (hden : imx547.frame_interval.denominator < 2 ^ 32)
    (hok : ∀ h e, is_access e = true → bus.err h e = 0)
    (hhmax : ∀ h, le32_to_cpu ((bus.data h HMAX_LOW 2).take 2) ≠ 0) :
    (imx547_s_stream bus imx547 tr enable).1 = Outcome.ret 0 ∧
    ∃ c m shs,
      (imx547_s_stream bus imx547 tr enable).2.2
        = tr ++ c ++ m ++
          [Event.regmap_bulk_read HMAX_LOW 2,
           Event.regmap_bulk_write VMAX_LOW
             (le_bytes ((imx547_s_stream bus imx547 tr enable).2.1.frame_length % 2 ^ 32) 3),
           Event.regmap_bulk_write SHS_LOW (le_bytes shs 3),
           Event.regmap_write STANDBY 0x00,
           Event.usleep_range 1138000 1140000,
           Event.gpiod_set_value 1,
           Event.usleep_range 20000 21000,
           Event.gpiod_set_value 0,
           Event.regmap_write XMSTA 0x00] ∧
      (imx547_write_table bus imx547_common_settings tr).2 = tr ++ c ∧
      reg_writes c = table_writes imx547_common_settings ∧
      (imx547_write_table bus imx547_10bit_mode (tr ++ c)).2 = tr ++ c ++ m ∧
      reg_writes m = table_writes imx547_10bit_mode := by
  have hokw : ∀ h e, is_write e = true → bus.err h e = 0 :=
    fun h e hw => hok h e (is_write_access e hw)
  obtain ⟨c, hc1, hc2⟩ := imx547_write_table_ok bus imx547_common_settings tr hokw
    common_settings_has_end
  obtain ⟨m, hm1, hm2⟩ := imx547_write_table_ok bus imx547_10bit_mode (tr ++ c) hokw
    mode_10bit_has_end
  have h10' : imx547.format.code = MEDIA_BUS_FMT_SRGGB10_1X10 ∨
      imx547.format.code = MEDIA_BUS_FMT_Y10_1X10 := h10
  have hsup : supported_code imx547.format.code := by
    rcases h10' with h | h
    · exact Or.inl h
    · exact Or.inr (Or.inl h)
  -- the six steps
  have e1 : imx547_common_regs bus tr = (Outcome.ret 0, tr ++ c) := hc1
  have e2 : ∀ p : stimx547, p.format = imx547.format →
      imx547_set_pixel_format bus p (tr ++ c) = (Outcome.ret 0, tr ++ c ++ m) := by
    intro p hp
    unfold imx547_set_pixel_format
    rw [hp, if_pos h10', hm1]
  obtain ⟨hL0, hL32⟩ := line_time_of_hmax
    (le32_to_cpu ((bus.data (tr ++ c ++ m) HMAX_LOW 2).take 2)) (hhmax _)
    (le32_to_cpu_two_bytes _)
  generalize hLdef : le32_to_cpu ((bus.data (tr ++ c ++ m) HMAX_LOW 2).take 2)
    * IMX547_G_FACTOR / IMX547_INCK % 2 ^ 32 = L at hL0 hL32
  have e3 : ∀ p : stimx547, imx547_calculate_line_time bus p (tr ++ c ++ m)
      = (Outcome.ret 0, { p with line_time := L },
          tr ++ c ++ m ++ [Event.regmap_bulk_read HMAX_LOW 2]) := by
    intro p
    unfold imx547_calculate_line_time imx547_read_mbreg
    simp only [hok _ _ (show is_access (Event.regmap_bulk_read HMAX_LOW 2) = true from rfl),
      ne_eq, not_true_eq_false, if_false, hLdef]
  have e4 : ∀ p : stimx547, p.format = imx547.format →
      p.frame_interval = imx547.frame_interval → p.line_time = L →
      ∃ fi fl, imx547_set_frame_interval bus p
          (tr ++ c ++ m ++ [Event.regmap_bulk_read HMAX_LOW 2])
        = (Outcome.ret 0, { p with frame_interval := fi, frame_length := fl },
            tr ++ c ++ m ++ [Event.regmap_bulk_read HMAX_LOW 2] ++
              [Event.regmap_bulk_write VMAX_LOW (le_bytes (fl % 2 ^ 32) 3)]) := by
    intro p hp1 hp2 hp3
    have := imx547_set_frame_interval_eq bus p
      (tr ++ c ++ m ++ [Event.regmap_bulk_read HMAX_LOW 2])
      (by rw [hp1]; exact hsup) (by rw [hp3]; exact hL0) (by rw [hp3]; exact hL32)
      (by rw [hp2]; exact hden)
    rw [hok _ _ (show is_access (Event.regmap_bulk_write _ _) = true from rfl),
      Nat.mod_mod] at this
    exact ⟨_, _, this⟩
  have e5 : ∀ (p : stimx547) (t : List Event) (v : Int), p.format = imx547.format →
      p.line_time = L →
      ∃ shs cc, imx547_set_exposure bus p t v
        = (Outcome.ret 0, { p with ctrls := cc },
            t ++ [Event.regmap_bulk_write SHS_LOW (le_bytes shs 3)]) := by
    intro p t v hp1 hp3
    obtain ⟨shs, cc, h⟩ := imx547_set_exposure_eq bus p t v (by rw [hp1]; exact hsup)
      (by rw [hp3]; omega)
    rw [hok _ _ (show is_access (Event.regmap_bulk_write _ _) = true from rfl)] at h
    exact ⟨shs, _, h⟩
  have e6 : ∀ t : List Event, imx547_start_stream bus t
      = (Outcome.ret 0, t ++ [Event.regmap_write STANDBY 0x00,
           Event.usleep_range 1138000 1140000, Event.gpiod_set_value 1,
           Event.usleep_range 20000 21000, Event.gpiod_set_value 0,
           Event.regmap_write XMSTA 0x00]) := by
    intro t
    simp [imx547_start_stream, imx547_write_reg]
  have hlk : ¬ (imx547.lock = true) := by simp [hlock]
  unfold imx547_s_stream
  rw [if_neg hlk, if_pos hon]
  lift_lets
  intro r1 r2 r3 q3 r4 q4 r5 q5 r6
  have hr1 : r1 = (Outcome.ret 0, tr ++ c) := e1
  have hr2 : r2 = (Outcome.ret 0, tr ++ c ++ m) := by
    show imx547_set_pixel_format bus { imx547 with lock := true } r1.2 = _
    rw [hr1]; exact e2 _ rfl
  have hr3 : r3 = (Outcome.ret 0, { imx547 with lock := true, line_time := L },
      tr ++ c ++ m ++ [Event.regmap_bulk_read HMAX_LOW 2]) := by
    show imx547_calculate_line_time bus { imx547 with lock := true } r2.2 = _
    rw [hr2]; exact e3 _
  obtain ⟨fi, fl, h4⟩ := e4 { imx547 with lock := true, line_time := L } rfl rfl rfl
  have hr4 : r4 = (Outcome.ret 0,
      { imx547 with lock := true, line_time := L, frame_interval := fi, frame_length := fl },
      tr ++ c ++ m ++ [Event.regmap_bulk_read HMAX_LOW 2] ++
        [Event.regmap_bulk_write VMAX_LOW (le_bytes (fl % 2 ^ 32) 3)]) := by
    show imx547_set_frame_interval bus q3 r3.2.2 = _
    rw [show q3 = r3.2.1 from rfl, hr3]; exact h4
  obtain ⟨shs, cc, h5⟩ := e5
    { imx547 with lock := true, line_time := L, frame_interval := fi, frame_length := fl }
    (tr ++ c ++ m ++ [Event.regmap_bulk_read HMAX_LOW 2] ++
      [Event.regmap_bulk_write VMAX_LOW (le_bytes (fl % 2 ^ 32) 3)])
    imx547.ctrls.exposure.val rfl rfl
  have hr5 : r5 = (Outcome.ret 0,
      { imx547 with lock := true, line_time := L, frame_interval := fi, frame_length := fl, ctrls := cc },
      tr ++ c ++ m ++ [Event.regmap_bulk_read HMAX_LOW 2] ++
        [Event.regmap_bulk_write VMAX_LOW (le_bytes (fl % 2 ^ 32) 3)] ++
        [Event.regmap_bulk_write SHS_LOW (le_bytes shs 3)]) := by
    show imx547_set_exposure bus q4 r4.2.2 q4.ctrls.exposure.val = _
    rw [show q4 = r4.2.1 from rfl, hr4]; exact h5
  have hr6 : r6 = (Outcome.ret 0,
      tr ++ c ++ m ++ [Event.regmap_bulk_read HMAX_LOW 2] ++
        [Event.regmap_bulk_write VMAX_LOW (le_bytes (fl % 2 ^ 32) 3)] ++
        [Event.regmap_bulk_write SHS_LOW (le_bytes shs 3)] ++
        [Event.regmap_write STANDBY 0x00,
         Event.usleep_range 1138000 1140000, Event.gpiod_set_value 1,
         Event.usleep_range 20000 21000, Event.gpiod_set_value 0,
         Event.regmap_write XMSTA 0x00]) := by
    show imx547_start_stream bus r5.2.2 = _
    rw [hr5]; exact e6 _
  have hq3 : q3 = r3.2.1 := rfl
  have hq4 : q4 = r4.2.1 := rfl
  have hq5 : q5 = r5.2.1 := rfl
  clear_value r6 q5 r5 q4 r4 q3 r3 r2 r1
  subst hq5 hq4 hq3
  subst hr1 hr2 hr3 hr4 hr5 hr6
  simp only [ne_eq, not_true_eq_false, if_false]
  refine ⟨trivial, c, m, shs, ?_, by rw [hc1], hc2, by rw [hm1], hm2⟩
  simp

set_option maxRecDepth 100000 in
/-- C9, witness: the state after attach and set_fmt(10-bit), on a bus that
reads HMAX back as 274. -/
theorem C9_witness :
    (imx547_s_stream hmax_bus (attached MEDIA_BUS_FMT_SRGGB10_1X10) [] 1).1 = Outcome.ret 0 ∧
    ∃ c m shs,
      (imx547_s_stream hmax_bus (attached MEDIA_BUS_FMT_SRGGB10_1X10) [] 1).2.2
        = [] ++ c ++ m ++
          [Event.regmap_bulk_read HMAX_LOW 2,
           Event.regmap_bulk_write VMAX_LOW
             (le_bytes ((imx547_s_stream hmax_bus (attached MEDIA_BUS_FMT_SRGGB10_1X10)
               [] 1).2.1.frame_length % 2 ^ 32) 3),
           Event.regmap_bulk_write SHS_LOW (le_bytes shs 3),
           Event.regmap_write STANDBY 0x00,
           Event.usleep_range 1138000 1140000,
           Event.gpiod_set_value 1,
           Event.usleep_range 20000 21000,
           Event.gpiod_set_value 0,
           Event.regmap_write XMSTA 0x00] ∧
      (imx547_write_table hmax_bus imx547_common_settings []).2 = [] ++ c ∧
      reg_writes c = table_writes imx547_common_settings ∧
      (imx547_write_table hmax_bus imx547_10bit_mode ([] ++ c)).2 = [] ++ c ++ m ∧
      reg_writes m = table_writes imx547_10bit_mode :=
  C9_start_sequence_order hmax_bus (attached MEDIA_BUS_FMT_SRGGB10_1X10) [] 1 (by decide)
    (by decide) (by decide) (by decide) (fun _ _ _ => rfl)
    (fun _ => by
      show le32_to_cpu (List.take 2 [0x12, 0x01]) ≠ 0
      decide)

set_option maxRecDepth 100000 in
set_option maxRecDepth 100000 in
/-- C10: in the state after attach and imx547_set_fmt with a 10-bit code,
imx547_s_stream(on) returns 0 on a bus that refuses the write of 0 to STANDBY
with -EIO, having gone on to toggle the reset line and to write XMSTA after
the failing write; it returns 0 as well on a bus that refuses only the write
of 0 to XMSTA, the last access of the call.  On a bus that refuses the VMAX
write the same call returns -EIO. -/
theorem C10_start_sequence_failure_returns_zero :
    (imx547_s_stream standby_fail_bus (attached MEDIA_BUS_FMT_SRGGB10_1X10) [] 1).1
      = Outcome.ret 0 ∧
    (imx547_s_stream standby_fail_bus (attached MEDIA_BUS_FMT_SRGGB10_1X10) [] 1).2.2.drop 148
      = [Event.regmap_write STANDBY 0x00, Event.usleep_range 1138000 1140000,
         Event.gpiod_set_value 1, Event.usleep_range 20000 21000, Event.gpiod_set_value 0,
         Event.regmap_write XMSTA 0x00] ∧
    standby_fail_bus.err
        ((imx547_s_stream standby_fail_bus (attached MEDIA_BUS_FMT_SRGGB10_1X10)
          [] 1).2.2.take 148)
        (Event.regmap_write STANDBY 0x00) = -5 ∧
    (imx547_s_stream xmsta_fail_bus (attached MEDIA_BUS_FMT_SRGGB10_1X10) [] 1).1
      = Outcome.ret 0 ∧
    (imx547_s_stream xmsta_fail_bus (attached MEDIA_BUS_FMT_SRGGB10_1X10) [] 1).2.2.drop 153
      = [Event.regmap_write XMSTA 0x00] ∧
    xmsta_fail_bus.err
        ((imx547_s_stream xmsta_fail_bus (attached MEDIA_BUS_FMT_SRGGB10_1X10)
          [] 1).2.2.take 153)
        (Event.regmap_write XMSTA 0x00) = -5 ∧
    (imx547_s_stream vmax_fail_bus (attached MEDIA_BUS_FMT_SRGGB10_1X10) [] 1).1
      = Outcome.ret (-5) ∧
    (imx547_start_stream standby_fail_bus []).1 = Outcome.ret 0 ∧
    (imx547_start_stream xmsta_fail_bus []).1 = Outcome.ret 0 := by
  decide

/-- C11: each of imx547_set_gain, imx547_set_black_level and
imx547_set_exposure issues at most one register write; when that write fails
the function returns the error of the bus and the state, and with it the
cached control value, is as before; the state, and with it the cached
value, changes only when the write was issued and succeeded. -/
theorem C11_cache_updated_only_on_success (bus : Bus) (priv : stimx547) (tr : List Event)
    (val : Int) :
    CachesOnSuccess bus priv tr (imx547_set_gain bus priv tr val) ∧
    CachesOnSuccess bus priv tr (imx547_set_black_level bus priv tr val) ∧
    CachesOnSuccess bus priv tr (imx547_set_exposure bus priv tr val) := by
  refine ⟨?_, ?_, ?_⟩
  · exact cachesOnSuccess_write bus priv _ tr _ rfl
  · exact cachesOnSuccess_write bus priv _ tr _ rfl
  · unfold imx547_set_exposure
    lift_lets
    intro v1 itl shs0 mn shs r s1 s2
    split_ifs with h1 h2 h3
    · exact cachesOnSuccess_none bus priv tr _
    · have := cachesOnSuccess_write bus priv priv tr
        (Event.regmap_bulk_write SHS_LOW (le_bytes (shs % 2 ^ 32) 3)) rfl
      have h3a : bus.err tr (Event.regmap_bulk_write SHS_LOW (le_bytes (shs % 2 ^ 32) 3)) ≠ 0 :=
        h3
      rw [if_pos h3a] at this
      exact this
    · have := cachesOnSuccess_write bus priv
        { priv with ctrls := { s1 with exposure := { s2 with val := v1 } } } tr
        (Event.regmap_bulk_write SHS_LOW (le_bytes (shs % 2 ^ 32) 3)) rfl
      have h3b : ¬ (bus.err tr (Event.regmap_bulk_write SHS_LOW (le_bytes (shs % 2 ^ 32) 3)) ≠ 0) :=
        h3
      rw [if_neg h3b] at this
      have h0 : r.1 = 0 := not_not.mp h3
      rw [h0]
      exact this
    · exact cachesOnSuccess_none bus priv tr _

/-- C11, witness: on a bus that refuses every access, each of the three
setters returns the error -5 and leaves the attach state as it was. -/
theorem C11_witness :
    ((imx547_set_gain dead_bus imx547_probe_state [] 7).1 = Outcome.ret (-5) ∧
      (imx547_set_gain dead_bus imx547_probe_state [] 7).2.1 = imx547_probe_state) ∧
    ((imx547_set_black_level dead_bus imx547_probe_state [] 7).1 = Outcome.ret (-5) ∧
      (imx547_set_black_level dead_bus imx547_probe_state [] 7).2.1 = imx547_probe_state) ∧
    ((imx547_set_exposure dead_bus (attached MEDIA_BUS_FMT_SRGGB12_1X12) [] 7).1
        = Outcome.ret (-5) ∧
      (imx547_set_exposure dead_bus (attached MEDIA_BUS_FMT_SRGGB12_1X12) [] 7).2.1
        = attached MEDIA_BUS_FMT_SRGGB12_1X12) :=
  ⟨(C11_cache_updated_only_on_success dead_bus imx547_probe_state [] 7).1.2.1
      (Event.regmap_bulk_write GAIN_LOW (le_bytes 7 2)) (by decide) (by decide),
   (C11_cache_updated_only_on_success dead_bus imx547_probe_state [] 7).2.1.2.1
      (Event.regmap_bulk_write BLKLEVEL_LOW (le_bytes 7 2)) (by decide) (by decide),
   (C11_cache_updated_only_on_success dead_bus (attached MEDIA_BUS_FMT_SRGGB12_1X12) [] 7).2.2.2.1
      (Event.regmap_bulk_write SHS_LOW (le_bytes 2206 3)) (by decide) (by decide)⟩

/-- C12: on a bus that stores the bytes written to it, for every address,
every n in {1, 2, 3} and every 32-bit value v, imx547_read_mbreg(addr, n)
performed after imx547_write_mbreg(addr, v, n) succeeds and yields
v mod 2^(8n); the bytes above the n-th are read as zero. -/
theorem C12_read_back_after_write (bus : Bus) (init : Nat → Nat) (tr : List Event)
    (addr v n : Nat) (hbus : Stores bus init) (h1 : 1 ≤ n) (h3 : n ≤ 3) (hv : v < 2 ^ 32) :
    (imx547_read_mbreg bus (imx547_write_mbreg bus tr addr v n).2 addr n).1 = 0 ∧
    (imx547_read_mbreg bus (imx547_write_mbreg bus tr addr v n).2 addr n).2.1
      = v % 2 ^ (8 * n) ∧
    (imx547_read_mbreg bus (imx547_write_mbreg bus tr addr v n).2 addr n).2.1 / 2 ^ (8 * n)
      = 0 := by
  obtain ⟨herr, hdata⟩ := hbus
  have hval : (imx547_read_mbreg bus (imx547_write_mbreg bus tr addr v n).2 addr n).2.1
      = v % 2 ^ (8 * n) := by
    simp only [imx547_read_mbreg, imx547_write_mbreg, hdata, regmap_after_append]
    rw [Nat.mod_eq_of_lt hv]
    exact read_back_le_bytes _ addr v n h1 h3
  refine ⟨herr _ _, hval, ?_⟩
  rw [hval]
  exact Nat.div_eq_of_lt (Nat.mod_lt _ (by positivity))

/-- C12, witness: over a register map that holds 0xFF everywhere, the two low
bytes of 0x12345678 written to HMAX are read back as 0x5678. -/
theorem C12_witness :
    (imx547_read_mbreg (memory_bus (fun _ => 0xFF))
        (imx547_write_mbreg (memory_bus (fun _ => 0xFF)) [] HMAX_LOW 0x12345678 2).2
        HMAX_LOW 2).2.1 = 0x12345678 % 2 ^ (8 * 2) :=
  (C12_read_back_after_write (memory_bus (fun _ => 0xFF)) (fun _ => 0xFF) [] HMAX_LOW
    0x12345678 2 ⟨fun _ _ => rfl, fun _ _ _ => rfl⟩ (by decide) (by decide) (by decide)).2.1

/-- C13: for every address, every 32-bit value v and every n in {1, 2, 3},
imx547_write_mbreg(addr, v, n) returns what the bus answers to, and issues
exactly, one bulk write at addr of exactly n bytes, whose i-th byte (0-based)
is (v >> 8 i) & 0xFF; the bits of v above 8 n are discarded: the write is the
one issued for v mod 2^(8n). -/
theorem C13_write_mbreg_little_endian (bus : Bus) (tr : List Event) (addr v n : Nat)
    (h1 : 1 ≤ n) (h3 : n ≤ 3) (hv : v < 2 ^ 32) :
    ∃ bytes : List Nat,
      imx547_write_mbreg bus tr addr v n
        = (bus.err tr (Event.regmap_bulk_write addr bytes),
            tr ++ [Event.regmap_bulk_write addr bytes]) ∧
      bytes.length = n ∧
      (∀ i, i < n → bytes.getD i 0 = (v >>> (8 * i)) &&& 0xFF) ∧
      imx547_write_mbreg bus tr addr (v % 2 ^ (8 * n)) n
        = imx547_write_mbreg bus tr addr v n := by
  have hlt : 2 ^ (8 * n) ≤ 2 ^ 32 := Nat.pow_le_pow_right (by norm_num) (by omega)
  have hv2 : v % 2 ^ (8 * n) < 2 ^ 32 := lt_of_lt_of_le (Nat.mod_lt _ (by positivity)) hlt
  refine ⟨le_bytes v n, ?_, le_bytes_length v n, fun i hi => le_bytes_getD v n i hi, ?_⟩
  · simp only [imx547_write_mbreg, Nat.mod_eq_of_lt hv]
  · simp only [imx547_write_mbreg, Nat.mod_eq_of_lt hv, Nat.mod_eq_of_lt hv2, le_bytes_mod]

/-- C13, witness: the three low bytes of 0x12345678 go to SHS as
0x78, 0x56, 0x34. -/
theorem C13_witness :
    ∃ bytes : List Nat,
      imx547_write_mbreg quiet_bus [] SHS_LOW 0x12345678 3
        = (quiet_bus.err [] (Event.regmap_bulk_write SHS_LOW bytes),
            [] ++ [Event.regmap_bulk_write SHS_LOW bytes]) ∧
      bytes.length = 3 ∧
      (∀ i, i < 3 → bytes.getD i 0 = (0x12345678 >>> (8 * i)) &&& 0xFF) ∧
      imx547_write_mbreg quiet_bus [] SHS_LOW (0x12345678 % 2 ^ (8 * 3)) 3
        = imx547_write_mbreg quiet_bus [] SHS_LOW 0x12345678 3 :=
  C13_write_mbreg_little_endian quiet_bus [] SHS_LOW 0x12345678 3 (by decide) (by decide)
    (by decide)

/-- C14: for every state (with the mutex free), every bus, every supported
format F and every interval num/den with num and den non-zero whose rate
floor(10^6 den / num) lies within [2 * 10^6, max_rate(F)]: imx547_set_fmt(F)
returns 0, the following imx547_s_frame_interval(num/den) returns, and
after it imx547_g_frame_interval returns exactly num/den and imx547_get_fmt
returns exactly F. -/
theorem C14_format_and_interval_round_trip (bus : Bus) (imx547 : stimx547) (tr : List Event)
    (format : v4l2_mbus_framefmt) (fi : v4l2_fract) (hlock : imx547.lock = false)
    (hfmt : supported_code format.code) (hnum : fi.numerator ≠ 0) (hden : fi.denominator ≠ 0)
    (hden32 : fi.denominator < 2 ^ 32)
    (hlo : 2 * 10 ^ 6 ≤ 10 ^ 6 * fi.denominator / fi.numerator)
    (hhi : 10 ^ 6 * fi.denominator / fi.numerator ≤ max_rate format.code) :
    (imx547_set_fmt imx547 format).1 = Outcome.ret 0 ∧
    (∃ code, (imx547_s_frame_interval bus (imx547_set_fmt imx547 format).2 tr fi).1
      = Outcome.ret code) ∧
    imx547_g_frame_interval
        (imx547_s_frame_interval bus (imx547_set_fmt imx547 format).2 tr fi).2.1
      = (Outcome.ret 0, fi) ∧
    (imx547_get_fmt
        (imx547_s_frame_interval bus (imx547_set_fmt imx547 format).2 tr fi).2.1).1
      = Outcome.ret 0 ∧
    (imx547_get_fmt
        (imx547_s_frame_interval bus (imx547_set_fmt imx547 format).2 tr fi).2.1).2.2
      = format := by
  rw [imx547_set_fmt_eq imx547 format hlock hfmt]
  dsimp only
  generalize hs1 : ({ imx547 with
      format := format,
      line_time := if is_10bit format.code then IMX547_DEFAULT_LINE_TIME_10BIT
        else IMX547_DEFAULT_LINE_TIME_12BIT } : stimx547) = s1
  have hl1 : s1.lock = false := by rw [← hs1]; exact hlock
  have hf1 : s1.format = format := by rw [← hs1]
  have hlt : 0 < s1.line_time ∧ s1.line_time < 2 ^ 32 := by
    rw [← hs1]
    dsimp only
    split_ifs <;> decide
  have hfmt1 : supported_code s1.format.code := by rw [hf1]; exact hfmt
  obtain ⟨code, c, e1, e2⟩ := imx547_s_frame_interval_frame bus s1 tr fi hl1 hfmt1 hlt.1 hlt.2
    hden32
  rw [hf1, settled_interval_in_range format.code fi hnum hden hlo hhi] at e2
  generalize imx547_s_frame_interval bus s1 tr fi = res at e1 e2
  refine ⟨rfl, ⟨code, e1⟩, ?_, ?_, ?_⟩
  · simp only [imx547_g_frame_interval, e2]
  · simp only [imx547_get_fmt, e2, hl1]
    rfl
  · simp only [imx547_get_fmt, e2, hl1, hf1]
    rfl

/-- C14, witness: the 12-bit format and the interval 1/60 from the attach state. -/
theorem C14_witness :
    (imx547_set_fmt imx547_probe_state (fmt_of_code MEDIA_BUS_FMT_SRGGB12_1X12)).1
      = Outcome.ret 0 ∧
    (∃ code, (imx547_s_frame_interval quiet_bus
        (imx547_set_fmt imx547_probe_state (fmt_of_code MEDIA_BUS_FMT_SRGGB12_1X12)).2 []
        { numerator := 1, denominator := 60 }).1 = Outcome.ret code) ∧
    imx547_g_frame_interval
        (imx547_s_frame_interval quiet_bus
          (imx547_set_fmt imx547_probe_state (fmt_of_code MEDIA_BUS_FMT_SRGGB12_1X12)).2 []
          { numerator := 1, denominator := 60 }).2.1
      = (Outcome.ret 0, { numerator := 1, denominator := 60 }) ∧
    (imx547_get_fmt
        (imx547_s_frame_interval quiet_bus
          (imx547_set_fmt imx547_probe_state (fmt_of_code MEDIA_BUS_FMT_SRGGB12_1X12)).2 []
          { numerator := 1, denominator := 60 }).2.1).1
      = Outcome.ret 0 ∧
    (imx547_get_fmt
        (imx547_s_frame_interval quiet_bus
          (imx547_set_fmt imx547_probe_state (fmt_of_code MEDIA_BUS_FMT_SRGGB12_1X12)).2 []
          { numerator := 1, denominator := 60 }).2.1).2.2
      = fmt_of_code MEDIA_BUS_FMT_SRGGB12_1X12 :=
  C14_format_and_interval_round_trip quiet_bus imx547_probe_state []
    (fmt_of_code MEDIA_BUS_FMT_SRGGB12_1X12) { numerator := 1, denominator := 60 }
    (by decide) (by decide) (by decide) (by decide) (by decide) (by decide) (by decide)

/-- C15: on a bus where writes succeed, for every table that contains an END
entry, every initial content of the register map and every history, applying
imx547_write_table twice in a row returns 0 both times and leaves the same
register map as applying it once; in particular for the three static tables
imx547_common_settings, imx547_10bit_mode and imx547_12bit_mode. -/
theorem C15_write_table_idempotent (bus : Bus)
    (hok : ∀ h e, is_write e = true → bus.err h e = 0) :
    (∀ (table : List reg_8) (init : Nat → Nat) (tr : List Event),
      (∃ e ∈ table, e.addr = IMX547_TABLE_END) →
      (imx547_write_table bus table tr).1 = Outcome.ret 0 ∧
      (imx547_write_table bus table (imx547_write_table bus table tr).2).1 = Outcome.ret 0 ∧
      regmap_after init (imx547_write_table bus table (imx547_write_table bus table tr).2).2
        = regmap_after init (imx547_write_table bus table tr).2) ∧
    (∀ table ∈ [imx547_common_settings, imx547_10bit_mode, imx547_12bit_mode],
      ∀ (init : Nat → Nat) (tr : List Event),
      (imx547_write_table bus table tr).1 = Outcome.ret 0 ∧
      (imx547_write_table bus table (imx547_write_table bus table tr).2).1 = Outcome.ret 0 ∧
      regmap_after init (imx547_write_table bus table (imx547_write_table bus table tr).2).2
        = regmap_after init (imx547_write_table bus table tr).2) := by
  refine ⟨fun table init tr hend => imx547_write_table_twice bus hok table init tr hend, ?_⟩
  intro table hmem init tr
  simp only [List.mem_cons, List.mem_singleton, List.not_mem_nil, or_false] at hmem
  rcases hmem with h | h | h
  · exact imx547_write_table_twice bus hok table init tr (h ▸ common_settings_has_end)
  · exact imx547_write_table_twice bus hok table init tr (h ▸ mode_10bit_has_end)
  · exact imx547_write_table_twice bus hok table init tr (h ▸ mode_12bit_has_end)

/-- C15, witness: the 12-bit mode table applied twice to a register map that
holds 0xFF everywhere. -/
theorem C15_witness :
    (imx547_write_table quiet_bus imx547_12bit_mode []).1 = Outcome.ret 0 ∧
    (imx547_write_table quiet_bus imx547_12bit_mode
      (imx547_write_table quiet_bus imx547_12bit_mode []).2).1 = Outcome.ret 0 ∧
    regmap_after (fun _ => 0xFF) (imx547_write_table quiet_bus imx547_12bit_mode
        (imx547_write_table quiet_bus imx547_12bit_mode []).2).2
      = regmap_after (fun _ => 0xFF) (imx547_write_table quiet_bus imx547_12bit_mode []).2 :=
  (C15_write_table_idempotent quiet_bus (fun _ _ _ => rfl)).2 imx547_12bit_mode
    (by simp) (fun _ => 0xFF) []

/-- C17: for every state (with the mutex free), imx547_set_fmt with a 10-bit
code (SRGGB10_1X10 or Y10_1X10) returns 0, stores the requested format and
sets line_time to 3700 ns; with a 12-bit code (SRGGB12_1X12 or Y12_1X12) it
returns 0, stores the requested format and sets line_time to 5500 ns.
Nothing else changes. -/
theorem C17_set_fmt_sets_line_time (imx547 : stimx547) (format : v4l2_mbus_framefmt)
    (hlock : imx547.lock = false) :
    (format.code = MEDIA_BUS_FMT_SRGGB10_1X10 ∨ format.code = MEDIA_BUS_FMT_Y10_1X10 →
      imx547_set_fmt imx547 format
        = (Outcome.ret 0, { imx547 with format := format, line_time := 3700 })) ∧
    (format.code = MEDIA_BUS_FMT_SRGGB12_1X12 ∨ format.code = MEDIA_BUS_FMT_Y12_1X12 →
      imx547_set_fmt imx547 format
        = (Outcome.ret 0, { imx547 with format := format, line_time := 5500 })) := by
  constructor
  · intro h
    have h10 : is_10bit format.code := h
    rw [imx547_set_fmt_eq imx547 format hlock (Or.elim h Or.inl (fun h => Or.inr (Or.inl h))),
      if_pos h10]
    rfl
  · intro h
    have h10 : ¬ is_10bit format.code := by
      intro h10
      rcases h with h | h <;> rcases h10 with g | g <;> rw [h] at g <;> exact absurd g (by decide)
    rw [imx547_set_fmt_eq imx547 format hlock
      (Or.elim h (fun h => Or.inr (Or.inr (Or.inl h))) (fun h => Or.inr (Or.inr (Or.inr h)))),
      if_neg h10]
    rfl

/-- C17, witness: from the attach state, the 10-bit Bayer code gives 3700 ns
and the 12-bit monochrome code 5500 ns. -/
theorem C17_witness :
    imx547_set_fmt imx547_probe_state (fmt_of_code MEDIA_BUS_FMT_SRGGB10_1X10)
        = (Outcome.ret 0, { imx547_probe_state with
            format := fmt_of_code MEDIA_BUS_FMT_SRGGB10_1X10, line_time := 3700 }) ∧
    imx547_set_fmt imx547_probe_state (fmt_of_code MEDIA_BUS_FMT_Y12_1X12)
        = (Outcome.ret 0, { imx547_probe_state with
            format := fmt_of_code MEDIA_BUS_FMT_Y12_1X12, line_time := 5500 }) :=
  ⟨(C17_set_fmt_sets_line_time imx547_probe_state (fmt_of_code MEDIA_BUS_FMT_SRGGB10_1X10)
      (by decide)).1 (by decide),
   (C17_set_fmt_sets_line_time imx547_probe_state (fmt_of_code MEDIA_BUS_FMT_Y12_1X12)
      (by decide)).2 (by decide)⟩

/-- C18: in the attach state line_time is 0, and both divisions by it are
reached with that value: the exposure control callback (imx547_set_exposure,
imx547.c line 759) and imx547_s_frame_interval (imx547_set_frame_interval,
imx547.c line 954) divide by zero. -/
theorem C18_attach_state_has_no_line_time :
    imx547_probe_state.line_time = 0 ∧
    (imx547_s_ctrl quiet_bus imx547_probe_state [] V4L2_CID_EXPOSURE 1000).1
      = Outcome.undefined ∧
    (imx547_s_frame_interval quiet_bus imx547_probe_state []
      { numerator := 1, denominator := 60 }).1 = Outcome.undefined := by
  decide

/-- C20, counterexample: imx547_set_fmt with a 10-bit code in the attach
state returns 0 and changes line_time from 0 to 3700 with frame_length 2208;
floor((frame_length - min_shs) * line_time / 1000) is then 7969, while the
exposure maximum is still 16666. -/
theorem C20_counterexample :
    (imx547_set_fmt imx547_probe_state (fmt_of_code MEDIA_BUS_FMT_SRGGB10_1X10)).1
      = Outcome.ret 0 ∧
    imx547_probe_state.line_time = 0 ∧
    (imx547_set_fmt imx547_probe_state (fmt_of_code MEDIA_BUS_FMT_SRGGB10_1X10)).2.line_time
      = 3700 ∧
    stated_exposure_max
      (imx547_set_fmt imx547_probe_state (fmt_of_code MEDIA_BUS_FMT_SRGGB10_1X10)).2 = 7969 ∧
    (imx547_set_fmt imx547_probe_state
      (fmt_of_code MEDIA_BUS_FMT_SRGGB10_1X10)).2.ctrls.exposure.maximum = 16666 ∧
    (imx547_set_fmt imx547_probe_state
      (fmt_of_code MEDIA_BUS_FMT_SRGGB10_1X10)).2.ctrls.exposure.maximum
      ≠ stated_exposure_max
          (imx547_set_fmt imx547_probe_state (fmt_of_code MEDIA_BUS_FMT_SRGGB10_1X10)).2 := by
  decide

/-- C20 (amended): after an imx547_s_frame_interval that returns 0 on a bus
whose writes succeed, with the new frame_length at least min_shs and
M = floor((frame_length - min_shs) * line_time / 1000) at least 14 for the new
values, the exposure maximum equals M and the cached exposure lies within
[exposure.minimum, exposure.maximum].  imx547_set_fmt leaves the exposure
control, range and cached value, as it was.  After an imx547_s_stream(on)
that returns 0, started with an exposure range of ints with minimum <=
maximum, the cached exposure lies within [exposure.minimum,
exposure.maximum]. -/
theorem C20_exposure_stays_within_range (bus : Bus) (imx547 : stimx547) (tr : List Event)
    (hlock : imx547.lock = false) :
    (∀ fi : v4l2_fract, imx547.line_time < 2 ^ 32 → fi.denominator < 2 ^ 32 →
      (∀ h e, is_write e = true → bus.err h e = 0) →
      (imx547_s_frame_interval bus imx547 tr fi).1 = Outcome.ret 0 →
      min_shs imx547.format.code ≤ (imx547_s_frame_interval bus imx547 tr fi).2.1.frame_length →
      14 ≤ stated_exposure_max (imx547_s_frame_interval bus imx547 tr fi).2.1 →
      (imx547_s_frame_interval bus imx547 tr fi).2.1.ctrls.exposure.maximum
        = stated_exposure_max (imx547_s_frame_interval bus imx547 tr fi).2.1 ∧
      (imx547_s_frame_interval bus imx547 tr fi).2.1.ctrls.exposure.minimum
        ≤ (imx547_s_frame_interval bus imx547 tr fi).2.1.ctrls.exposure.val ∧
      (imx547_s_frame_interval bus imx547 tr fi).2.1.ctrls.exposure.val
        ≤ (imx547_s_frame_interval bus imx547 tr fi).2.1.ctrls.exposure.maximum) ∧
    (∀ format : v4l2_mbus_framefmt,
      (imx547_set_fmt imx547 format).2.ctrls.exposure = imx547.ctrls.exposure) ∧
    (∀ enable : Int, enable ≠ 0 →
      (imx547_s_stream bus imx547 tr enable).1 = Outcome.ret 0 →
      imx547.ctrls.exposure.minimum ≤ imx547.ctrls.exposure.maximum →
      -2 ^ 31 ≤ imx547.ctrls.exposure.minimum → imx547.ctrls.exposure.maximum < 2 ^ 31 →
      (imx547_s_stream bus imx547 tr enable).2.1.ctrls.exposure.minimum
        ≤ (imx547_s_stream bus imx547 tr enable).2.1.ctrls.exposure.val ∧
      (imx547_s_stream bus imx547 tr enable).2.1.ctrls.exposure.val
        ≤ (imx547_s_stream bus imx547 tr enable).2.1.ctrls.exposure.maximum) := by
  refine ⟨?_, ?_, ?_⟩
  · intro fi hlt32 hden hok hret hfl h14
    obtain ⟨-, -, -, h1, -⟩ :=
      imx547_s_frame_interval_exposure bus imx547 tr fi _ hlock hlt32 hden hret rfl hfl
    obtain ⟨v, hv, hr⟩ := h1 h14
    obtain ⟨hlo, hhi⟩ := hr hok
    rw [hv]
    exact ⟨rfl, hlo, hhi⟩
  · intro format
    have hlk : ¬ (imx547.lock = true) := by simp [hlock]
    unfold imx547_set_fmt
    rw [if_neg hlk]
    lift_lets
    intro p1 p2
    split_ifs <;> rfl
  · intro enable hon hret hmm hlo hhi
    rw [imx547_s_stream_on_exposure bus imx547 tr enable hon hlock hret]
    exact checked_exposure_within imx547 _ hmm hlo hhi

set_option maxRecDepth 100000 in
/-- C20, witness: the 12-bit format with the interval 1/60 on a bus that
accepts every write. -/
theorem C20_witness :
    (imx547_s_frame_interval quiet_bus (attached MEDIA_BUS_FMT_SRGGB12_1X12) []
        { numerator := 1, denominator := 60 }).2.1.ctrls.exposure.maximum
      = stated_exposure_max (imx547_s_frame_interval quiet_bus
          (attached MEDIA_BUS_FMT_SRGGB12_1X12) []
          { numerator := 1, denominator := 60 }).2.1 ∧
    (imx547_s_frame_interval quiet_bus (attached MEDIA_BUS_FMT_SRGGB12_1X12) []
        { numerator := 1, denominator := 60 }).2.1.ctrls.exposure.minimum
      ≤ (imx547_s_frame_interval quiet_bus (attached MEDIA_BUS_FMT_SRGGB12_1X12) []
        { numerator := 1, denominator := 60 }).2.1.ctrls.exposure.val ∧
    (imx547_s_frame_interval quiet_bus (attached MEDIA_BUS_FMT_SRGGB12_1X12) []
        { numerator := 1, denominator := 60 }).2.1.ctrls.exposure.val
      ≤ (imx547_s_frame_interval quiet_bus (attached MEDIA_BUS_FMT_SRGGB12_1X12) []
        { numerator := 1, denominator := 60 }).2.1.ctrls.exposure.maximum :=
  (C20_exposure_stays_within_range quiet_bus (attached MEDIA_BUS_FMT_SRGGB12_1X12) []
    (by decide)).1 { numerator := 1, denominator := 60 } (by decide) (by decide)
    (fun _ _ _ => rfl) (by decide) (by decide) (by decide)

set_option maxRecDepth 100000 in
/-- C21, counterexample: on the bus that stores the bytes written to it,
imx547_s_stream(on) in the 10-bit format returns 0 and leaves the line time
3690 ns, not the default 3700 ns. -/
theorem C21_counterexample :
    (imx547_s_stream (memory_bus (fun _ => 0)) (attached MEDIA_BUS_FMT_SRGGB10_1X10) [] 1).1
      = Outcome.ret 0 ∧
    (imx547_s_stream (memory_bus (fun _ => 0)) (attached MEDIA_BUS_FMT_SRGGB10_1X10)
      [] 1).2.1.line_time = 3690 ∧
    (imx547_s_stream (memory_bus (fun _ => 0)) (attached MEDIA_BUS_FMT_SRGGB10_1X10)
      [] 1).2.1.line_time ≠ IMX547_DEFAULT_LINE_TIME_10BIT := by
  decide

/-- C21 (amended): after an imx547_s_stream(on) that returns 0 on a bus that
reads back the bytes written to it, line_time is floor(HMAX * 10^9 / 74250000)
for the HMAX the mode table programs: 3690 ns when the format is 10-bit
(HMAX = 274) and 5494 ns when it is 12-bit (HMAX = 408). -/
theorem C21_line_time_after_stream_on (bus : Bus) (init : Nat → Nat) (imx547 : stimx547)
    (tr : List Event) (enable : Int) (hbus : Stores bus init) (hon : enable ≠ 0)
    (hlock : imx547.lock = false)
    (hret : (imx547_s_stream bus imx547 tr enable).1 = Outcome.ret 0) :
    (is_10bit imx547.format.code →
      (imx547_s_stream bus imx547 tr enable).2.1.line_time = 274 * 10 ^ 9 / 74250000 ∧
      (imx547_s_stream bus imx547 tr enable).2.1.line_time = 3690) ∧
    (¬ is_10bit imx547.format.code →
      (imx547_s_stream bus imx547 tr enable).2.1.line_time = 408 * 10 ^ 9 / 74250000 ∧
      (imx547_s_stream bus imx547 tr enable).2.1.line_time = 5494) := by
  obtain ⟨r1, r2, r3, r4, r5, -, -, e2, h2, e3, -, e4, -, e5, -, hs⟩ :=
    imx547_s_stream_on_success bus imx547 tr enable hon hlock hret
  have hl3 : r3.2.1.line_time = if is_10bit imx547.format.code then 3690 else 5494 := by
    rw [e3, e2]
    rw [e2] at h2
    exact line_time_after_mode_table bus init { imx547 with lock := true } r1.2 hbus h2
  have hl5 : r5.2.1.line_time = r3.2.1.line_time := by
    obtain ⟨hx, -⟩ := imx547_set_exposure_state bus r4.2.1 r4.2.2 r4.2.1.ctrls.exposure.val
    rw [← e5] at hx
    have h4 : r4.2.1.line_time = r3.2.1.line_time := by
      rw [e4]
      exact (imx547_set_frame_interval_keeps bus r3.2.1 r3.2.2).2.2.1
    rcases hx with hx | hx
    · rw [hx, h4]
    · rw [hx]
      exact h4
  have hfin : (imx547_s_stream bus imx547 tr enable).2.1.line_time
      = if is_10bit imx547.format.code then 3690 else 5494 := by
    rw [hs]
    exact hl5.trans hl3
  rw [hfin]
  constructor
  · intro h
    rw [if_pos h]
    exact ⟨by norm_num, rfl⟩
  · intro h
    rw [if_neg h]
    exact ⟨by norm_num, rfl⟩

set_option maxRecDepth 100000 in
/-- C21, witness: the 12-bit format on the bus that stores the bytes written
to it, over a register map that holds 0xFF everywhere. -/
theorem C21_witness :
    (imx547_s_stream (memory_bus (fun _ => 0xFF)) (attached MEDIA_BUS_FMT_SRGGB12_1X12)
        [] 1).2.1.line_time = 408 * 10 ^ 9 / 74250000 ∧
      (imx547_s_stream (memory_bus (fun _ => 0xFF)) (attached MEDIA_BUS_FMT_SRGGB12_1X12)
        [] 1).2.1.line_time = 5494 :=
  (C21_line_time_after_stream_on (memory_bus (fun _ => 0xFF)) (fun _ => 0xFF)
    (attached MEDIA_BUS_FMT_SRGGB12_1X12) [] 1 ⟨fun _ _ => rfl, fun _ _ _ => rfl⟩ (by decide)
    (by decide) (by decide)).2 (by decide)

/-- C22: for every 16-bit value hmax = b0 + 256 b1 read back little-endian
from HMAX, a succeeding read makes imx547_calculate_line_time return 0 and
store line_time = floor(hmax * 10^9 / 74250000): the product stays below 2^63
and the quotient below 2^32, so nothing wraps or is cut.  A failing read makes
it return the error of the bus and leave the state, line_time included, as it
was. -/
theorem C22_line_time_from_hmax (bus : Bus) (priv : stimx547) (tr : List Event) :
    (∀ b0 b1 : Nat, b0 < 256 → b1 < 256 → bus.data tr HMAX_LOW 2 = [b0, b1] →
      bus.err tr (Event.regmap_bulk_read HMAX_LOW 2) = 0 →
      imx547_calculate_line_time bus priv tr
        = (Outcome.ret 0,
            { priv with line_time := (b0 + 256 * b1) * 10 ^ 9 / 74250000 },
            tr ++ [Event.regmap_bulk_read HMAX_LOW 2]) ∧
      (b0 + 256 * b1) * 10 ^ 9 < 2 ^ 63 ∧ (b0 + 256 * b1) * 10 ^ 9 / 74250000 < 2 ^ 32) ∧
    (bus.err tr (Event.regmap_bulk_read HMAX_LOW 2) ≠ 0 →
      imx547_calculate_line_time bus priv tr
        = (Outcome.ret (bus.err tr (Event.regmap_bulk_read HMAX_LOW 2)), priv,
            tr ++ [Event.regmap_bulk_read HMAX_LOW 2])) := by
  constructor
  · intro b0 b1 h0 h1 hd he
    have hv : le32_to_cpu (List.take 2 [b0, b1]) = b0 + 256 * b1 := by
      simp [le32_to_cpu, Nat.mod_eq_of_lt h0, Nat.mod_eq_of_lt h1]
    have hb : (b0 + 256 * b1) * 10 ^ 9 / 74250000 < 2 ^ 32 := by
      norm_num
      omega
    refine ⟨?_, by norm_num; omega, hb⟩
    unfold imx547_calculate_line_time imx547_read_mbreg
    simp only [he, hd, hv, ne_eq, not_true_eq_false, if_false, IMX547_G_FACTOR, IMX547_INCK]
    rw [Nat.mod_eq_of_lt (by norm_num at hb ⊢; exact hb)]
    norm_num
  · intro he
    unfold imx547_calculate_line_time imx547_read_mbreg
    simp only [if_pos he]

/-- C22, witness: HMAX read back as the bytes 0x12, 0x01 (274) gives a line
time of 3690 ns. -/
theorem C22_witness :
    imx547_calculate_line_time hmax_bus imx547_probe_state []
        = (Outcome.ret 0,
            { imx547_probe_state with line_time := (0x12 + 256 * 0x01) * 10 ^ 9 / 74250000 },
            [] ++ [Event.regmap_bulk_read HMAX_LOW 2]) ∧
      (0x12 + 256 * 0x01) * 10 ^ 9 < 2 ^ 63 ∧
      (0x12 + 256 * 0x01) * 10 ^ 9 / 74250000 < 2 ^ 32 :=
  (C22_line_time_from_hmax hmax_bus imx547_probe_state []).1 0x12 0x01 (by decide) (by decide)
    rfl rfl

/-- C23: with the ranges registered at attach ([0, 480] for the gain, [0, 1023]
for the black level), for every integer input v the gain control set issues
exactly one access, the 2-byte write of clamp(v, 0, 480) to GAIN (0x3514), low
byte first, returns what the bus answers to it, and when that is 0 the cached
gain is clamp(v, 0, 480) and nothing else in the state has changed; the
black-level control set does the same with clamp(v, 0, 1023) and BLKLEVEL
(0x35B4).  An out-of-range input is written and cached as the nearest bound,
not as given. -/
theorem C23_control_set_clamps (bus : Bus) (priv : stimx547) (tr : List Event) (v : Int)
    (hgmin : priv.ctrls.gain.minimum = IMX547_MIN_GAIN)
    (hgmax : priv.ctrls.gain.maximum = IMX547_MAX_GAIN)
    (hbmin : priv.ctrls.black_level.minimum = IMX547_MIN_BLACK_LEVEL)
    (hbmax : priv.ctrls.black_level.maximum = IMX547_MAX_BLACK_LEVEL_10BIT) :
    ((v4l2_s_ctrl bus priv tr V4L2_CID_GAIN v).2.2
        = tr ++ [Event.regmap_bulk_write 0x3514
            [(clamp v 0 480).toNat % 256, (clamp v 0 480).toNat / 256]] ∧
      (v4l2_s_ctrl bus priv tr V4L2_CID_GAIN v).1
        = Outcome.ret (bus.err tr (Event.regmap_bulk_write 0x3514
            [(clamp v 0 480).toNat % 256, (clamp v 0 480).toNat / 256])) ∧
      ((v4l2_s_ctrl bus priv tr V4L2_CID_GAIN v).1 = Outcome.ret 0 →
        (v4l2_s_ctrl bus priv tr V4L2_CID_GAIN v).2.1
          = { priv with ctrls := { priv.ctrls with
                gain := { priv.ctrls.gain with val := clamp v 0 480 } } })) ∧
    ((v4l2_s_ctrl bus priv tr V4L2_CID_BLACK_LEVEL v).2.2
        = tr ++ [Event.regmap_bulk_write 0x35B4
            [(clamp v 0 1023).toNat % 256, (clamp v 0 1023).toNat / 256]] ∧
      (v4l2_s_ctrl bus priv tr V4L2_CID_BLACK_LEVEL v).1
        = Outcome.ret (bus.err tr (Event.regmap_bulk_write 0x35B4
            [(clamp v 0 1023).toNat % 256, (clamp v 0 1023).toNat / 256])) ∧
      ((v4l2_s_ctrl bus priv tr V4L2_CID_BLACK_LEVEL v).1 = Outcome.ret 0 →
        (v4l2_s_ctrl bus priv tr V4L2_CID_BLACK_LEVEL v).2.1
          = { priv with ctrls := { priv.ctrls with
                black_level := { priv.ctrls.black_level with val := clamp v 0 1023 } } })) := by
  obtain ⟨eg, eb⟩ := v4l2_s_ctrl_gain_black_level bus priv tr v
  have hg : clamp v priv.ctrls.gain.minimum priv.ctrls.gain.maximum = clamp v 0 480 := by
    rw [hgmin, hgmax]
    rfl
  have hb : clamp v priv.ctrls.black_level.minimum priv.ctrls.black_level.maximum
      = clamp v 0 1023 := by
    rw [hbmin, hbmax]
    rfl
  rw [eg, eb, hg, hb]
  obtain ⟨g0, g1⟩ := clamp_within v 0 480 (by norm_num)
  obtain ⟨b0, b1⟩ := clamp_within v 0 1023 (by norm_num)
  obtain ⟨x1, x2, x3, -⟩ := imx547_set_gain_eq bus priv tr (clamp v 0 480) g0 (by omega)
  obtain ⟨y1, y2, y3, -⟩ := imx547_set_black_level_eq bus priv tr (clamp v 0 1023) b0 (by omega)
  exact ⟨⟨x1, x2, x3⟩, ⟨y1, y2, y3⟩⟩

/-- C23, witness: in the attach state, on a bus where everything succeeds, the
gain control set with 1000 writes 480 (0xE0, 0x01) to GAIN and caches 480, and
the black-level control set with -1 writes 0 to BLKLEVEL and caches 0. -/
theorem C23_witness :
    (v4l2_s_ctrl quiet_bus imx547_probe_state [] V4L2_CID_GAIN 1000).2.1
      = { imx547_probe_state with ctrls := { imx547_probe_state.ctrls with
            gain := { imx547_probe_state.ctrls.gain with val := clamp 1000 0 480 } } } ∧
    v4l2_s_ctrl quiet_bus imx547_probe_state [] V4L2_CID_GAIN 1000
      = (Outcome.ret 0,
          { imx547_probe_state with ctrls := { imx547_probe_state.ctrls with
              gain := { imx547_probe_state.ctrls.gain with val := 480 } } },
          [Event.regmap_bulk_write 0x3514 [0xE0, 0x01]]) ∧
    v4l2_s_ctrl quiet_bus imx547_probe_state [] V4L2_CID_BLACK_LEVEL (-1)
      = (Outcome.ret 0,
          { imx547_probe_state with ctrls := { imx547_probe_state.ctrls with
              black_level := { imx547_probe_state.ctrls.black_level with val := 0 } } },
          [Event.regmap_bulk_write 0x35B4 [0x00, 0x00]]) :=
  ⟨(C23_control_set_clamps quiet_bus imx547_probe_state [] 1000 rfl rfl rfl rfl).1.2.2
      (by decide),
    by decide, by decide⟩

/-- C24: for every state and every bus, including one on which either write
fails, imx547_stop_stream returns 0 and issues exactly two register writes in
this order, STANDBY (0x3000) = 0x01 and then, after the pause, XMSTA (0x3010)
= 0x01, whatever the bus answered to the first; imx547_s_stream(off), entered
with the mutex free, returns 0 with the same accesses, leaves the state as it
was and releases the mutex. -/
theorem C24_stop_is_best_effort (bus : Bus) (imx547 : stimx547) (tr : List Event) :
    imx547_stop_stream bus tr
      = (Outcome.ret 0,
          tr ++ [Event.regmap_write 0x3000 0x01, Event.usleep_range 100 110,
            Event.regmap_write 0x3010 0x01]) ∧
    reg_writes ([Event.regmap_write 0x3000 0x01, Event.usleep_range 100 110,
        Event.regmap_write 0x3010 0x01]) = [(0x3000, 0x01), (0x3010, 0x01)] ∧
    (imx547.lock = false →
      imx547_s_stream bus imx547 tr 0
        = (Outcome.ret 0, imx547,
            tr ++ [Event.regmap_write 0x3000 0x01, Event.usleep_range 100 110,
              Event.regmap_write 0x3010 0x01])) := by
  have hs : imx547_stop_stream bus tr
      = (Outcome.ret 0,
          tr ++ [Event.regmap_write 0x3000 0x01, Event.usleep_range 100 110,
            Event.regmap_write 0x3010 0x01]) := by
    simp [imx547_stop_stream, imx547_write_reg, STANDBY, XMSTA]
  refine ⟨hs, by decide, fun hlock => ?_⟩
  obtain ⟨ctrls, fmt, fi, lock, fl, lt⟩ := imx547
  simp only at hlock
  subst hlock
  unfold imx547_s_stream
  simp only [Bool.false_eq_true, if_false, ne_eq, not_true_eq_false, hs]

/-- C24, witness: on a bus where every access fails, imx547_s_stream(off)
after attach returns 0 with both writes issued. -/
theorem C24_witness :
    imx547_probe_state.lock = false ∧
    imx547_s_stream dead_bus imx547_probe_state [] 0
      = (Outcome.ret 0, imx547_probe_state,
          [] ++ [Event.regmap_write 0x3000 0x01, Event.usleep_range 100 110,
            Event.regmap_write 0x3010 0x01]) :=
  ⟨rfl, (C24_stop_is_best_effort dead_bus imx547_probe_state []).2.2 rfl⟩

set_option maxRecDepth 100000 in
/-- C25: after attach and imx547_set_fmt with a 12-bit code, on a bus that
refuses the 3-byte SHS write with -EIO, imx547_s_frame_interval(1/60) writes
the frame length 3030 to VMAX, issues the SHS write that re-applies the
exposure, is answered -EIO, and returns 0 to its caller; the same failure of
the VMAX write is returned as -EIO, and imx547_s_stream(on) returns the -EIO
of the same SHS write. -/
theorem C25_shs_failure_is_dropped :
    imx547_s_frame_interval shs_fail_bus (attached MEDIA_BUS_FMT_SRGGB12_1X12) []
        ⟨1, 60⟩
      = (Outcome.ret 0,
          { attached MEDIA_BUS_FMT_SRGGB12_1X12 with
            frame_interval := ⟨1, 60⟩, frame_length := 3030,
            ctrls := { (attached MEDIA_BUS_FMT_SRGGB12_1X12).ctrls with
              exposure := { (attached MEDIA_BUS_FMT_SRGGB12_1X12).ctrls.exposure with
                minimum := 14, maximum := 16445, default_value := 16445 } } },
          [Event.regmap_bulk_write VMAX_LOW [0xD6, 0x0B, 0x00],
            Event.regmap_bulk_write SHS_LOW [0x21, 0x0B, 0x00]]) ∧
    shs_fail_bus.err [Event.regmap_bulk_write VMAX_LOW [0xD6, 0x0B, 0x00]]
        (Event.regmap_bulk_write SHS_LOW [0x21, 0x0B, 0x00]) = -5 ∧
    (imx547_s_frame_interval vmax_fail_bus (attached MEDIA_BUS_FMT_SRGGB12_1X12) []
        ⟨1, 60⟩).1 = Outcome.ret (-5) ∧
    (imx547_s_stream shs_fail_bus (attached MEDIA_BUS_FMT_SRGGB12_1X12) [] 1).1
      = Outcome.ret (-5) := by
  decide

/-- C27: after attach, imx547_set_fmt with a media bus code the driver does
not support (0) returns -EINVAL with the lock still held, so the next entry
point (imx547_get_fmt) finds it taken.  On every other path the lock is
released: imx547_set_fmt holds it afterwards exactly when the code is not
supported, and imx547_get_fmt, imx547_s_frame_interval and imx547_s_stream,
entered with the lock free, release it for every input and every bus. -/
theorem C27_set_fmt_keeps_lock_on_error :
    imx547_set_fmt imx547_probe_state (fmt_of_code 0)
      = (Outcome.ret (-EINVAL),
          { imx547_probe_state with format := fmt_of_code 0, lock := true }) ∧
    (imx547_get_fmt (imx547_set_fmt imx547_probe_state (fmt_of_code 0)).2).1
      = Outcome.blocked ∧
    (∀ (bus : Bus) (imx547 : stimx547) (tr : List Event) (format : v4l2_mbus_framefmt)
        (fi : v4l2_fract) (enable : Int),
      (imx547_set_fmt { imx547 with lock := false } format).2.lock
        = !decide (supported_code format.code) ∧
      (imx547_get_fmt { imx547 with lock := false }).2.1.lock = false ∧
      (imx547_s_frame_interval bus { imx547 with lock := false } tr fi).2.1.lock = false ∧
      (imx547_s_stream bus { imx547 with lock := false } tr enable).2.1.lock = false) := by
  refine ⟨by decide, by decide, fun bus imx547 tr format fi enable => ⟨?_, rfl,
    imx547_s_frame_interval_releases bus imx547 tr fi,
    imx547_s_stream_releases bus imx547 tr enable⟩⟩
  unfold imx547_set_fmt supported_code
  rw [if_neg (by simp)]
  by_cases h10 : format.code = MEDIA_BUS_FMT_SRGGB10_1X10 ∨ format.code = MEDIA_BUS_FMT_Y10_1X10
  · have hs : format.code = MEDIA_BUS_FMT_SRGGB10_1X10 ∨ format.code = MEDIA_BUS_FMT_Y10_1X10 ∨
        format.code = MEDIA_BUS_FMT_SRGGB12_1X12 ∨ format.code = MEDIA_BUS_FMT_Y12_1X12 := by
      tauto
    simp only [if_pos h10, decide_eq_true hs]
    rfl
  · by_cases h12 : format.code = MEDIA_BUS_FMT_SRGGB12_1X12 ∨ format.code = MEDIA_BUS_FMT_Y12_1X12
    · have hs : format.code = MEDIA_BUS_FMT_SRGGB10_1X10 ∨
          format.code = MEDIA_BUS_FMT_Y10_1X10 ∨
          format.code = MEDIA_BUS_FMT_SRGGB12_1X12 ∨ format.code = MEDIA_BUS_FMT_Y12_1X12 := by
        tauto
      simp only [if_neg h10, if_pos h12, decide_eq_true hs]
      rfl
    · have hs : ¬ (format.code = MEDIA_BUS_FMT_SRGGB10_1X10 ∨
          format.code = MEDIA_BUS_FMT_Y10_1X10 ∨
          format.code = MEDIA_BUS_FMT_SRGGB12_1X12 ∨ format.code = MEDIA_BUS_FMT_Y12_1X12) := by
        tauto
      simp only [if_neg h10, if_neg h12, decide_eq_false hs]
      rfl

/-- C28: for every state with a supported format, line_time > 0 and
min_shs < frame_length <= 2^24, for every integer input v, every exposure
range and every bus, imx547_set_exposure issues exactly one access, the
3-byte write to SHS of a value shs with min_shs <= shs <= frame_length - 1;
shs is below 2^24, so the three bytes written hold it without truncation.
Nothing is assumed on frame_length - lines, so the bounds hold also when its
unsigned 32-bit value wraps around. -/
theorem C28_shs_within_bounds (bus : Bus) (priv : stimx547) (tr : List Event) (v : Int)
    (hfmt : supported_code priv.format.code) (hlt : 0 < priv.line_time)
    (hmin : min_shs priv.format.code < priv.frame_length)
    (hmax : priv.frame_length ≤ 2 ^ 24) :
    ∃ shs : Nat,
      (imx547_set_exposure bus priv tr v).2.2
        = tr ++ [Event.regmap_bulk_write SHS_LOW (le_bytes shs 3)] ∧
      min_shs priv.format.code ≤ shs ∧ shs ≤ priv.frame_length - 1 ∧ shs < 2 ^ 24 ∧
      le32_to_cpu (le_bytes shs 3) = shs := by
  have hsup : priv.format.code = MEDIA_BUS_FMT_SRGGB10_1X10 ∨
      priv.format.code = MEDIA_BUS_FMT_Y10_1X10 ∨
      priv.format.code = MEDIA_BUS_FMT_SRGGB12_1X12 ∨
      priv.format.code = MEDIA_BUS_FMT_Y12_1X12 := hfmt
  have hlt0 : priv.line_time ≠ 0 := Nat.pos_iff_ne_zero.mp hlt
  unfold imx547_set_exposure
  lift_lets
  intro v1 itl shs0 mn shs r s1 s2
  have hmn : mn = min_shs priv.format.code := by
    simp only [mn, min_shs, is_10bit, IMX547_MIN_SHS_LENGTH_10BIT, IMX547_MIN_SHS_LENGTH_12BIT]
  have hb : mn ≤ shs ∧ shs ≤ priv.frame_length - 1 :=
    shs_checks_bounds shs0 mn priv.frame_length (hmn ▸ hmin) hmax
  have hr : r.2 = tr ++ [Event.regmap_bulk_write SHS_LOW (le_bytes (shs % 2 ^ 32) 3)] := rfl
  clear_value r shs mn shs0 itl v1
  have h24 : shs < 2 ^ 24 := by omega
  rw [Nat.mod_eq_of_lt (by omega)] at hr
  rw [if_neg hlt0, if_pos hsup]
  refine ⟨shs, ?_, hmn ▸ hb.1, hb.2, h24, le32_to_cpu_le_bytes_three shs h24⟩
  split_ifs <;> exact hr

/-- C28, witness: in the 12-bit state after attach with frame_length 2208, the
exposure 16666 us is 3030 lines, more than a frame: the subtraction wraps,
and the value written is within the bounds. -/
theorem C28_witness :
    ∃ shs : Nat,
      (imx547_set_exposure quiet_bus (attached MEDIA_BUS_FMT_SRGGB12_1X12) [] 16666).2.2
        = [] ++ [Event.regmap_bulk_write SHS_LOW (le_bytes shs 3)] ∧
      min_shs (attached MEDIA_BUS_FMT_SRGGB12_1X12).format.code ≤ shs ∧
      shs ≤ (attached MEDIA_BUS_FMT_SRGGB12_1X12).frame_length - 1 ∧ shs < 2 ^ 24 ∧
      le32_to_cpu (le_bytes shs 3) = shs :=
  C28_shs_within_bounds quiet_bus (attached MEDIA_BUS_FMT_SRGGB12_1X12) [] 16666
    (by decide) (by decide) (by decide) (by decide)

/-- C29: for every 32-bit numerator and denominator, every supported format
and every line_time with 0 < line_time < 2^32, imx547_set_frame_interval
returns, the interval num'/den' it stores is the clamped one, and the stored
frame_length equals floor(10^15 / (R * line_time)) with
R = floor(10^6 * den' / num'); hence frame_length * line_time * R <= 10^15.
No intermediate value overflows 64 bits: the products 10^6 * den of the
request (or of the default 60) and 10^6 * den', the constant 10^15 and the
divisor R * line_time, which is not zero, are all below 2^63. -/
theorem C29_frame_length_without_overflow (bus : Bus) (priv : stimx547) (tr : List Event)
    (hfmt : supported_code priv.format.code) (hlt : 0 < priv.line_time)
    (hlt32 : priv.line_time < 2 ^ 32) (hnum : priv.frame_interval.numerator < 2 ^ 32)
    (hden : priv.frame_interval.denominator < 2 ^ 32) :
    (∃ code, (imx547_set_frame_interval bus priv tr).1 = Outcome.ret code) ∧
    (imx547_set_frame_interval bus priv tr).2.1.frame_interval
      = settled_interval priv.format.code priv.frame_interval ∧
    (imx547_set_frame_interval bus priv tr).2.1.frame_length
      = 10 ^ 15 /
          (10 ^ 6 * (imx547_set_frame_interval bus priv tr).2.1.frame_interval.denominator /
              (imx547_set_frame_interval bus priv tr).2.1.frame_interval.numerator *
            priv.line_time) ∧
    (imx547_set_frame_interval bus priv tr).2.1.frame_length * priv.line_time *
        (10 ^ 6 * (imx547_set_frame_interval bus priv tr).2.1.frame_interval.denominator /
          (imx547_set_frame_interval bus priv tr).2.1.frame_interval.numerator) ≤ 10 ^ 15 ∧
    IMX547_M_FACTOR * (if priv.frame_interval.numerator = 0 ∨
        priv.frame_interval.denominator = 0 then IMX547_DEF_FRAME_RATE
      else priv.frame_interval.denominator) < 2 ^ 63 ∧
    IMX547_M_FACTOR * (imx547_set_frame_interval bus priv tr).2.1.frame_interval.denominator
      < 2 ^ 63 ∧
    IMX547_M_FACTOR * IMX547_G_FACTOR < 2 ^ 63 ∧
    0 < 10 ^ 6 * (imx547_set_frame_interval bus priv tr).2.1.frame_interval.denominator /
          (imx547_set_frame_interval bus priv tr).2.1.frame_interval.numerator *
        priv.line_time ∧
    10 ^ 6 * (imx547_set_frame_interval bus priv tr).2.1.frame_interval.denominator /
          (imx547_set_frame_interval bus priv tr).2.1.frame_interval.numerator *
        priv.line_time < 2 ^ 63 := by
  rw [imx547_set_frame_interval_eq bus priv tr hfmt hlt hlt32 hden]
  dsimp only
  obtain ⟨hlo, -⟩ := settled_interval_rate priv.format.code priv.frame_interval
  have hhi := settled_interval_rate_le_max priv.format.code priv.frame_interval
  obtain ⟨-, hsd⟩ := settled_interval_fields priv.format.code priv.frame_interval hnum hden
  have hmx : max_rate priv.format.code ≤ 122200000 := by
    unfold max_rate
    split_ifs <;> norm_num
  have hreq : IMX547_M_FACTOR * (if priv.frame_interval.numerator = 0 ∨
        priv.frame_interval.denominator = 0 then IMX547_DEF_FRAME_RATE
      else priv.frame_interval.denominator) < 2 ^ 63 := by
    unfold IMX547_M_FACTOR IMX547_DEF_FRAME_RATE
    split_ifs <;> omega
  have hsd2 : IMX547_M_FACTOR * (settled_interval priv.format.code
      priv.frame_interval).denominator < 2 ^ 63 := by
    unfold IMX547_M_FACTOR
    omega
  have e6 : (10 : Nat) ^ 6 = 1000000 := by norm_num
  have e15 : (10 : Nat) ^ 15 = 1000000000000000 := by norm_num
  have e63 : (2 : Nat) ^ 63 = 9223372036854775808 := by norm_num
  have hfl : (10 : Nat) ^ 6 * 10 ^ 9 = 10 ^ 15 := by norm_num
  rw [hfl, e6, e15, e63]
  generalize 1000000 * (settled_interval priv.format.code priv.frame_interval).denominator /
    (settled_interval priv.format.code priv.frame_interval).numerator = R at hlo hhi ⊢
  have hpos : 0 < R * priv.line_time := Nat.mul_pos (by omega) hlt
  have hub : R * priv.line_time < 9223372036854775808 := by
    calc R * priv.line_time ≤ 122200000 * 2 ^ 32 :=
          Nat.mul_le_mul (by omega) (le_of_lt hlt32)
      _ < 9223372036854775808 := by norm_num
  refine ⟨⟨_, rfl⟩, rfl, rfl, ?_, e63 ▸ hreq, e63 ▸ hsd2, by decide, hpos, hub⟩
  calc 1000000000000000 / (R * priv.line_time) * priv.line_time * R
      = 1000000000000000 / (R * priv.line_time) * (R * priv.line_time) := by ring
    _ ≤ 1000000000000000 := Nat.div_mul_le_self _ _

/-- C29, witness: the 12-bit state after attach with the interval 1/60. -/
theorem C29_witness :
    (imx547_set_frame_interval quiet_bus (attached MEDIA_BUS_FMT_SRGGB12_1X12)
        []).2.1.frame_length
      = 10 ^ 15 /
          (10 ^ 6 * (imx547_set_frame_interval quiet_bus
              (attached MEDIA_BUS_FMT_SRGGB12_1X12) []).2.1.frame_interval.denominator /
            (imx547_set_frame_interval quiet_bus
              (attached MEDIA_BUS_FMT_SRGGB12_1X12) []).2.1.frame_interval.numerator *
            (attached MEDIA_BUS_FMT_SRGGB12_1X12).line_time) :=
  (C29_frame_length_without_overflow quiet_bus (attached MEDIA_BUS_FMT_SRGGB12_1X12) []
    (by decide) (by decide) (by decide) (by decide) (by decide)).2.2.1

/-- C30: for every request whose numerator or denominator is 0, in a supported
format with a line time that is not zero, imx547_set_frame_interval does what
it does for the request 1/60: the rate it computes is 10^6 * 60 / 1, divided
by the numerator 1, and the divisor R * line_time of the frame length is not
zero, so it returns (nothing is divided by zero); the interval it stores is
exactly 1/60, and the frame length is floor(10^15 / (60000000 * line_time)). -/
theorem C30_zero_request_becomes_default (bus : Bus) (priv : stimx547) (tr : List Event)
    (hzero : priv.frame_interval.numerator = 0 ∨ priv.frame_interval.denominator = 0)
    (hfmt : supported_code priv.format.code) (hlt : 0 < priv.line_time)
    (hlt32 : priv.line_time < 2 ^ 32) (hden : priv.frame_interval.denominator < 2 ^ 32) :
    imx547_set_frame_interval bus priv tr
      = imx547_set_frame_interval bus
          { priv with frame_interval := { numerator := 1, denominator := IMX547_DEF_FRAME_RATE } }
          tr ∧
    (∃ code, (imx547_set_frame_interval bus priv tr).1 = Outcome.ret code) ∧
    (imx547_set_frame_interval bus priv tr).2.1.frame_interval
      = { numerator := 1, denominator := 60 } ∧
    (imx547_set_frame_interval bus priv tr).2.1.frame_length
      = 10 ^ 15 / (10 ^ 6 * 60 / 1 * priv.line_time) ∧
    0 < 10 ^ 6 * 60 / 1 * priv.line_time := by
  have hq : supported_code ({ priv with frame_interval :=
      { numerator := 1, denominator := IMX547_DEF_FRAME_RATE } } : stimx547).format.code := hfmt
  rw [imx547_set_frame_interval_eq bus priv tr hfmt hlt hlt32 hden,
    imx547_set_frame_interval_eq bus { priv with frame_interval :=
      { numerator := 1, denominator := IMX547_DEF_FRAME_RATE } } tr hq hlt hlt32
      (by show (60 : Nat) < 2 ^ 32; norm_num)]
  dsimp only
  have e60 : IMX547_DEF_FRAME_RATE = 60 := rfl
  rw [e60, settled_interval_of_zero priv.format.code priv.frame_interval hzero,
    settled_interval_of_default priv.format.code]
  refine ⟨rfl, ⟨_, rfl⟩, rfl, by norm_num, ?_⟩
  exact Nat.mul_pos (by norm_num) hlt

/-- C30, witness: the request 0/0 in the 10-bit state after attach. -/
theorem C30_witness :
    (imx547_set_frame_interval quiet_bus
        { attached MEDIA_BUS_FMT_SRGGB10_1X10 with
          frame_interval := { numerator := 0, denominator := 0 } } []).2.1.frame_interval
      = { numerator := 1, denominator := 60 } :=
  (C30_zero_request_becomes_default quiet_bus
    { attached MEDIA_BUS_FMT_SRGGB10_1X10 with
      frame_interval := { numerator := 0, denominator := 0 } } []
    (by decide) (by decide) (by decide) (by decide) (by decide)).2.2.1

/-- C31, counterexample: two states that meet the conditions of the claim.
With the range [-2147482569, 1000], line_time 500 and frame_length 2208, the
input -2147482569 writes SHS = 50 and the larger input 0 writes SHS = 2207.
With frame_length 2^24 + 100, line_time 1000 and the range [14, 16666], the
input 50 makes the three bytes 0x32 0x00 0x00 (50) and the larger input 200
makes them 0x9C 0xFF 0xFF (16777116). -/
theorem C31_counterexample :
    (supported_code negative_minimum_state.format.code ∧
      0 < negative_minimum_state.line_time ∧
      min_shs negative_minimum_state.format.code < negative_minimum_state.frame_length ∧
      negative_minimum_state.frame_length < 2 ^ 32 ∧
      negative_minimum_state.ctrls.exposure.minimum
        ≤ negative_minimum_state.ctrls.exposure.maximum ∧
      negative_minimum_state.ctrls.exposure.maximum * 1000 / negative_minimum_state.line_time
        ≤ negative_minimum_state.frame_length ∧
      (imx547_set_exposure quiet_bus negative_minimum_state [] (-2147482569)).2.2
        = [Event.regmap_bulk_write SHS_LOW [50, 0, 0]] ∧
      (imx547_set_exposure quiet_bus negative_minimum_state [] 0).2.2
        = [Event.regmap_bulk_write SHS_LOW [0x9F, 0x08, 0]] ∧
      written_shs negative_minimum_state (-2147482569) = 50 ∧
      written_shs negative_minimum_state 0 = 2207) ∧
    (supported_code tall_frame_state.format.code ∧
      0 < tall_frame_state.line_time ∧
      min_shs tall_frame_state.format.code < tall_frame_state.frame_length ∧
      tall_frame_state.frame_length < 2 ^ 32 ∧
      tall_frame_state.ctrls.exposure.minimum ≤ tall_frame_state.ctrls.exposure.maximum ∧
      tall_frame_state.ctrls.exposure.maximum * 1000 / tall_frame_state.line_time
        ≤ tall_frame_state.frame_length ∧
      (imx547_set_exposure quiet_bus tall_frame_state [] 50).2.2
        = [Event.regmap_bulk_write SHS_LOW [0x32, 0x00, 0x00]] ∧
      (imx547_set_exposure quiet_bus tall_frame_state [] 200).2.2
        = [Event.regmap_bulk_write SHS_LOW [0x9C, 0xFF, 0xFF]] ∧
      le32_to_cpu [0x32, 0x00, 0x00] = 50 ∧ le32_to_cpu [0x9C, 0xFF, 0xFF] = 16777116) := by
  decide

/-- C31 (amended): for every state with a supported format, line_time > 0,
min_shs < frame_length < 2^32, 0 <= exposure.minimum <= exposure.maximum and
floor(exposure.maximum * 1000 / line_time) <= frame_length, and for all int
inputs v1 <= v2, imx547_set_exposure writes to SHS the three low bytes of a
32-bit value written_shs, and the value for v2 is less than or equal to the
one for v1; when frame_length <= 2^24 the three bytes hold these values in
full, so the same holds for what the register receives. -/
theorem C31_longer_exposure_never_shorter (bus : Bus) (priv : stimx547) (tr : List Event)
    (v1 v2 : Int) (hfmt : supported_code priv.format.code) (hlt : 0 < priv.line_time)
    (hmin : min_shs priv.format.code < priv.frame_length)
    (hfl : priv.frame_length < 2 ^ 32) (h0 : 0 ≤ priv.ctrls.exposure.minimum)
    (hmm : priv.ctrls.exposure.minimum ≤ priv.ctrls.exposure.maximum)
    (hmax : priv.ctrls.exposure.maximum * 1000 / priv.line_time ≤ priv.frame_length)
    (h12 : v1 ≤ v2) (hint : v2 < 2 ^ 31) :
    (imx547_set_exposure bus priv tr v1).2.2
      = tr ++ [Event.regmap_bulk_write SHS_LOW (le_bytes (written_shs priv v1) 3)] ∧
    (imx547_set_exposure bus priv tr v2).2.2
      = tr ++ [Event.regmap_bulk_write SHS_LOW (le_bytes (written_shs priv v2) 3)] ∧
    written_shs priv v2 ≤ written_shs priv v1 ∧
    (priv.frame_length ≤ 2 ^ 24 →
      le32_to_cpu (le_bytes (written_shs priv v1) 3) = written_shs priv v1 ∧
      le32_to_cpu (le_bytes (written_shs priv v2) 3) = written_shs priv v2) := by
  have hlt0 : priv.line_time ≠ 0 := Nat.pos_iff_ne_zero.mp hlt
  have hb1 := written_shs_le priv v1 hmin hfl
  have hb2 := written_shs_le priv v2 hmin hfl
  have t1 := imx547_set_exposure_trace bus priv tr v1 hfmt hlt0
  have t2 := imx547_set_exposure_trace bus priv tr v2 hfmt hlt0
  rw [Nat.mod_eq_of_lt (by omega)] at t1 t2
  refine ⟨t1, t2, written_shs_antitone priv v1 v2 hlt hmin hfl h0 hmm hmax h12 hint,
    fun h24 => ⟨le32_to_cpu_le_bytes_three _ (by omega), le32_to_cpu_le_bytes_three _ (by omega)⟩⟩

/-- C31, witness: the 12-bit state that imx547_s_frame_interval(1/60) leaves
after attach (frame_length 3030, range [14, 16445]), with the inputs 100 and
1000. -/
theorem C31_witness :
    written_shs (imx547_s_frame_interval quiet_bus (attached MEDIA_BUS_FMT_SRGGB12_1X12) []
        ⟨1, 60⟩).2.1 1000
      ≤ written_shs (imx547_s_frame_interval quiet_bus (attached MEDIA_BUS_FMT_SRGGB12_1X12) []
        ⟨1, 60⟩).2.1 100 :=
  (C31_longer_exposure_never_shorter quiet_bus
    (imx547_s_frame_interval quiet_bus (attached MEDIA_BUS_FMT_SRGGB12_1X12) [] ⟨1, 60⟩).2.1
    [] 100 1000 (by decide) (by decide) (by decide) (by decide) (by decide) (by decide)
    (by decide) (by decide) (by decide)).2.2.1

/-- C32: for every state with a supported format, line_time >= 1000,
min_shs < frame_length < 2^24 and the exposure range as set by
imx547_s_frame_interval (minimum 14, maximum
floor((frame_length - min_shs) * line_time / 1000)), imx547_set_exposure with
the range maximum writes to SHS, in three bytes that hold it in full, a value
equal to min_shs or min_shs + 1. -/
theorem C32_maximum_exposure_reaches_min_shs (bus : Bus) (priv : stimx547) (tr : List Event)
    (hfmt : supported_code priv.format.code) (hlt : 1000 ≤ priv.line_time)
    (hmin : min_shs priv.format.code < priv.frame_length) (hfl : priv.frame_length < 2 ^ 24)
    (hmn : priv.ctrls.exposure.minimum = 14)
    (hmx : priv.ctrls.exposure.maximum = stated_exposure_max priv) :
    (imx547_set_exposure bus priv tr priv.ctrls.exposure.maximum).2.2
      = tr ++ [Event.regmap_bulk_write SHS_LOW
          (le_bytes (written_shs priv priv.ctrls.exposure.maximum) 3)] ∧
    le32_to_cpu (le_bytes (written_shs priv priv.ctrls.exposure.maximum) 3)
      = written_shs priv priv.ctrls.exposure.maximum ∧
    (written_shs priv priv.ctrls.exposure.maximum = min_shs priv.format.code ∨
      written_shs priv priv.ctrls.exposure.maximum = min_shs priv.format.code + 1) := by
  have hlt0 : priv.line_time ≠ 0 := by omega
  have hb := written_shs_le priv priv.ctrls.exposure.maximum hmin (by omega)
  have t := imx547_set_exposure_trace bus priv tr priv.ctrls.exposure.maximum hfmt hlt0
  rw [Nat.mod_eq_of_lt (by omega)] at t
  exact ⟨t, le32_to_cpu_le_bytes_three _ (by omega),
    written_shs_at_maximum priv hlt hmin hfl hmn hmx⟩

/-- C32, witness: the 12-bit state that imx547_s_frame_interval(1/60) leaves
after attach (line_time 5500, frame_length 3030, range [14, 16445]): the
maximum 16445 us is 2990 lines and SHS = 40 = min_shs is written. -/
theorem C32_witness :
    (imx547_set_exposure quiet_bus
        (imx547_s_frame_interval quiet_bus (attached MEDIA_BUS_FMT_SRGGB12_1X12) []
          ⟨1, 60⟩).2.1 []
        (imx547_s_frame_interval quiet_bus (attached MEDIA_BUS_FMT_SRGGB12_1X12) []
          ⟨1, 60⟩).2.1.ctrls.exposure.maximum).2.2
      = [] ++ [Event.regmap_bulk_write SHS_LOW
          (le_bytes (written_shs
            (imx547_s_frame_interval quiet_bus (attached MEDIA_BUS_FMT_SRGGB12_1X12) []
              ⟨1, 60⟩).2.1
            (imx547_s_frame_interval quiet_bus (attached MEDIA_BUS_FMT_SRGGB12_1X12) []
              ⟨1, 60⟩).2.1.ctrls.exposure.maximum) 3)] :=
  (C32_maximum_exposure_reaches_min_shs quiet_bus
    (imx547_s_frame_interval quiet_bus (attached MEDIA_BUS_FMT_SRGGB12_1X12) [] ⟨1, 60⟩).2.1 []
    (by decide) (by decide) (by decide) (by decide) (by decide) (by decide)).1


end IMX547
